import Mathlib

/-!
Verification development for the SystemFailuresAiAgent repository.

The Python source is shallowly embedded in Lean:
- machine floats become exact rationals (`ℚ`); the transcendental part of
  `random.gauss` (log/sqrt/cos/sin over the two consumed uniform draws) is
  abstracted as an explicit function parameter `GaussF`, since the claims
  under study never depend on the numeric value of a Gaussian deviate;
- `datetime` values become rationals measured in minutes (the code only ever
  adds `timedelta`s to a base time and compares timestamps);
- CPython's `random.Random` (Mersenne Twister, MT19937) is implemented
  bit-exactly over `Nat` for every integer-consuming primitive the code uses
  (`getrandbits`, `randint`, `choice`) and exactly for `random()` (whose
  53-bit output is a dyadic rational); `random.uniform` is modelled as exact
  rational arithmetic (binary64 rounding of `a + (b-a)*u` is dropped — no
  claim depends on the low-order bits of a timestamp offset);
- effectful steps (LLM calls, the rate-limiter acquire) appear as explicit
  `Except`-valued parameters; nondeterministic ambient inputs (wall-clock
  `utcnow`, auto-generated random tokens) appear as explicit parameters.

The module `src/core/models.py` is absent from the source snapshot (the
specification itself flags this); the domain records are therefore modelled
from the spec, and are marked as such in their doc comments.
-/

set_option maxRecDepth 6000

/-- Reduce a natural number modulo `2^32` (C unsigned 32-bit wraparound). -/
def u32 (n : Nat) : Nat := n % 4294967296

namespace MT

/-- One step of MT19937 `init_genrand`:
`mt[i] = u32 (1812433253 * (prev ^^^ (prev >>> 30)) + i)`. -/
def initStep (prev i : Nat) : Nat := u32 (1812433253 * (Nat.xor prev (prev / 1073741824)) + i)

/-- Runs `k` steps of `init_genrand` from index `i`, accumulating the state
words newest-first. -/
def initAux : Nat → Nat → List Nat → List Nat
  | 0, _, acc => acc
  | k+1, i, acc => initAux k (i+1) (initStep (acc.headD 0) i :: acc)

/-- MT19937 `init_genrand(s)`: the initial 624-word state array. -/
def initGenrand (s : Nat) : List Nat := (initAux 623 1 [u32 s]).reverse

/-- One update of an `init_by_array` sweep at position `i`:
`mt[i] = u32 ((mt[i] ^^^ u32 ((prev ^^^ (prev >>> 30)) * tmul)) + addend)`. -/
def sweepVal (tmul prev old addend : Nat) : Nat :=
  u32 (Nat.xor old (u32 (Nat.xor prev (prev / 1073741824) * tmul)) + addend)

/-- An `init_by_array` sweep: `k` in-order state updates over a zipper
`(i, doneRev, todo)`; on updating position 623 it sets `mt[0] := mt[623]`
and restarts at position 1, as in the C reference implementation.
With `sub = false` the addend is the key word (pass 1; the key is the single
word `key0`, so `j = 0` throughout); with `sub = true` the addend is `-i`
as unsigned 32-bit wraparound (pass 2). -/
def sweepAux (tmul key0 : Nat) (sub : Bool) : Nat → Nat → List Nat → List Nat → Nat × List Nat × List Nat
  | 0, i, doneRev, todo => (i, doneRev, todo)
  | k+1, i, doneRev, todo =>
    match todo with
    | [] => (i, doneRev, todo)
    | old :: rest =>
      let addend := if sub then 4294967296 - i else key0
      let v := sweepVal tmul (doneRev.headD 0) old addend
      match rest with
      | _ :: _ => sweepAux tmul key0 sub k (i+1) (v :: doneRev) rest
      | [] =>
        let full := (v :: doneRev).reverse
        sweepAux tmul key0 sub k 1 [v] full.tail

/-- Pass one of `init_by_array` (624 steps, key `[seed]`). -/
def pass1 (seed : Nat) (mt0 : List Nat) : Nat × List Nat × List Nat :=
  sweepAux 1664525 seed false 624 1 [mt0.headD 0] mt0.tail

/-- Pass two of `init_by_array` (623 steps, subtractive addend). -/
def pass2 (seed : Nat) (z : Nat × List Nat × List Nat) : Nat × List Nat × List Nat :=
  sweepAux 1566083941 seed true 623 z.1 z.2.1 z.2.2

/-- CPython `random.seed(n)` for `0 ≤ n < 2^32`: `init_by_array` with the
one-word key `[n]` over `init_genrand(19650218)`, then `mt[0] := 0x80000000`. -/
def seedMT (seed : Nat) : List Nat :=
  let z2 := pass2 seed (pass1 seed (initGenrand 19650218))
  2147483648 :: (z2.2.1.reverse ++ z2.2.2).tail

/-- The MT19937 tempering output transformation. -/
def temper (y0 : Nat) : Nat :=
  let y1 := Nat.xor y0 (y0 / 2048)
  let y2 := Nat.xor y1 (Nat.land (y1 * 128) 2636928640)
  let y3 := Nat.xor y2 (Nat.land (y2 * 32768) 4022730752)
  Nat.xor y3 (y3 / 262144)

/-- The twist recurrence `c ^^^ (y >>> 1) ^^^ (0x9908b0df if y odd)`, where
`y` joins the top bit of `a` with the low 31 bits of `b`. -/
def twistVal (a b c : Nat) : Nat :=
  let y := (a / 2147483648) * 2147483648 + b % 2147483648
  Nat.xor (Nat.xor c (y / 2)) (if y % 2 = 1 then 2567483615 else 0)

/-- Phase two of the twist (positions 227..622): the third operand is the
freshly generated word 227 positions back, maintained as a FIFO queue. -/
def twistFeed : List (Nat × Nat) → List Nat → List Nat → List Nat
  | [], _, _ => []
  | (a, b) :: rest, front, backRev =>
    match front with
    | c :: fr => twistVal a b c :: twistFeed rest fr (twistVal a b c :: backRev)
    | [] =>
      match backRev.reverse with
      | c :: fr => twistVal a b c :: twistFeed rest fr [twistVal a b c]
      | [] => []

/-- One full twist of a 624-word block (the C `genrand_uint32` refill). -/
def twist (old : List Nat) : List Nat :=
  let p1 := (old.zip ((old.drop 1).zip (old.drop 397))).take 227 |>.map
    (fun x => twistVal x.1 x.2.1 x.2.2)
  let p2 := twistFeed (((old.drop 227).zip (old.drop 228)).take 396) p1 []
  let last := twistVal ((old.drop 623).headD 0) (p1.headD 0) (((p1 ++ p2).drop 396).headD 0)
  p1 ++ p2 ++ [last]

/-- Concatenates `n` twisted-and-tempered blocks starting from a state block. -/
def streamAux : Nat → List Nat → List Nat
  | 0, _ => []
  | n+1, block =>
    let b := twist block
    b.map temper ++ streamAux n b

/-- The first `624 * blocks` tempered 32-bit outputs of `random.Random(seed)`. -/
def streamWords (seed blocks : Nat) : List Nat := streamAux blocks (seedMT seed)

end MT

namespace RNG

/-- Abstraction of the transcendental core of `random.gauss`: from the two
consumed `random()` draws it returns `(z, z_next)` for
`z = cos(2π u₁)·√(-2 ln(1-u₂))` and `z_next = sin(2π u₁)·√(-2 ln(1-u₂))`.
Every theorem below quantifies over this function, so nothing depends on
the actual transcendental values. -/
abbrev GaussF := ℚ → ℚ → ℚ × ℚ

/-- State of a seeded `random.Random`: the stream of tempered output words
not yet consumed, and the cached second Gaussian deviate, if any
(`gauss_next` in CPython). -/
structure RS where
  words : List Nat
  gnext : Option ℚ
deriving DecidableEq

/-- Takes the next raw 32-bit word (`genrand_uint32`). -/
def nextWord (s : RS) : Nat × RS := (s.words.headD 0, ⟨s.words.tail, s.gnext⟩)

/-- CPython `getrandbits(k)` for `k ≤ 32`: the top `k` bits of one word. -/
def randbitsSmall (k : Nat) (s : RS) : Nat × RS :=
  let w := nextWord s
  (w.1 / 2 ^ (32 - k), w.2)

/-- CPython `getrandbits(160)` (used for fake commit hashes): five words
composed little-endian. -/
def randbits160 (s : RS) : Nat × RS :=
  let w0 := nextWord s
  let w1 := nextWord w0.2
  let w2 := nextWord w1.2
  let w3 := nextWord w2.2
  let w4 := nextWord w3.2
  (w0.1 + w1.1 * 4294967296 + w2.1 * 18446744073709551616 +
    w3.1 * 79228162514264337593543950336 + w4.1 * 340282366920938463463374607431768211456, w4.2)

/-- CPython `_randbelow_with_getrandbits(n)`: rejection-sample `k`-bit values
until one is below `n`, where `k = n.bit_length()`.  The unbounded `while`
loop is modelled with a fuel of 64 attempts (each attempt fails with
probability below 1/2, so 64 is unreachable on the concrete runs below);
on exhaustion the last draw is reduced modulo `n` to stay total. -/
def randbelowAux (n k : Nat) : Nat → RS → Nat × RS
  | 0, s =>
    let r := randbitsSmall k s
    (r.1 % n, r.2)
  | fuel+1, s =>
    let r := randbitsSmall k s
    if r.1 < n then r else randbelowAux n k fuel r.2

/-- Structural helper for `bitLen`: the fuel bounds the number of halvings
and is always sufficient for the at-most-17-bit bounds the generators use. -/
def bitLenAux : Nat → Nat → Nat
  | 0, _ => 0
  | fuel+1, n => if n = 0 then 0 else bitLenAux fuel (n / 2) + 1

/-- Bit length of a natural number (`int.bit_length` in Python). -/
def bitLen (n : Nat) : Nat := bitLenAux 64 n

/-- CPython `random.randint(a, b)` = `a + _randbelow(b - a + 1)`. -/
def randint (a b : Nat) (s : RS) : Nat × RS :=
  let n := b - a + 1
  let r := randbelowAux n (bitLen n) 64 s
  (a + r.1, r.2)

/-- CPython `random.choice` over a list: index by `_randbelow(len)`. -/
def choiceIdx (n : Nat) (s : RS) : Nat × RS := randbelowAux n (bitLen n) 64 s

/-- CPython `random.random()`: two words combine into a 53-bit dyadic
rational in `[0, 1)`: `((w₁ >>> 5)·2²⁶ + (w₂ >>> 6)) / 2⁵³`.  Exact. -/
def rand53 (s : RS) : ℚ × RS :=
  let w1 := nextWord s
  let w2 := nextWord w1.2
  (((w1.1 / 32 * 67108864 + w2.1 / 64 : Nat) : ℚ) / 9007199254740992, w2.2)

/-- CPython `random.uniform(a, b)` = `a + (b - a) * random()`, modelled in
exact rational arithmetic. -/
def uniformQ (a b : ℚ) (s : RS) : ℚ × RS :=
  let r := rand53 s
  (a + (b - a) * r.1, r.2)

/-- CPython `random.gauss(mu, sigma)`: uses the cached deviate when one is
present, otherwise consumes two `random()` draws and caches the second
deviate; the transcendental map is the abstract parameter `gfn`. -/
def gaussQ (gfn : GaussF) (mu sigma : ℚ) (s : RS) : ℚ × RS :=
  match s.gnext with
  | some z => (mu + z * sigma, ⟨s.words, none⟩)
  | none =>
    let u1 := rand53 s
    let u2 := rand53 u1.2
    let zz := gfn u1.1 u2.1
    (mu + zz.1 * sigma, ⟨u2.2.words, some zz.2⟩)

end RNG

/-- Modelled from the spec: the closed `Severity` enumeration
(critical | high | medium | low); `src/core/models.py` is absent from the
source snapshot. -/
inductive Severity
  | critical | high | medium | low
deriving DecidableEq

/-- Validated construction of a `Severity` from its string value, as pydantic
enum coercion does; unknown values are rejected. -/
def Severity.ofString? : String → Option Severity
  | "critical" => some .critical
  | "high" => some .high
  | "medium" => some .medium
  | "low" => some .low
  | _ => none

/-- Modelled from the spec: the closed `ServiceName` enumeration of exactly
the eight canonical services. -/
inductive ServiceName
  | apiGateway | checkoutService | paymentGateway | inventoryService
  | userAuth | notificationService | postgresDb | redisCache
deriving DecidableEq

/-- String value of a `ServiceName` member. -/
def ServiceName.value : ServiceName → String
  | .apiGateway => "api-gateway"
  | .checkoutService => "checkout-service"
  | .paymentGateway => "payment-gateway"
  | .inventoryService => "inventory-service"
  | .userAuth => "user-auth"
  | .notificationService => "notification-service"
  | .postgresDb => "postgres-db"
  | .redisCache => "redis-cache"

/-- Modelled from the spec: the closed `ChangeType` enumeration. -/
inductive ChangeType
  | configChange | codeDeploy | rollback
deriving DecidableEq

/-- String value of a `ChangeType` member. -/
def ChangeType.value : ChangeType → String
  | .configChange => "config_change"
  | .codeDeploy => "code_deploy"
  | .rollback => "rollback"

/-- Modelled from the spec: the fine-grained in-workflow
`InvestigationStatus` vocabulary, reconstructed (as the spec itself does)
from call sites. -/
inductive InvestigationStatus
  | detecting | planning | deciding | acting | reporting | completed | failed
deriving DecidableEq

/-- Modelled from the spec: `Alert` — the triggering signal.  `alert_id` is a
12-character random token auto-generated at construction when absent; the
generator never passes one, so the token is an ambient input and appears
here explicitly.  Timestamps are rationals in minutes. -/
structure Alert where
  alert_id : String
  service : ServiceName
  metric : String
  value : ℚ
  threshold : ℚ
  severity : Severity
  timestamp : ℚ
  description : String

/-- Modelled from the spec: `LogEntry` (level is a free-text level name). -/
structure LogEntry where
  timestamp : ℚ
  service : ServiceName
  level : String
  message : String
  trace_id : Option String
  stack_trace : Option String
deriving DecidableEq

/-- Modelled from the spec: `MetricDataPoint`. -/
structure MetricDataPoint where
  timestamp : ℚ
  service : ServiceName
  metric_name : String
  value : ℚ

/-- Modelled from the spec: `DeploymentEvent` (the generator always passes an
explicit `deploy-NNNN` id, a commit sha, and an author, so the random-token
default never fires in generated data). -/
structure DeploymentEvent where
  deploy_id : String
  timestamp : ℚ
  service : ServiceName
  change_type : ChangeType
  description : String
  commit_sha : Option String
  author : String

/-- Modelled from the spec: `MockDataSet`. -/
structure MockDataSet where
  scenario_name : String
  logs : List LogEntry
  metrics : List MetricDataPoint
  deployments : List DeploymentEvent
  alert : Alert

/-- Modelled from the spec: `InvestigationPlan`. -/
structure InvestigationPlan where
  hypothesis : String
  tasks : List String
  priority_services : List ServiceName
  time_window_start : ℚ
  time_window_end : ℚ

/-- Shape of the parsed JSON reply the logs agent demands from the LLM,
with `dict.get`-style optionality per field; also the type of the
`raw_data` payload the agent retains for traceability. -/
structure LogsReplyJson where
  summary : Option String
  evidence : Option (List String)
  confidence : Option ℚ
  relevant_timestamps : Option (List String)

/-- Modelled from the spec: `AgentFinding` (defaults: empty evidence,
confidence 0.0, empty relevant timestamps, absent raw data). -/
structure AgentFinding where
  agent_name : String
  summary : String
  evidence : List String
  confidence : ℚ
  relevant_timestamps : List String
  raw_data : Option LogsReplyJson

/-- Modelled from the spec: `TimelineEvent`. -/
structure TimelineEvent where
  timestamp : ℚ
  description : String
  source : String

/-- Modelled from the spec: `RCAReport`.  `investigation_id` is a 16-character
random token generated at construction (an ambient input, explicit here);
`status` defaults to completed and the report step never overrides it. -/
structure RCAReport where
  investigation_id : String
  alert : Alert
  status : InvestigationStatus
  plan : Option InvestigationPlan
  findings : List AgentFinding
  root_cause : String
  confidence : ℚ
  timeline : List TimelineEvent
  recommendation : String
  remediation_action : Option String

/-- Ambient nondeterministic inputs of one generator invocation: the value
`datetime.utcnow()` would return, and the random token the `Alert`
constructor would auto-generate for `alert_id`. -/
structure World where
  utcnow : ℚ
  alertToken : String

/-- Service topology entry (from `src/data/topology.py`). -/
structure ServiceInfo where
  name : String
  depends_on : List String
  default_port : Nat
  description : String

/-- The eight-service topology table, in definition order
(from `src/data/topology.py`). -/
def SERVICE_TOPOLOGY : List ServiceInfo :=
  [ ⟨"api-gateway", ["checkout-service", "user-auth", "inventory-service"], 8080,
      "NGINX-based API gateway routing external traffic to internal services"⟩,
    ⟨"checkout-service", ["payment-gateway", "inventory-service", "postgres-db", "redis-cache"], 8081,
      "Handles cart checkout, order creation, and payment orchestration"⟩,
    ⟨"payment-gateway", ["postgres-db"], 8082,
      "Processes credit card charges and manages payment state"⟩,
    ⟨"inventory-service", ["postgres-db", "redis-cache"], 8083,
      "Manages product stock levels and reservation locks"⟩,
    ⟨"user-auth", ["postgres-db", "redis-cache"], 8084,
      "JWT-based authentication and session management"⟩,
    ⟨"notification-service", ["redis-cache"], 8085,
      "Sends order confirmation emails and push notifications"⟩,
    ⟨"postgres-db", [], 5432,
      "Primary PostgreSQL database for transactional data"⟩,
    ⟨"redis-cache", [], 6379,
      "Redis cache for sessions, rate limiting, and hot data"⟩ ]

/-- Services that depend on the given service
(`get_dependents` in `src/data/topology.py`). -/
def get_dependents (service_name : String) : List String :=
  (SERVICE_TOPOLOGY.filter (fun info => service_name ∈ info.depends_on)).map (·.name)

/-- Hexadecimal digit character. -/
def hexDigit (d : Nat) : Char :=
  (("0123456789abcdef".toList).getD d '0')

/-- Python `f"{n:040x}"[:12]`: the first 12 digits of the 40-digit
zero-padded lowercase hex rendering of a 160-bit value. -/
def hex40take12 (n : Nat) : String :=
  String.mk ((List.range 12).map (fun i => hexDigit (n / 16 ^ (39 - i) % 16)))

/-- Comparison key used by every generator's final sort:
non-decreasing timestamp. -/
def tsLeL (a b : LogEntry) : Prop := a.timestamp ≤ b.timestamp

/-- Timestamp order on metric points. -/
def tsLeM (a b : MetricDataPoint) : Prop := a.timestamp ≤ b.timestamp

/-- Timestamp order on deployment events. -/
def tsLeD (a b : DeploymentEvent) : Prop := a.timestamp ≤ b.timestamp

instance : DecidableRel tsLeL := fun a b => inferInstanceAs (Decidable (a.timestamp ≤ b.timestamp))
instance : DecidableRel tsLeM := fun a b => inferInstanceAs (Decidable (a.timestamp ≤ b.timestamp))
instance : DecidableRel tsLeD := fun a b => inferInstanceAs (Decidable (a.timestamp ≤ b.timestamp))
instance : IsTotal LogEntry tsLeL := ⟨fun a b => le_total a.timestamp b.timestamp⟩
instance : IsTotal MetricDataPoint tsLeM := ⟨fun a b => le_total a.timestamp b.timestamp⟩
instance : IsTotal DeploymentEvent tsLeD := ⟨fun a b => le_total a.timestamp b.timestamp⟩
instance : IsTrans LogEntry tsLeL := ⟨fun _ _ _ h1 h2 => le_trans h1 h2⟩
instance : IsTrans MetricDataPoint tsLeM := ⟨fun _ _ _ h1 h2 => le_trans h1 h2⟩
instance : IsTrans DeploymentEvent tsLeD := ⟨fun _ _ _ h1 h2 => le_trans h1 h2⟩

/-- Python `list.sort(key=lambda x: x.timestamp)` on log entries, modelled as
a stable sort by timestamp. -/
def sortLogs (l : List LogEntry) : List LogEntry := List.insertionSort tsLeL l

/-- Timestamp sort for metric points. -/
def sortMetrics (l : List MetricDataPoint) : List MetricDataPoint := List.insertionSort tsLeM l

/-- Timestamp sort for deployment events. -/
def sortDeps (l : List DeploymentEvent) : List DeploymentEvent := List.insertionSort tsLeD l

open RNG

/-- The `_normal_metric` sampling loop from `src/data/scenarios.py`: one
Gaussian-sampled point per `interval` seconds, floored at zero; `idx` counts
completed points, so the seconds offset is `idx * interval`. -/
def normalMetricAux (gfn : GaussF) (svc : ServiceName) (metric : String)
    (base mean std : ℚ) (interval : Nat) : Nat → Nat → RS → List MetricDataPoint × RS
  | 0, _, s => ([], s)
  | k+1, idx, s =>
    let g := gaussQ gfn mean std s
    let rest := normalMetricAux gfn svc metric base mean std interval k (idx+1) g.2
    (⟨base + ((idx * interval : Nat) : ℚ) / 60, svc, metric, max 0 g.1⟩ :: rest.1, rest.2)

/-- The function `_normal_metric(rng, service, metric, base, minutes, mean, std,
interval_seconds)`: `range(0, minutes*60, interval)` sampling points. -/
def normalMetric (gfn : GaussF) (svc : ServiceName) (metric : String)
    (base : ℚ) (minutes : Nat) (mean std : ℚ) (interval : Nat) (s : RS) :
    List MetricDataPoint × RS :=
  normalMetricAux gfn svc metric base mean std interval
    ((minutes * 60 + interval - 1) / interval) 0 s

namespace LCB

/-- Scenario 1 deployment event: randomized id and commit sha. -/
def deploy (deployTime : ℚ) (s : RS) : DeploymentEvent × RS :=
  let r1 := randint 1000 9999 s
  let r2 := randbits160 r1.2
  (⟨"deploy-" ++ toString r1.1, deployTime, ServiceName.checkoutService,
    ChangeType.configChange, "Updated db_pool_config: max_connections 100 -> 10",
    some (hex40take12 r2.1), "platform-team"⟩, r2.2)

/-- Baseline pair for one service: `p99_latency_ms` then `cpu_percent`,
25 minutes each. -/
def baseSvc (gfn : GaussF) (ws : ℚ) (svc : ServiceName) (s : RS) :
    List MetricDataPoint × RS :=
  let a := normalMetric gfn svc "p99_latency_ms" ws 25 120 20 60 s
  let b := normalMetric gfn svc "cpu_percent" ws 25 35 8 60 a.2
  (a.1 ++ b.1, b.2)

/-- Baseline metrics for checkout-service, api-gateway, payment-gateway. -/
def baseline (gfn : GaussF) (ws : ℚ) (s : RS) : List MetricDataPoint × RS :=
  let a := baseSvc gfn ws ServiceName.checkoutService s
  let b := baseSvc gfn ws ServiceName.apiGateway a.2
  let c := baseSvc gfn ws ServiceName.paymentGateway b.2
  (a.1 ++ b.1 ++ c.1, c.2)

/-- Latency-spike loop over minute offsets `i ∈ [-5, 5]`: a spiked
`p99_latency_ms` point (with one uniform draw at `i = 0`) and a pinned
`connections_active` point per offset. -/
def spikeAux (now : ℚ) : Nat → ℤ → RS → List MetricDataPoint × RS
  | 0, _, s => ([], s)
  | k+1, i, s =>
    let lat : ℚ × RS :=
      if i = 0 then
        let u := uniformQ (-50) 50 s
        (2100 + u.1, u.2)
      else (2000 - (200 + (i.natAbs : ℚ) * 50), s)
    let rest := spikeAux now k (i+1) lat.2
    (⟨now + (i : ℚ), ServiceName.checkoutService, "p99_latency_ms", max lat.1 800⟩ ::
     ⟨now + (i : ℚ), ServiceName.checkoutService, "connections_active", 10⟩ :: rest.1, rest.2)

/-- Gateway `error_rate` loop over offsets `i ∈ [-3, 5]`. -/
def errRateAux (now : ℚ) : Nat → ℤ → RS → List MetricDataPoint × RS
  | 0, _, s => ([], s)
  | k+1, i, s =>
    let u := uniformQ (1/20) (3/20) s
    let rest := errRateAux now k (i+1) u.2
    (⟨now + (i : ℚ), ServiceName.apiGateway, "error_rate", u.1⟩ :: rest.1, rest.2)

/-- Spike metrics followed by gateway error-rate metrics, in source order. -/
def spike (now : ℚ) (s : RS) : List MetricDataPoint × RS :=
  let a := spikeAux now 11 (-5) s
  let b := errRateAux now 9 (-3) a.2
  (a.1 ++ b.1, b.2)

/-- Baseline INFO log loop body: uniform offset in `[0, 25]` past the window
start, then two trace-number draws. -/
def normalLogsAux (ws : ℚ) : Nat → RS → List LogEntry × RS
  | 0, s => ([], s)
  | k+1, s =>
    let u := uniformQ 0 25 s
    let m := randint 10000 99999 u.2
    let t := randint 10000 99999 m.2
    let rest := normalLogsAux ws k t.2
    (⟨ws + u.1, ServiceName.checkoutService, "INFO",
      "Order processed successfully. trace_id=" ++ toString m.1,
      some ("trace-" ++ toString t.1), none⟩ :: rest.1, rest.2)

/-- Baseline INFO logs: a `randint(40, 60)`-sized batch. -/
def normalLogs (ws : ℚ) (s : RS) : List LogEntry × RS :=
  let n := randint 40 60 s
  normalLogsAux ws n.1 n.2

/-- Fixed connection-pool-exhaustion stack trace. -/
def hikariStack : String :=
  "java.sql.SQLTransientConnectionException: HikariPool-1 - Connection is not available, request timed out after 5000ms.\n\tat com.zaxxer.hikari.pool.HikariPool.createTimeoutException(HikariPool.java:696)\n\tat com.zaxxer.hikari.pool.HikariPool.getConnection(HikariPool.java:197)\n\tat com.checkout.service.OrderController.createOrder(OrderController.java:45)\n\tat org.springframework.web.servlet.FrameworkServlet.service(FrameworkServlet.java:897)"

/-- DB-timeout ERROR log loop body: uniform offset in `[-3, 5]`, one trace
number, fixed message and stack trace. -/
def errLogsAux (now : ℚ) : Nat → RS → List LogEntry × RS
  | 0, s => ([], s)
  | k+1, s =>
    let u := uniformQ (-3) 5 s
    let t := randint 10000 99999 u.2
    let rest := errLogsAux now k t.2
    (⟨now + u.1, ServiceName.checkoutService, "ERROR",
      "DB connection timeout after 5000ms — pool exhausted (active=10/10)",
      some ("trace-" ++ toString t.1), some hikariStack⟩ :: rest.1, rest.2)

/-- DB-timeout ERROR logs: a `randint(20, 35)`-sized batch. -/
def errLogs (now : ℚ) (s : RS) : List LogEntry × RS :=
  let n := randint 20 35 s
  errLogsAux now n.1 n.2

/-- Gateway 502 ERROR log loop body: uniform offset in `[-2, 5]` and one
trace number. -/
def gwLogsAux (now : ℚ) : Nat → RS → List LogEntry × RS
  | 0, s => ([], s)
  | k+1, s =>
    let u := uniformQ (-2) 5 s
    let t := randint 10000 99999 u.2
    let rest := gwLogsAux now k t.2
    (⟨now + u.1, ServiceName.apiGateway, "ERROR",
      "502 Bad Gateway: upstream checkout-service timed out",
      some ("trace-" ++ toString t.1), none⟩ :: rest.1, rest.2)

/-- Gateway 502 ERROR logs: a `randint(10, 20)`-sized batch. -/
def gwLogs (now : ℚ) (s : RS) : List LogEntry × RS :=
  let n := randint 10 20 s
  gwLogsAux now n.1 n.2

/-- The function `LatentConfigBugScenario.generate`: config deploy at `T-15`, baseline
and spiked metrics, three log batches, fixed alert, all three collections
sorted by timestamp.  Raises (returns an error) only on an invalid severity
string. -/
def generate (gfn : GaussF) (seed : Nat) (severity : String)
    (incident_time : Option ℚ) (w : World) : Except String MockDataSet :=
  match Severity.ofString? severity with
  | none => Except.error ("'" ++ severity ++ "' is not a valid Severity")
  | some sev =>
    let now := incident_time.getD w.utcnow
    let deployTime := now - 15
    let windowStart := now - 30
    let s0 : RS := ⟨MT.streamWords seed 4, none⟩
    let r1 := deploy deployTime s0
    let r2 := baseline gfn windowStart r1.2
    let r3 := spike now r2.2
    let r4 := normalLogs windowStart r3.2
    let r5 := errLogs now r4.2
    let r6 := gwLogs now r5.2
    let alert : Alert := ⟨w.alertToken, ServiceName.checkoutService, "p99_latency_ms",
      2000, 500, sev, now, "Checkout service p99 latency spiked to 2000ms"⟩
    Except.ok ⟨"latent_config_bug",
      sortLogs (r4.1 ++ r5.1 ++ r6.1),
      sortMetrics (r2.1 ++ r3.1),
      sortDeps [r1.1],
      alert⟩

end LCB

/-- Conversion from a service-name string back to the enumeration member, as
Python `ServiceName(s)` does. -/
def ServiceName.ofValue? : String → Option ServiceName
  | "api-gateway" => some .apiGateway
  | "checkout-service" => some .checkoutService
  | "payment-gateway" => some .paymentGateway
  | "inventory-service" => some .inventoryService
  | "user-auth" => some .userAuth
  | "notification-service" => some .notificationService
  | "postgres-db" => some .postgresDb
  | "redis-cache" => some .redisCache
  | _ => none

/-- Total variant used where the generators convert names drawn from the
static topology table or their own literal lists, which are always valid
members, so the `ValueError` branch of `ServiceName(s)` is unreachable. -/
def ServiceName.ofValueD (s : String) : ServiceName :=
  (ServiceName.ofValue? s).getD ServiceName.apiGateway

namespace ML

/-- Scenario 2 deployment event at `T-120`. -/
def deploy (deployTime : ℚ) (s : RS) : DeploymentEvent × RS :=
  let r1 := randint 1000 9999 s
  let r2 := randbits160 r1.2
  (⟨"deploy-" ++ toString r1.1, deployTime, ServiceName.inventoryService,
    ChangeType.codeDeploy, "Deploy v2.14.0: added product recommendation cache layer",
    some (hex40take12 r2.1), "dev-team"⟩, r2.2)

/-- Memory/cpu/latency triple every 2 minutes over `range(0, 121, 2)`;
`idx` counts completed iterations, so the minute offset is `2 * idx`. -/
def leakMetricsAux (gfn : GaussF) (deployTime : ℚ) : Nat → Nat → RS → List MetricDataPoint × RS
  | 0, _, s => ([], s)
  | k+1, idx, s =>
    let i : Nat := idx * 2
    let t := deployTime + (i : ℚ)
    let g1 := gaussQ gfn 0 20 s
    let mem := 512 + 3300 * (i : ℚ) / 120 + g1.1
    let g2 := gaussQ gfn 0 5 g1.2
    let cpu := 30 + g2.1 + (if 100 < i then 20 else 0)
    let g3 := gaussQ gfn 0 10 g2.2
    let lat := 80 + (i : ℚ) * (3/2) + g3.1
    let rest := leakMetricsAux gfn deployTime k (idx+1) g3.2
    (⟨t, ServiceName.inventoryService, "memory_mb", max mem 512⟩ ::
     ⟨t, ServiceName.inventoryService, "cpu_percent", min (max cpu 5) 100⟩ ::
     ⟨t, ServiceName.inventoryService, "p99_latency_ms", max lat 50⟩ :: rest.1, rest.2)

/-- GC-warning log loop body: uniform offset in `[-30, -1]` and a heap
percentage draw embedded in the message. -/
def gcLogsAux (now : ℚ) : Nat → RS → List LogEntry × RS
  | 0, s => ([], s)
  | k+1, s =>
    let u := uniformQ (-30) (-1) s
    let h := randint 85 98 u.2
    let rest := gcLogsAux now k h.2
    (⟨now + u.1, ServiceName.inventoryService, "WARN",
      "GC overhead limit exceeded — heap usage " ++ toString h.1 ++ "%",
      none, none⟩ :: rest.1, rest.2)

/-- Fixed Java heap-space stack trace of the OOM log. -/
def oomStack : String :=
  "java.lang.OutOfMemoryError: Java heap space\n\tat com.inventory.cache.RecommendationCache.put(RecommendationCache.java:112)\n\tat com.inventory.service.ProductService.getRecommendations(ProductService.java:89)\n\tat com.inventory.controller.ProductController.list(ProductController.java:34)"

/-- Upstream checkout ERROR log loop body: uniform offset in `[0, 3]` and a
trace number. -/
def upstreamAux (now : ℚ) : Nat → RS → List LogEntry × RS
  | 0, s => ([], s)
  | k+1, s =>
    let u := uniformQ 0 3 s
    let t := randint 10000 99999 u.2
    let rest := upstreamAux now k t.2
    (⟨now + u.1, ServiceName.checkoutService, "ERROR",
      "Failed to check inventory: Connection refused — inventory-service:8083",
      some ("trace-" ++ toString t.1), none⟩ :: rest.1, rest.2)

/-- The function `MemoryLeakScenario.generate`: code deploy at `T-120`, two hours of
rising memory, GC warnings, an OOM kill and restart at `T`, upstream
checkout failures; logs and metrics sorted (the single-deployment list is
left unsorted, as in the source). -/
def generate (gfn : GaussF) (seed : Nat) (severity : String)
    (incident_time : Option ℚ) (w : World) : Except String MockDataSet :=
  match Severity.ofString? severity with
  | none => Except.error ("'" ++ severity ++ "' is not a valid Severity")
  | some sev =>
    let now := incident_time.getD w.utcnow
    let deployTime := now - 120
    let s0 : RS := ⟨MT.streamWords seed 4, none⟩
    let r1 := deploy deployTime s0
    let r2 := leakMetricsAux gfn deployTime 61 0 r1.2
    let r3g := randint 15 25 r2.2
    let r3 := gcLogsAux now r3g.1 r3g.2
    let oom : LogEntry := ⟨now, ServiceName.inventoryService, "ERROR",
      "Process killed by OOM killer: inventory-service (PID 1) used 3.8GB / 4.0GB limit",
      none, some oomStack⟩
    let restart : LogEntry := ⟨now + 1/2, ServiceName.inventoryService, "INFO",
      "Container restarting: inventory-service (restart count: 1)", none, none⟩
    let r4n := randint 5 10 r3.2
    let r4 := upstreamAux now r4n.1 r4n.2
    let alert : Alert := ⟨w.alertToken, ServiceName.inventoryService, "memory_mb",
      3800, 3500, sev, now,
      "Inventory service memory usage exceeded 3.5GB threshold — OOM kill detected"⟩
    Except.ok ⟨"memory_leak",
      sortLogs (r3.1 ++ [oom, restart] ++ r4.1),
      sortMetrics r2.1,
      [r1.1],
      alert⟩

end ML

namespace CF

/-- Baseline pair for one service: `p99_latency_ms` then `error_rate`,
10 minutes each. -/
def baseSvc (gfn : GaussF) (ws : ℚ) (svc : ServiceName) (s : RS) :
    List MetricDataPoint × RS :=
  let a := normalMetric gfn svc "p99_latency_ms" ws 10 100 15 60 s
  let b := normalMetric gfn svc "error_rate" ws 10 (1/1000) (1/2000) 60 a.2
  (a.1 ++ b.1, b.2)

/-- Baseline metrics for the four database-dependent services. -/
def baseline (gfn : GaussF) (ws : ℚ) (s : RS) : List MetricDataPoint × RS :=
  let a := baseSvc gfn ws ServiceName.checkoutService s
  let b := baseSvc gfn ws ServiceName.paymentGateway a.2
  let c := baseSvc gfn ws ServiceName.inventoryService b.2
  let d := baseSvc gfn ws ServiceName.userAuth c.2
  (a.1 ++ b.1 ++ c.1 ++ d.1, d.2)

/-- Fixed psycopg2-style connection-refused stack trace. -/
def pgStack : String :=
  "psycopg2.OperationalError: could not connect to server: Connection refused\n\tIs the server running on host \"postgres-db\" (172.18.0.2) and accepting\n\tTCP/IP connections on port 5432?"

/-- Connection-refused log batch for one dependent service in one minute:
sub-minute uniform offsets and trace numbers. -/
def depLogsAux (t : ℚ) (svc : ServiceName) : Nat → RS → List LogEntry × RS
  | 0, s => ([], s)
  | k+1, s =>
    let u := uniformQ 0 (9/10) s
    let tr := randint 10000 99999 u.2
    let rest := depLogsAux t svc k tr.2
    (⟨t + u.1, svc, "ERROR",
      "Connection refused: postgres-db:5432 — Is the server running?",
      some ("trace-" ++ toString tr.1), some pgStack⟩ :: rest.1, rest.2)

/-- Per-minute contribution of one dependent service: two metric points and
a `randint(3, 8)`-sized batch of connection-refused logs. -/
def depMinute (t : ℚ) (minute : Nat) (svc : ServiceName) (s : RS) :
    List MetricDataPoint × List LogEntry × RS :=
  let n := randint 3 8 s
  let logs := depLogsAux t svc n.1 n.2
  ([⟨t, svc, "error_rate", min (1/10 + (minute : ℚ) * (3/20)) (19/20)⟩,
    ⟨t, svc, "p99_latency_ms", 200 + (minute : ℚ) * 400⟩], logs.1, logs.2)

/-- Folds `depMinute` over the dependent services, in topology order. -/
def depSweep (t : ℚ) (minute : Nat) : List String → RS → List MetricDataPoint × List LogEntry × RS
  | [], s => ([], [], s)
  | name :: rest, s =>
    let one := depMinute t minute (ServiceName.ofValueD name) s
    let more := depSweep t minute rest one.2.2
    (one.1 ++ more.1, one.2.1 ++ more.2.1, more.2.2)

/-- Gateway 503 log loop body: a random dependent choice, then a sub-minute
uniform offset; the chosen dependent's name appears in the message. -/
def gwLogsAux (t : ℚ) (deps : List String) : Nat → RS → List LogEntry × RS
  | 0, s => ([], s)
  | k+1, s =>
    let c := choiceIdx deps.length s
    let svcName := deps.getD c.1 ""
    let u := uniformQ 0 (9/10) c.2
    let rest := gwLogsAux t deps k u.2
    (⟨t + u.1, ServiceName.apiGateway, "ERROR",
      "503 Service Unavailable: upstream " ++ svcName ++ " returned error",
      none, none⟩ :: rest.1, rest.2)

/-- Per-minute api-gateway contribution (only from minute 1 on): one metric
point and a `randint(5, 12)`-sized batch of 503 logs. -/
def gwMinute (t : ℚ) (minute : Nat) (deps : List String) (s : RS) :
    List MetricDataPoint × List LogEntry × RS :=
  if 1 ≤ minute then
    let n := randint 5 12 s
    let logs := gwLogsAux t deps n.1 n.2
    ([⟨t, ServiceName.apiGateway, "error_rate",
        min (1/20 + ((minute : ℚ) - 1) * (1/10)) (4/5)⟩], logs.1, logs.2)
  else ([], [], s)

/-- The cascading loop over minutes `0..5`: dependents first, then the
gateway, accumulating metrics and logs in source append order. -/
def cascadeAux (now : ℚ) (deps : List String) : Nat → Nat → RS → List MetricDataPoint × List LogEntry × RS
  | 0, _, s => ([], [], s)
  | k+1, minute, s =>
    let t := now + (minute : ℚ)
    let d := depSweep t minute deps s
    let g := gwMinute t minute deps d.2.2
    let rest := cascadeAux now deps k (minute+1) g.2.2
    (d.1 ++ g.1 ++ rest.1, d.2.1 ++ g.2.1 ++ rest.2.1, rest.2.2)

/-- The function `CascadingFailureScenario.generate`: postgres crash logs at `T`, baseline
metrics, six minutes of cascading failures across the topology's dependents
of postgres-db, no deployment events, logs and metrics sorted. -/
def generate (gfn : GaussF) (seed : Nat) (severity : String)
    (incident_time : Option ℚ) (w : World) : Except String MockDataSet :=
  match Severity.ofString? severity with
  | none => Except.error ("'" ++ severity ++ "' is not a valid Severity")
  | some sev =>
    let now := incident_time.getD w.utcnow
    let windowStart := now - 10
    let s0 : RS := ⟨MT.streamWords seed 4, none⟩
    let crash1 : LogEntry := ⟨now, ServiceName.postgresDb, "ERROR",
      "FATAL: could not open file \"base/16384/2619\": No such file or directory",
      none, none⟩
    let crash2 : LogEntry := ⟨now + 1/10, ServiceName.postgresDb, "ERROR",
      "LOG: database system is shut down", none, none⟩
    let r1 := baseline gfn windowStart s0
    let deps := get_dependents "postgres-db"
    let r2 := cascadeAux now deps 6 0 r1.2
    let alert : Alert := ⟨w.alertToken, ServiceName.apiGateway, "error_rate",
      13/20, 1/20, sev, now + 2,
      "API gateway error rate spiked to 65% — multiple upstream services failing"⟩
    Except.ok ⟨"cascading_failure",
      sortLogs ([crash1, crash2] ++ r2.2.1),
      sortMetrics (r1.1 ++ r2.1),
      [],
      alert⟩

end CF

namespace TS

/-- The three customer-facing services, in source order. -/
def frontendServices : List String := ["api-gateway", "checkout-service", "user-auth"]

/-- Baseline triple for one service: `requests_per_second`, `p99_latency_ms`,
`cpu_percent`, 14 minutes each. -/
def baseSvc (gfn : GaussF) (ws : ℚ) (svc : ServiceName) (s : RS) :
    List MetricDataPoint × RS :=
  let a := normalMetric gfn svc "requests_per_second" ws 14 500 50 60 s
  let b := normalMetric gfn svc "p99_latency_ms" ws 14 80 10 60 a.2
  let c := normalMetric gfn svc "cpu_percent" ws 14 40 8 60 b.2
  (a.1 ++ b.1 ++ c.1, c.2)

/-- Baseline metrics for the three frontend services. -/
def baseline (gfn : GaussF) (ws : ℚ) (s : RS) : List MetricDataPoint × RS :=
  let a := baseSvc gfn ws ServiceName.apiGateway s
  let b := baseSvc gfn ws ServiceName.checkoutService a.2
  let c := baseSvc gfn ws ServiceName.userAuth b.2
  (a.1 ++ b.1 ++ c.1, c.2)

/-- One service's surge metrics in one spike minute: three Gaussian-noised
points from the tapering multiplier. -/
def spikeSvc (gfn : GaussF) (t maxMult : ℚ) (svc : ServiceName) (s : RS) :
    List MetricDataPoint × RS :=
  let g1 := gaussQ gfn 0 100 s
  let g2 := gaussQ gfn 0 5 g1.2
  let g3 := gaussQ gfn 0 30 g2.2
  ([⟨t, svc, "requests_per_second", 500 * maxMult + g1.1⟩,
    ⟨t, svc, "cpu_percent", min (40 * maxMult / 4 + g2.1) 100⟩,
    ⟨t, svc, "p99_latency_ms", 80 * maxMult / 2 + g3.1⟩], g3.2)

/-- Folds `spikeSvc` over the frontend services. -/
def spikeSweep (gfn : GaussF) (t maxMult : ℚ) : List String → RS → List MetricDataPoint × RS
  | [], s => ([], s)
  | name :: rest, s =>
    let one := spikeSvc gfn t maxMult (ServiceName.ofValueD name) s
    let more := spikeSweep gfn t maxMult rest one.2
    (one.1 ++ more.1, more.2)

/-- The spike loop over minutes `0..7` with the tapering multiplier
`10` (minutes 0-4) then `10 - 2(m-5)`. -/
def spikeAux (gfn : GaussF) (now : ℚ) : Nat → Nat → RS → List MetricDataPoint × RS
  | 0, _, s => ([], s)
  | k+1, minute, s =>
    let mult : ℤ := if minute < 5 then 10 else 10 - ((minute : ℤ) - 5) * 2
    let maxMult : ℚ := ((max mult 1 : ℤ) : ℚ)
    let t := now + (minute : ℚ)
    let one := spikeSweep gfn t maxMult frontendServices s
    let rest := spikeAux gfn now k (minute+1) one.2
    (one.1 ++ rest.1, rest.2)

/-- Rate-limit WARN log loop body: a uniform offset then four random octets
embedded in the message. -/
def rateLimitLogsAux (now : ℚ) : Nat → RS → List LogEntry × RS
  | 0, s => ([], s)
  | k+1, s =>
    let u := uniformQ 0 5 s
    let o1 := randint 1 255 u.2
    let o2 := randint 1 255 o1.2
    let o3 := randint 1 255 o2.2
    let o4 := randint 1 255 o3.2
    let rest := rateLimitLogsAux now k o4.2
    (⟨now + u.1, ServiceName.apiGateway, "WARN",
      "Rate limit exceeded for client IP " ++ toString o1.1 ++ "." ++ toString o2.1 ++
        "." ++ toString o3.1 ++ "." ++ toString o4.1 ++ " — returning 429",
      none, none⟩ :: rest.1, rest.2)

/-- Queue-full ERROR log loop body: a random frontend choice, a uniform
offset in `[1, 5]`, and a trace number. -/
def queueFullLogsAux (now : ℚ) : Nat → RS → List LogEntry × RS
  | 0, s => ([], s)
  | k+1, s =>
    let c := choiceIdx frontendServices.length s
    let svcName := frontendServices.getD c.1 ""
    let u := uniformQ 1 5 c.2
    let tr := randint 10000 99999 u.2
    let rest := queueFullLogsAux now k tr.2
    (⟨now + u.1, ServiceName.ofValueD svcName, "ERROR",
      "Request queue full — rejecting request (queue_size=1000, max=1000)",
      some ("trace-" ++ toString tr.1), none⟩ :: rest.1, rest.2)

/-- Fixed Tomcat-style rejected-execution stack trace. -/
def tomcatStack : String :=
  "java.util.concurrent.RejectedExecutionException: Task rejected from java.util.concurrent.ThreadPoolExecutor\n\tat org.apache.tomcat.util.threads.TaskQueue.force(TaskQueue.java:175)\n\tat org.apache.tomcat.util.threads.ThreadPoolExecutor.execute(ThreadPoolExecutor.java:152)"

/-- Thread-pool-exhaustion ERROR log loop body: a uniform offset in `[2, 5]`. -/
def threadPoolLogsAux (now : ℚ) : Nat → RS → List LogEntry × RS
  | 0, s => ([], s)
  | k+1, s =>
    let u := uniformQ 2 5 s
    let rest := threadPoolLogsAux now k u.2
    (⟨now + u.1, ServiceName.checkoutService, "ERROR",
      "Thread pool exhausted — all 200 threads in use, rejecting new connections",
      none, some tomcatStack⟩ :: rest.1, rest.2)

/-- The function `TrafficSpikeScenario.generate`: no deployments, baseline then surge
metrics, rate-limit warnings, queue-full and thread-pool errors; logs and
metrics sorted. -/
def generate (gfn : GaussF) (seed : Nat) (severity : String)
    (incident_time : Option ℚ) (w : World) : Except String MockDataSet :=
  match Severity.ofString? severity with
  | none => Except.error ("'" ++ severity ++ "' is not a valid Severity")
  | some sev =>
    let now := incident_time.getD w.utcnow
    let windowStart := now - 15
    let s0 : RS := ⟨MT.streamWords seed 4, none⟩
    let r1 := baseline gfn windowStart s0
    let r2 := spikeAux gfn now 8 0 r1.2
    let r3n := randint 30 50 r2.2
    let r3 := rateLimitLogsAux now r3n.1 r3n.2
    let r4n := randint 15 25 r3.2
    let r4 := queueFullLogsAux now r4n.1 r4n.2
    let r5n := randint 8 15 r4.2
    let r5 := threadPoolLogsAux now r5n.1 r5n.2
    let alert : Alert := ⟨w.alertToken, ServiceName.apiGateway, "requests_per_second",
      5000, 1000, sev, now,
      "API gateway traffic surge — 10x normal request volume detected (possible DDoS)"⟩
    Except.ok ⟨"traffic_spike",
      sortLogs (r3.1 ++ r4.1 ++ r5.1),
      sortMetrics (r1.1 ++ r2.1),
      [],
      alert⟩

end TS

namespace MockDataGenerator

/-- The four registered scenario names, in registry order. -/
def availableScenarios : List String :=
  ["latent_config_bug", "memory_leak", "cascading_failure", "traffic_spike"]

/-- The function `MockDataGenerator.generate`: dispatches on the scenario name, raising
(an error listing the available names) for an unknown scenario. -/
def generate (gfn : GaussF) (scenario_type : String) (seed : Nat)
    (severity : String) (incident_time : Option ℚ) (w : World) :
    Except String MockDataSet :=
  if scenario_type = "latent_config_bug" then LCB.generate gfn seed severity incident_time w
  else if scenario_type = "memory_leak" then ML.generate gfn seed severity incident_time w
  else if scenario_type = "cascading_failure" then CF.generate gfn seed severity incident_time w
  else if scenario_type = "traffic_spike" then TS.generate gfn seed severity incident_time w
  else Except.error ("Unknown scenario '" ++ scenario_type ++
    "'. Available: ['latent_config_bug', 'memory_leak', 'cascading_failure', 'traffic_spike']")

end MockDataGenerator

/-! Checkpoint literals for the MT19937 output streams of seeds 42 and 99,
established below by kernel computation in batches sized to the kernel's
reduction depth. -/

/-- State of `init_genrand` after 312 of its 623 steps (newest first). -/
def mtIA1 : List Nat := [142734034, 2916146832, 34782949, 1226457986, 3761027786, 1285948639, 975540284, 2947737408, 1601926242, 3759737929, 2582034960, 3239950393, 667742236, 1312406577, 2573705612, 2730510776, 426665187, 1757804190, 51184555, 1222939296, 922186079, 1046497567, 438085196, 771183330, 862342957, 3127753611, 1301176317, 2681595121, 240910660, 2516586762, 1816545474, 1518371465, 3119455410, 4266377361, 2225964784, 1149173203, 1174445287, 3562264788, 2613796143, 670873689, 2851998122, 2200349072, 2649636591, 3164133583, 2539969944, 718792604, 2532158399, 2116300560, 4159903992, 4210635059, 3318710975, 3232676806, 1476265004, 2574997514, 680496635, 3356722694, 4192871202, 3711010937, 277065458, 3832221927, 1622853283, 2833360921, 3727894469, 2643788909, 1401714789, 3428669802, 1797269750, 1890650113, 293994524, 3059852298, 2686841033, 2568658569, 140581304, 3111882026, 4271912220, 3797759893, 1640252809, 3275208410, 3489134272, 2991500316, 2520802485, 506003017, 798286522, 1370367813, 2136364769, 1880693944, 758340017, 2727104545, 861781568, 1788453345, 2556071384, 2008745587, 2587648220, 3686064131, 1012335624, 3635632789, 3126539534, 46152446, 3681829528, 2681274264, 2282092805, 3881512158, 742342831, 3979653402, 2911604503, 1696011322, 2247148685, 623564883, 3897607181, 406561453, 4156878137, 3076008769, 3221624091, 3773310804, 3807832586, 4137898487, 3138556488, 478803252, 3484259358, 1521860141, 901228284, 930072460, 416687433, 366677807, 3396216457, 2795804747, 3344730195, 1974090788, 3902327948, 1029228868, 4293649418, 3682192071, 399772074, 1133695167, 3089667358, 1931293181, 3971218783, 2537690753, 1140607595, 4137805178, 539814729, 2026267864, 3865519914, 422274176, 980222603, 3439545764, 104744889, 2050343702, 2832484895, 738773343, 893089804, 2704726048, 2648785169, 668528669, 2796353700, 955816590, 1904872348, 3309743875, 1829519945, 2002220930, 346693941, 4246102746, 3025229445, 1205933762, 1573187880, 3179572998, 1942259446, 2344564886, 1267030560, 3423543891, 2922602614, 3331577291, 1897974631, 1112268606, 3268366900, 340444514, 1002066021, 2358935835, 4134715143, 2421398767, 2499713312, 2262104686, 1124854030, 1727529885, 4014428911, 2631768385, 2905279128, 2987412752, 3647085204, 1628511289, 1203228647, 2932986219, 3636393737, 2857335743, 1765506473, 3524644532, 1647333586, 2672900100, 2400528575, 1862314184, 1685794058, 1550777747, 1370736725, 3255278936, 1897615374, 669116410, 1614747618, 4174970395, 1043137738, 1556864443, 332872900, 1499706375, 548699130, 393453278, 2287991389, 3468881884, 4121261916, 34711884, 2278780139, 3894654986, 1055110313, 804406473, 4167967445, 1963601502, 3949991970, 3671007489, 2075519075, 22171017, 302309156, 3103448722, 3115851985, 2842514961, 275612352, 3898116531, 3628367767, 4073107990, 1635136148, 3359074475, 147288288, 4194693085, 2360410630, 499957222, 3015982257, 2452306317, 2429248426, 3667677805, 3537107937, 4141458096, 2116659522, 2964190680, 2488668711, 2727485495, 3269762417, 3146346387, 2087741561, 3888374480, 2864380489, 3629971774, 799115259, 750866145, 3007610686, 970921794, 80499043, 2890863071, 3096545044, 1934126869, 1402615791, 4240588078, 2876012911, 41492871, 3529585711, 2088609312, 3699583528, 2832785922, 254650943, 653651109, 1224061569, 1814262168, 594136785, 3148644481, 2107812065, 3537525294, 1900533858, 1318655221, 551149560, 3436335279, 3057012486, 1211472509, 3924081815, 2590753297, 2341377904, 2400416080, 4207719964, 2783805802, 2882769417, 2585306665, 1422571577, 3311200630, 3855278296, 3489052161, 2892331238, 1330738387, 1003665704, 3889680837, 2833403150, 1814940559, 721660136, 2188372024, 719805879, 1417962806, 874550967, 2194844435, 19650218]

/-- State of `init_genrand` after all 623 steps (newest first). -/
def mtIA2 : List Nat := [2905164258, 1635052534, 3108728554, 2494804283, 2939219489, 1098865791, 2463881971, 2920297152, 1481676153, 2613550760, 4237199385, 2196303270, 1430072091, 2544260698, 1779286169, 1932918233, 4096823942, 2739462297, 604774175, 1576615579, 3104188113, 4155016765, 2421794725, 4184957279, 3360749048, 1702902668, 2080594943, 3010604384, 4022490143, 2873283550, 853096604, 336174575, 2326708913, 3993561529, 518523023, 911976986, 1643999927, 1354685949, 3225750324, 121785359, 4188334520, 2510752543, 1375945828, 758818611, 2998385089, 3951567013, 4291719204, 763251111, 2063591130, 623498751, 619161901, 2929333298, 1919198655, 595304244, 3167671920, 1949555562, 899447370, 1976606742, 1103312993, 1020530876, 3410898923, 2003138393, 189686171, 4215513121, 2373631903, 2893719730, 2287658550, 2830079959, 2365602253, 1012445178, 3995730323, 1657192483, 243557343, 2407111514, 3737140007, 2563327448, 4142650279, 940193076, 2916138664, 3081487737, 4148604134, 2483173049, 1931863550, 2823456463, 3543924788, 722448549, 3445281068, 1163635478, 672527398, 3349647456, 1168938371, 2822882772, 3621804227, 744286448, 3951905925, 834843492, 2330951878, 3646714856, 1761180115, 2775252812, 3542996035, 2682159578, 656698256, 248278651, 2657856757, 559859542, 2709652242, 2646143627, 1468655994, 2507869609, 2445243929, 1037069880, 68817880, 3581811046, 19134280, 291303663, 2201173365, 4181545713, 933165355, 2302165064, 228231184, 156211365, 1115859074, 2982111755, 2710753737, 238911006, 3219381950, 222528329, 3621950182, 2751150377, 343671839, 2161504072, 2783186990, 165909127, 2659914459, 2325690120, 4284063395, 4171611151, 2057094004, 3066948065, 3338815162, 3882536840, 798789550, 2942754891, 2003448718, 1498851202, 2962654934, 1862999556, 1854864649, 1988620951, 3617063034, 3560958606, 3747681661, 913857966, 107682552, 1238578150, 2279952808, 3374677426, 3152395874, 349292989, 1528864744, 1466421412, 3245216029, 2634319122, 3621709005, 802662362, 3847861459, 2263235392, 1862432793, 1831166187, 2794717891, 4178799653, 3719088974, 1337937966, 189424636, 246502175, 1626809714, 2352722741, 439226283, 2896358996, 3370826939, 3513884419, 704411669, 3888932143, 1607063978, 1410495094, 775553472, 589268143, 1859142878, 866785615, 865242585, 1413065993, 1404204260, 506301841, 989728679, 2950230896, 320925812, 2657233815, 2392480235, 3729298457, 752278045, 25504318, 725502136, 993379095, 3385122292, 4273098366, 1350089133, 3926678815, 1120564498, 1293199350, 406246264, 4063025724, 2892512290, 1831627642, 433656928, 1079541434, 4021176185, 3851731257, 2379159653, 3390355091, 1729663122, 3736887952, 306465830, 2331394419, 1181922214, 3337180104, 1394934451, 1805942063, 2692883557, 3297105617, 3643232056, 2765853569, 3471943430, 2372597521, 3652717612, 3879209240, 3607443975, 3730509879, 2042086160, 3578587616, 1525608673, 4175228089, 1922410526, 1715499660, 3715638227, 1888657273, 926205331, 87326482, 735476370, 919015551, 1782441684, 97659251, 3091367825, 2716998340, 2527971304, 792789163, 87174175, 3258199283, 957417377, 2730075174, 2937538864, 1373900512, 4205099837, 4084014919, 1731016690, 3924670764, 2909421388, 3652705112, 1168231653, 1007986266, 1300643225, 478389208, 3481808155, 737713932, 2042766103, 1161124915, 4264242568, 3595587370, 1285104017, 160348120, 1493415041, 2371373280, 3565909441, 4181103103, 1006180559, 3756851151, 3229539130, 2481932343, 2094837850, 1038354351, 2558474063, 2241527512, 3764647071, 4137196231, 487578169, 1622629937, 3045003063, 2056318769, 1678953742, 1541227668, 1482533137, 3705107125, 4087139828, 3376719924, 2199197158, 3100986137, 3517313596, 1575951506, 3947471773, 4042990521, 569716755, 142734034, 2916146832, 34782949, 1226457986, 3761027786, 1285948639, 975540284, 2947737408, 1601926242, 3759737929, 2582034960, 3239950393, 667742236, 1312406577, 2573705612, 2730510776, 426665187, 1757804190, 51184555, 1222939296, 922186079, 1046497567, 438085196, 771183330, 862342957, 3127753611, 1301176317, 2681595121, 240910660, 2516586762, 1816545474, 1518371465, 3119455410, 4266377361, 2225964784, 1149173203, 1174445287, 3562264788, 2613796143, 670873689, 2851998122, 2200349072, 2649636591, 3164133583, 2539969944, 718792604, 2532158399, 2116300560, 4159903992, 4210635059, 3318710975, 3232676806, 1476265004, 2574997514, 680496635, 3356722694, 4192871202, 3711010937, 277065458, 3832221927, 1622853283, 2833360921, 3727894469, 2643788909, 1401714789, 3428669802, 1797269750, 1890650113, 293994524, 3059852298, 2686841033, 2568658569, 140581304, 3111882026, 4271912220, 3797759893, 1640252809, 3275208410, 3489134272, 2991500316, 2520802485, 506003017, 798286522, 1370367813, 2136364769, 1880693944, 758340017, 2727104545, 861781568, 1788453345, 2556071384, 2008745587, 2587648220, 3686064131, 1012335624, 3635632789, 3126539534, 46152446, 3681829528, 2681274264, 2282092805, 3881512158, 742342831, 3979653402, 2911604503, 1696011322, 2247148685, 623564883, 3897607181, 406561453, 4156878137, 3076008769, 3221624091, 3773310804, 3807832586, 4137898487, 3138556488, 478803252, 3484259358, 1521860141, 901228284, 930072460, 416687433, 366677807, 3396216457, 2795804747, 3344730195, 1974090788, 3902327948, 1029228868, 4293649418, 3682192071, 399772074, 1133695167, 3089667358, 1931293181, 3971218783, 2537690753, 1140607595, 4137805178, 539814729, 2026267864, 3865519914, 422274176, 980222603, 3439545764, 104744889, 2050343702, 2832484895, 738773343, 893089804, 2704726048, 2648785169, 668528669, 2796353700, 955816590, 1904872348, 3309743875, 1829519945, 2002220930, 346693941, 4246102746, 3025229445, 1205933762, 1573187880, 3179572998, 1942259446, 2344564886, 1267030560, 3423543891, 2922602614, 3331577291, 1897974631, 1112268606, 3268366900, 340444514, 1002066021, 2358935835, 4134715143, 2421398767, 2499713312, 2262104686, 1124854030, 1727529885, 4014428911, 2631768385, 2905279128, 2987412752, 3647085204, 1628511289, 1203228647, 2932986219, 3636393737, 2857335743, 1765506473, 3524644532, 1647333586, 2672900100, 2400528575, 1862314184, 1685794058, 1550777747, 1370736725, 3255278936, 1897615374, 669116410, 1614747618, 4174970395, 1043137738, 1556864443, 332872900, 1499706375, 548699130, 393453278, 2287991389, 3468881884, 4121261916, 34711884, 2278780139, 3894654986, 1055110313, 804406473, 4167967445, 1963601502, 3949991970, 3671007489, 2075519075, 22171017, 302309156, 3103448722, 3115851985, 2842514961, 275612352, 3898116531, 3628367767, 4073107990, 1635136148, 3359074475, 147288288, 4194693085, 2360410630, 499957222, 3015982257, 2452306317, 2429248426, 3667677805, 3537107937, 4141458096, 2116659522, 2964190680, 2488668711, 2727485495, 3269762417, 3146346387, 2087741561, 3888374480, 2864380489, 3629971774, 799115259, 750866145, 3007610686, 970921794, 80499043, 2890863071, 3096545044, 1934126869, 1402615791, 4240588078, 2876012911, 41492871, 3529585711, 2088609312, 3699583528, 2832785922, 254650943, 653651109, 1224061569, 1814262168, 594136785, 3148644481, 2107812065, 3537525294, 1900533858, 1318655221, 551149560, 3436335279, 3057012486, 1211472509, 3924081815, 2590753297, 2341377904, 2400416080, 4207719964, 2783805802, 2882769417, 2585306665, 1422571577, 3311200630, 3855278296, 3489052161, 2892331238, 1330738387, 1003665704, 3889680837, 2833403150, 1814940559, 721660136, 2188372024, 719805879, 1417962806, 874550967, 2194844435, 19650218]

/-- The array `init_genrand(19650218)`, in position order. -/
def mtInitLit : List Nat := [19650218, 2194844435, 874550967, 1417962806, 719805879, 2188372024, 721660136, 1814940559, 2833403150, 3889680837, 1003665704, 1330738387, 2892331238, 3489052161, 3855278296, 3311200630, 1422571577, 2585306665, 2882769417, 2783805802, 4207719964, 2400416080, 2341377904, 2590753297, 3924081815, 1211472509, 3057012486, 3436335279, 551149560, 1318655221, 1900533858, 3537525294, 2107812065, 3148644481, 594136785, 1814262168, 1224061569, 653651109, 254650943, 2832785922, 3699583528, 2088609312, 3529585711, 41492871, 2876012911, 4240588078, 1402615791, 1934126869, 3096545044, 2890863071, 80499043, 970921794, 3007610686, 750866145, 799115259, 3629971774, 2864380489, 3888374480, 2087741561, 3146346387, 3269762417, 2727485495, 2488668711, 2964190680, 2116659522, 4141458096, 3537107937, 3667677805, 2429248426, 2452306317, 3015982257, 499957222, 2360410630, 4194693085, 147288288, 3359074475, 1635136148, 4073107990, 3628367767, 3898116531, 275612352, 2842514961, 3115851985, 3103448722, 302309156, 22171017, 2075519075, 3671007489, 3949991970, 1963601502, 4167967445, 804406473, 1055110313, 3894654986, 2278780139, 34711884, 4121261916, 3468881884, 2287991389, 393453278, 548699130, 1499706375, 332872900, 1556864443, 1043137738, 4174970395, 1614747618, 669116410, 1897615374, 3255278936, 1370736725, 1550777747, 1685794058, 1862314184, 2400528575, 2672900100, 1647333586, 3524644532, 1765506473, 2857335743, 3636393737, 2932986219, 1203228647, 1628511289, 3647085204, 2987412752, 2905279128, 2631768385, 4014428911, 1727529885, 1124854030, 2262104686, 2499713312, 2421398767, 4134715143, 2358935835, 1002066021, 340444514, 3268366900, 1112268606, 1897974631, 3331577291, 2922602614, 3423543891, 1267030560, 2344564886, 1942259446, 3179572998, 1573187880, 1205933762, 3025229445, 4246102746, 346693941, 2002220930, 1829519945, 3309743875, 1904872348, 955816590, 2796353700, 668528669, 2648785169, 2704726048, 893089804, 738773343, 2832484895, 2050343702, 104744889, 3439545764, 980222603, 422274176, 3865519914, 2026267864, 539814729, 4137805178, 1140607595, 2537690753, 3971218783, 1931293181, 3089667358, 1133695167, 399772074, 3682192071, 4293649418, 1029228868, 3902327948, 1974090788, 3344730195, 2795804747, 3396216457, 366677807, 416687433, 930072460, 901228284, 1521860141, 3484259358, 478803252, 3138556488, 4137898487, 3807832586, 3773310804, 3221624091, 3076008769, 4156878137, 406561453, 3897607181, 623564883, 2247148685, 1696011322, 2911604503, 3979653402, 742342831, 3881512158, 2282092805, 2681274264, 3681829528, 46152446, 3126539534, 3635632789, 1012335624, 3686064131, 2587648220, 2008745587, 2556071384, 1788453345, 861781568, 2727104545, 758340017, 1880693944, 2136364769, 1370367813, 798286522, 506003017, 2520802485, 2991500316, 3489134272, 3275208410, 1640252809, 3797759893, 4271912220, 3111882026, 140581304, 2568658569, 2686841033, 3059852298, 293994524, 1890650113, 1797269750, 3428669802, 1401714789, 2643788909, 3727894469, 2833360921, 1622853283, 3832221927, 277065458, 3711010937, 4192871202, 3356722694, 680496635, 2574997514, 1476265004, 3232676806, 3318710975, 4210635059, 4159903992, 2116300560, 2532158399, 718792604, 2539969944, 3164133583, 2649636591, 2200349072, 2851998122, 670873689, 2613796143, 3562264788, 1174445287, 1149173203, 2225964784, 4266377361, 3119455410, 1518371465, 1816545474, 2516586762, 240910660, 2681595121, 1301176317, 3127753611, 862342957, 771183330, 438085196, 1046497567, 922186079, 1222939296, 51184555, 1757804190, 426665187, 2730510776, 2573705612, 1312406577, 667742236, 3239950393, 2582034960, 3759737929, 1601926242, 2947737408, 975540284, 1285948639, 3761027786, 1226457986, 34782949, 2916146832, 142734034, 569716755, 4042990521, 3947471773, 1575951506, 3517313596, 3100986137, 2199197158, 3376719924, 4087139828, 3705107125, 1482533137, 1541227668, 1678953742, 2056318769, 3045003063, 1622629937, 487578169, 4137196231, 3764647071, 2241527512, 2558474063, 1038354351, 2094837850, 2481932343, 3229539130, 3756851151, 1006180559, 4181103103, 3565909441, 2371373280, 1493415041, 160348120, 1285104017, 3595587370, 4264242568, 1161124915, 2042766103, 737713932, 3481808155, 478389208, 1300643225, 1007986266, 1168231653, 3652705112, 2909421388, 3924670764, 1731016690, 4084014919, 4205099837, 1373900512, 2937538864, 2730075174, 957417377, 3258199283, 87174175, 792789163, 2527971304, 2716998340, 3091367825, 97659251, 1782441684, 919015551, 735476370, 87326482, 926205331, 1888657273, 3715638227, 1715499660, 1922410526, 4175228089, 1525608673, 3578587616, 2042086160, 3730509879, 3607443975, 3879209240, 3652717612, 2372597521, 3471943430, 2765853569, 3643232056, 3297105617, 2692883557, 1805942063, 1394934451, 3337180104, 1181922214, 2331394419, 306465830, 3736887952, 1729663122, 3390355091, 2379159653, 3851731257, 4021176185, 1079541434, 433656928, 1831627642, 2892512290, 4063025724, 406246264, 1293199350, 1120564498, 3926678815, 1350089133, 4273098366, 3385122292, 993379095, 725502136, 25504318, 752278045, 3729298457, 2392480235, 2657233815, 320925812, 2950230896, 989728679, 506301841, 1404204260, 1413065993, 865242585, 866785615, 1859142878, 589268143, 775553472, 1410495094, 1607063978, 3888932143, 704411669, 3513884419, 3370826939, 2896358996, 439226283, 2352722741, 1626809714, 246502175, 189424636, 1337937966, 3719088974, 4178799653, 2794717891, 1831166187, 1862432793, 2263235392, 3847861459, 802662362, 3621709005, 2634319122, 3245216029, 1466421412, 1528864744, 349292989, 3152395874, 3374677426, 2279952808, 1238578150, 107682552, 913857966, 3747681661, 3560958606, 3617063034, 1988620951, 1854864649, 1862999556, 2962654934, 1498851202, 2003448718, 2942754891, 798789550, 3882536840, 3338815162, 3066948065, 2057094004, 4171611151, 4284063395, 2325690120, 2659914459, 165909127, 2783186990, 2161504072, 343671839, 2751150377, 3621950182, 222528329, 3219381950, 238911006, 2710753737, 2982111755, 1115859074, 156211365, 228231184, 2302165064, 933165355, 4181545713, 2201173365, 291303663, 19134280, 3581811046, 68817880, 1037069880, 2445243929, 2507869609, 1468655994, 2646143627, 2709652242, 559859542, 2657856757, 248278651, 656698256, 2682159578, 3542996035, 2775252812, 1761180115, 3646714856, 2330951878, 834843492, 3951905925, 744286448, 3621804227, 2822882772, 1168938371, 3349647456, 672527398, 1163635478, 3445281068, 722448549, 3543924788, 2823456463, 1931863550, 2483173049, 4148604134, 3081487737, 2916138664, 940193076, 4142650279, 2563327448, 3737140007, 2407111514, 243557343, 1657192483, 3995730323, 1012445178, 2365602253, 2830079959, 2287658550, 2893719730, 2373631903, 4215513121, 189686171, 2003138393, 3410898923, 1020530876, 1103312993, 1976606742, 899447370, 1949555562, 3167671920, 595304244, 1919198655, 2929333298, 619161901, 623498751, 2063591130, 763251111, 4291719204, 3951567013, 2998385089, 758818611, 1375945828, 2510752543, 4188334520, 121785359, 3225750324, 1354685949, 1643999927, 911976986, 518523023, 3993561529, 2326708913, 336174575, 853096604, 2873283550, 4022490143, 3010604384, 2080594943, 1702902668, 3360749048, 4184957279, 2421794725, 4155016765, 3104188113, 1576615579, 604774175, 2739462297, 4096823942, 1932918233, 1779286169, 2544260698, 1430072091, 2196303270, 4237199385, 2613550760, 1481676153, 2920297152, 2463881971, 1098865791, 2939219489, 2494804283, 3108728554, 1635052534, 2905164258]

/-- Zipper state after 312 steps of `init_by_array` pass one, seed 42. -/
def mtZ1A42 : Nat × List Nat × List Nat := (313, ([572064686, 3655812909, 3325277724, 3479007408, 1775477269, 1568880740, 2096534584, 1368615547, 1697605140, 263732648, 1914029906, 1718262809, 2185241516, 3160221844, 872772103, 159786581, 2116969502, 2094357682, 3532288749, 926287112, 1929977591, 3471182681, 3356585715, 3421046362, 373257626, 3239698834, 3228039340, 394366139, 2161463778, 3355570671, 332998475, 617030063, 1605146685, 845965285, 2897875792, 1692917167, 1479766575, 1507099627, 4174925610, 1460479530, 3560796798, 2085468791, 60440849, 838319144, 2310024375, 3038559531, 3993154258, 113129139, 4215425726, 4283010335, 2742950236, 361048961, 1628968852, 2800542940, 3382933915, 2691145264, 1234597889, 4181825674, 1940192060, 919213408, 3838398934, 3087033993, 2381040604, 290906003, 1098967573, 1978978887, 1099512466, 12690326, 1728144096, 3235470545, 791860513, 1266955191, 4212425751, 653065065, 142939689, 780162735, 2377724242, 3884062694, 478167934, 2601097958, 3398699299, 2670818942, 4275025490, 1545225307, 2877319238, 2447732915, 4115667382, 1574266608, 1722197954, 1746740025, 825921830, 2558184630, 3205029433, 365912159, 475806094, 1816355869, 1037515646, 1316354883, 1587912386, 2652785666, 2852566338, 2920516179, 2288870417, 4267042411, 428835079, 692950642, 507351482, 3114563411, 484374754, 3400724298, 4155581826, 1784973988, 3031718501, 342483872, 487038506, 1769061299, 2955526900, 1980867595, 3044280811, 3168478361, 3454231753, 2360057389, 1006768907, 2909836362, 2826664585, 1637482671, 4025640581, 2809130026, 155552692, 4176590749, 1626409042, 178480682, 1221287202, 4231059481, 4029882515, 3721628816, 1206202438, 3304782988, 3198863533, 1804762249, 1807323512, 1142509410, 852607840, 4020709775, 1394518328, 4082677082, 4088998375, 3129542934, 3190220640, 1176852620, 4200446962, 2967471574, 1493212349, 4088669449, 2258790728, 3155039264, 1777928537, 1343134654, 2294571057, 118306310, 3531956821, 1068561942, 4050447501, 1040179966, 83453166, 778927772, 1306152517, 1478628960, 1811669281, 1608494962, 2979913157, 3357646690, 1201091838, 2988264637, 2462260259, 3425911490, 1661178723, 1520104909, 2272858522, 3155569041, 3473633707, 2534628327, 1088425822, 443292322, 2772346171, 1062938230, 968719617, 4153684680, 2333014084, 4226492229, 3231920425, 802721144, 3661668474, 2006962044, 3844911714, 2056032916, 4231055061, 2181915423, 137679733, 960676548, 2573730072, 3070799990, 3047068825, 1834739875, 4115233382, 2575018104, 228930948, 1150023577, 3567658567, 522958707, 271940666, 3571761959, 2699329120, 3121780222, 1547234995, 1945888549, 3962139392, 2405937968, 3786124017, 1838129117, 1526868316, 2792067141, 1481176475, 4286861623, 1577878238, 2504426860, 3120721805, 1218634497, 1488929623, 1977756396, 2385478034, 4146531166, 1436444024, 747241542, 4034403240, 856276813, 1967088072, 1706579635, 3864428585, 1878215386, 353027297, 1387052596, 2898011294, 2723071899, 1923340269, 1115090124, 3042704713, 2421469556, 4029566817, 3215757323, 2382800351, 2063037275, 4089639837, 1176721291, 2807104056, 1466946962, 2024677529, 1783164735, 11786007, 1278735855, 3853673143, 473588415, 2016777842, 4165798932, 3808453322, 867935108, 4042744008, 4195557878, 2727930344, 3487254742, 3250697748, 1233097880, 4097541637, 3778735612, 3328551699, 3018994860, 896974339, 1612779193, 532395187, 2231788986, 1159732756, 3195083125, 2908067003, 321437439, 3358780067, 3863249990, 1439643070, 1289585243, 963957372, 2274948507, 1530043617, 81885219, 1701394444, 2169264244, 2402227618, 3854766582, 162216761, 3294922893, 438431017, 271434243, 3793058107, 2801691409, 195304964, 2210405944, 1902161718, 489200522, 3221843944, 1393620271, 71202801, 4122224691, 3185121657, 4287171035, 19650218], [569716755, 4042990521, 3947471773, 1575951506, 3517313596, 3100986137, 2199197158, 3376719924, 4087139828, 3705107125, 1482533137, 1541227668, 1678953742, 2056318769, 3045003063, 1622629937, 487578169, 4137196231, 3764647071, 2241527512, 2558474063, 1038354351, 2094837850, 2481932343, 3229539130, 3756851151, 1006180559, 4181103103, 3565909441, 2371373280, 1493415041, 160348120, 1285104017, 3595587370, 4264242568, 1161124915, 2042766103, 737713932, 3481808155, 478389208, 1300643225, 1007986266, 1168231653, 3652705112, 2909421388, 3924670764, 1731016690, 4084014919, 4205099837, 1373900512, 2937538864, 2730075174, 957417377, 3258199283, 87174175, 792789163, 2527971304, 2716998340, 3091367825, 97659251, 1782441684, 919015551, 735476370, 87326482, 926205331, 1888657273, 3715638227, 1715499660, 1922410526, 4175228089, 1525608673, 3578587616, 2042086160, 3730509879, 3607443975, 3879209240, 3652717612, 2372597521, 3471943430, 2765853569, 3643232056, 3297105617, 2692883557, 1805942063, 1394934451, 3337180104, 1181922214, 2331394419, 306465830, 3736887952, 1729663122, 3390355091, 2379159653, 3851731257, 4021176185, 1079541434, 433656928, 1831627642, 2892512290, 4063025724, 406246264, 1293199350, 1120564498, 3926678815, 1350089133, 4273098366, 3385122292, 993379095, 725502136, 25504318, 752278045, 3729298457, 2392480235, 2657233815, 320925812, 2950230896, 989728679, 506301841, 1404204260, 1413065993, 865242585, 866785615, 1859142878, 589268143, 775553472, 1410495094, 1607063978, 3888932143, 704411669, 3513884419, 3370826939, 2896358996, 439226283, 2352722741, 1626809714, 246502175, 189424636, 1337937966, 3719088974, 4178799653, 2794717891, 1831166187, 1862432793, 2263235392, 3847861459, 802662362, 3621709005, 2634319122, 3245216029, 1466421412, 1528864744, 349292989, 3152395874, 3374677426, 2279952808, 1238578150, 107682552, 913857966, 3747681661, 3560958606, 3617063034, 1988620951, 1854864649, 1862999556, 2962654934, 1498851202, 2003448718, 2942754891, 798789550, 3882536840, 3338815162, 3066948065, 2057094004, 4171611151, 4284063395, 2325690120, 2659914459, 165909127, 2783186990, 2161504072, 343671839, 2751150377, 3621950182, 222528329, 3219381950, 238911006, 2710753737, 2982111755, 1115859074, 156211365, 228231184, 2302165064, 933165355, 4181545713, 2201173365, 291303663, 19134280, 3581811046, 68817880, 1037069880, 2445243929, 2507869609, 1468655994, 2646143627, 2709652242, 559859542, 2657856757, 248278651, 656698256, 2682159578, 3542996035, 2775252812, 1761180115, 3646714856, 2330951878, 834843492, 3951905925, 744286448, 3621804227, 2822882772, 1168938371, 3349647456, 672527398, 1163635478, 3445281068, 722448549, 3543924788, 2823456463, 1931863550, 2483173049, 4148604134, 3081487737, 2916138664, 940193076, 4142650279, 2563327448, 3737140007, 2407111514, 243557343, 1657192483, 3995730323, 1012445178, 2365602253, 2830079959, 2287658550, 2893719730, 2373631903, 4215513121, 189686171, 2003138393, 3410898923, 1020530876, 1103312993, 1976606742, 899447370, 1949555562, 3167671920, 595304244, 1919198655, 2929333298, 619161901, 623498751, 2063591130, 763251111, 4291719204, 3951567013, 2998385089, 758818611, 1375945828, 2510752543, 4188334520, 121785359, 3225750324, 1354685949, 1643999927, 911976986, 518523023, 3993561529, 2326708913, 336174575, 853096604, 2873283550, 4022490143, 3010604384, 2080594943, 1702902668, 3360749048, 4184957279, 2421794725, 4155016765, 3104188113, 1576615579, 604774175, 2739462297, 4096823942, 1932918233, 1779286169, 2544260698, 1430072091, 2196303270, 4237199385, 2613550760, 1481676153, 2920297152, 2463881971, 1098865791, 2939219489, 2494804283, 3108728554, 1635052534, 2905164258]))

/-- Zipper state after all 624 steps of pass one, seed 42. -/
def mtZ1B42 : Nat × List Nat × List Nat := (2, ([534419183, 1565245975], [3185121657, 4122224691, 71202801, 1393620271, 3221843944, 489200522, 1902161718, 2210405944, 195304964, 2801691409, 3793058107, 271434243, 438431017, 3294922893, 162216761, 3854766582, 2402227618, 2169264244, 1701394444, 81885219, 1530043617, 2274948507, 963957372, 1289585243, 1439643070, 3863249990, 3358780067, 321437439, 2908067003, 3195083125, 1159732756, 2231788986, 532395187, 1612779193, 896974339, 3018994860, 3328551699, 3778735612, 4097541637, 1233097880, 3250697748, 3487254742, 2727930344, 4195557878, 4042744008, 867935108, 3808453322, 4165798932, 2016777842, 473588415, 3853673143, 1278735855, 11786007, 1783164735, 2024677529, 1466946962, 2807104056, 1176721291, 4089639837, 2063037275, 2382800351, 3215757323, 4029566817, 2421469556, 3042704713, 1115090124, 1923340269, 2723071899, 2898011294, 1387052596, 353027297, 1878215386, 3864428585, 1706579635, 1967088072, 856276813, 4034403240, 747241542, 1436444024, 4146531166, 2385478034, 1977756396, 1488929623, 1218634497, 3120721805, 2504426860, 1577878238, 4286861623, 1481176475, 2792067141, 1526868316, 1838129117, 3786124017, 2405937968, 3962139392, 1945888549, 1547234995, 3121780222, 2699329120, 3571761959, 271940666, 522958707, 3567658567, 1150023577, 228930948, 2575018104, 4115233382, 1834739875, 3047068825, 3070799990, 2573730072, 960676548, 137679733, 2181915423, 4231055061, 2056032916, 3844911714, 2006962044, 3661668474, 802721144, 3231920425, 4226492229, 2333014084, 4153684680, 968719617, 1062938230, 2772346171, 443292322, 1088425822, 2534628327, 3473633707, 3155569041, 2272858522, 1520104909, 1661178723, 3425911490, 2462260259, 2988264637, 1201091838, 3357646690, 2979913157, 1608494962, 1811669281, 1478628960, 1306152517, 778927772, 83453166, 1040179966, 4050447501, 1068561942, 3531956821, 118306310, 2294571057, 1343134654, 1777928537, 3155039264, 2258790728, 4088669449, 1493212349, 2967471574, 4200446962, 1176852620, 3190220640, 3129542934, 4088998375, 4082677082, 1394518328, 4020709775, 852607840, 1142509410, 1807323512, 1804762249, 3198863533, 3304782988, 1206202438, 3721628816, 4029882515, 4231059481, 1221287202, 178480682, 1626409042, 4176590749, 155552692, 2809130026, 4025640581, 1637482671, 2826664585, 2909836362, 1006768907, 2360057389, 3454231753, 3168478361, 3044280811, 1980867595, 2955526900, 1769061299, 487038506, 342483872, 3031718501, 1784973988, 4155581826, 3400724298, 484374754, 3114563411, 507351482, 692950642, 428835079, 4267042411, 2288870417, 2920516179, 2852566338, 2652785666, 1587912386, 1316354883, 1037515646, 1816355869, 475806094, 365912159, 3205029433, 2558184630, 825921830, 1746740025, 1722197954, 1574266608, 4115667382, 2447732915, 2877319238, 1545225307, 4275025490, 2670818942, 3398699299, 2601097958, 478167934, 3884062694, 2377724242, 780162735, 142939689, 653065065, 4212425751, 1266955191, 791860513, 3235470545, 1728144096, 12690326, 1099512466, 1978978887, 1098967573, 290906003, 2381040604, 3087033993, 3838398934, 919213408, 1940192060, 4181825674, 1234597889, 2691145264, 3382933915, 2800542940, 1628968852, 361048961, 2742950236, 4283010335, 4215425726, 113129139, 3993154258, 3038559531, 2310024375, 838319144, 60440849, 2085468791, 3560796798, 1460479530, 4174925610, 1507099627, 1479766575, 1692917167, 2897875792, 845965285, 1605146685, 617030063, 332998475, 3355570671, 2161463778, 394366139, 3228039340, 3239698834, 373257626, 3421046362, 3356585715, 3471182681, 1929977591, 926287112, 3532288749, 2094357682, 2116969502, 159786581, 872772103, 3160221844, 2185241516, 1718262809, 1914029906, 263732648, 1697605140, 1368615547, 2096534584, 1568880740, 1775477269, 3479007408, 3325277724, 3655812909, 572064686, 793752559, 1273986756, 1134644678, 292692403, 1997666901, 521037191, 3108562023, 148143935, 2033737201, 359471023, 2253210908, 12137020, 3746936876, 29686652, 2536448677, 3073708660, 1570580977, 2394446881, 1394502530, 1387682217, 68963057, 4046508988, 497249043, 2168343018, 1497033756, 3473568992, 599554418, 1008797535, 980372540, 1287294998, 337825748, 969519686, 4186099785, 4153164050, 815677055, 3663960682, 2736229996, 3091763396, 2805732159, 1378872299, 63835045, 1361310565, 1932589339, 1777391924, 546904871, 2794148865, 1274692095, 4037251787, 1089904447, 1289929968, 3532803895, 464066988, 1888342599, 65387943, 1152911246, 2719178002, 2651709026, 3848048718, 653624994, 4131146611, 2402521742, 392767885, 243020005, 4212311773, 2448050431, 2453478858, 1928859941, 1068582018, 4285263534, 2963660954, 2754480003, 3181391511, 2039052459, 1693699263, 2508596171, 1871375959, 2463257244, 3731738945, 2996063110, 593100383, 2803207189, 78484004, 168617947, 550008154, 2912736075, 699368359, 2715781895, 1473072220, 2762646217, 3789964553, 2436230458, 3433950581, 1815546565, 2678940407, 881255218, 3642297178, 94707215, 1879043043, 493173378, 2013863632, 2769290767, 376101769, 1703726865, 2436546297, 1055788348, 2827672220, 4065514524, 1056300206, 2656682136, 2647853590, 964272451, 4272977576, 1516990830, 3827291998, 1587613175, 4179315256, 4282861954, 2511121478, 1790550970, 198541216, 314816291, 3807979442, 3255881037, 3126461571, 3939279223, 1830688956, 2904446557, 3086440998, 2600571883, 548784128, 1442944229, 621382122, 1013396339, 3116621324, 1212088302, 3442633318, 4003120903, 1999954756, 2354496505, 789813700, 2448614497, 321219606, 522139953, 500061799, 3434076690, 4004413233, 3333588337, 3713710082, 2590682938, 584377766, 1587892912, 3564204394, 2882938465, 99817695, 283987237, 3098909489, 3814795673, 1693722022, 3419694640, 558065731, 1830419783, 3616944707, 3697864819, 320588766, 1153910970, 2785711399, 1106863001, 3730210589, 90498898, 4129727692, 987078243, 659723536, 263795406, 1952847011, 1717569219, 2484901116, 3944076903, 2594711997, 1261906119, 1202985328, 4130165964, 2075521492, 3012015969, 350437752, 3216768464, 1662185950, 2458842052, 2231775023, 2432957429, 2281221464, 3890618796, 1258958805, 3185057049, 1846046424, 1190800026, 1636571994, 1942311681, 1315516048, 1947480239, 2360976152, 2555171445, 1880758220, 1046088253, 2535662012, 1447717342, 2145647919, 2425979853, 1867204130, 1493953153, 3025627524, 2579262391, 3275909543, 3649293489, 1442718476, 2261546393, 4204923365, 2855233621, 2485460677, 2255782658, 2740806398, 1852242809, 4119004578, 277584693, 3661714641, 2831428528, 3570308313, 1948937040, 4019732476, 1728330807, 1484301361, 1870518976, 2630730974, 2173573550, 2352472242, 2775014273, 474583721, 3429692380, 335783731, 3259804786, 593758152, 2275153125, 562607723, 1880284364, 1817998312, 553344781, 2962401605, 1672043822, 1595069804, 669852988, 1373223807, 4083062455, 4290334658, 3721120470, 824675057, 3833294497, 3793285498, 3162877823, 3666946199, 2543493733, 2231655731, 3167021178, 2608745489, 3748366423, 2911186445, 2690261265, 2736004988, 3983045841, 945896899, 4053110957, 1755097075, 3626244892, 99153606, 4164446052, 2107742192, 4223324084, 3058031739, 2178769108, 2947663761, 3024647920, 2965236687, 2655297567, 2942205137, 1373715666, 1681196545, 2971014697, 2426894797, 806378661, 4171895656, 3649780212, 3655458272, 51220608, 4131022917, 3512021179, 4160498155, 3692561016, 2400051216, 3333442717, 1196330630, 2211130858, 2745903512, 1858138357, 2623990518, 3170612039, 3454184043, 4199271909, 1143358715, 3739742909, 3854481095, 971911496, 3384269704, 1565245975]))

/-- Zipper state after 312 steps of pass two, seed 42. -/
def mtZ2A42 : Nat × List Nat × List Nat := (314, ([5659228, 1447487475, 3918217378, 1194380773, 4193733112, 2002655192, 4010387366, 746460793, 2538598293, 842553465, 2237045115, 739014618, 2446538832, 1284334485, 2721152875, 325117146, 1211895622, 2413855408, 1743078223, 3601318775, 1360448945, 2866524548, 3114661489, 1715730760, 850346789, 4106300911, 4203468658, 1164202054, 841300520, 4148493093, 1949153382, 650746582, 1687778718, 2624415034, 1907541826, 434805516, 1196986251, 4189978976, 1669902526, 2921385648, 1784451785, 3792934707, 793588217, 2872630545, 1909275895, 1437291709, 2421841572, 503065140, 2597187966, 1151197733, 3208584597, 1193400518, 3020348754, 1659576351, 4229475816, 3218013033, 4199229235, 1452816309, 1141105829, 2241368212, 544190486, 2773430005, 2616998041, 3027776859, 2977698135, 3757450756, 625057077, 510935951, 3476836808, 551348559, 2773743461, 151202901, 4112521069, 2032472116, 101134519, 2041056290, 4277884230, 1051806316, 1646969411, 2377287978, 308399650, 689023977, 1748902923, 2687061406, 3021825820, 1622085203, 865327389, 2702071861, 1883566732, 1393256920, 921004274, 3381761227, 1842619106, 1780081876, 2582869847, 4067327082, 4014249473, 2132779194, 3917373055, 1562977008, 4080874167, 809751414, 3777871979, 4211618666, 2506078507, 905794891, 3120733934, 2897993505, 2577080371, 4024838996, 2503635608, 2083806068, 356162828, 3340028190, 2617497797, 1359785149, 3351764214, 3031621994, 3470600401, 3567541936, 2232868135, 1616118556, 3570739698, 2761748078, 1796071066, 1304736088, 2808160475, 1405608772, 4164251484, 1255233746, 2178394212, 197006094, 1217573599, 1074996711, 2307550151, 716970023, 4250485633, 3189868792, 1322708567, 4020772289, 3180940440, 715447260, 4044574515, 275388428, 1779174943, 3209427769, 2829698151, 3470650311, 3553093569, 3178241202, 989674750, 2175117867, 1835149778, 350121793, 4122879535, 2223955385, 2412448305, 3550998357, 3164497290, 1502434558, 2492118775, 3253346525, 381637792, 4156482318, 2762232439, 3632873481, 2139598582, 2361740275, 311602112, 140678365, 3362401375, 967119212, 3591096528, 1974438610, 2284345122, 4200687059, 2659437476, 243092931, 1506105865, 3486310554, 2563894064, 3550093655, 1647009713, 2463949525, 1921293780, 1161461546, 2004196796, 1386663624, 11610683, 352815024, 2489027658, 2949252482, 2111980720, 3598997630, 3646225311, 542306338, 1266970739, 2816521934, 2794389321, 2980215653, 980412666, 2794883969, 3274801974, 2664856277, 3549449169, 2297810139, 3775424270, 3564622190, 1885979437, 2023513186, 4080010250, 2992804824, 2029552053, 3497868538, 3347694949, 1619647231, 215262826, 899864150, 1224426111, 3119957588, 3292439172, 3384662671, 263923435, 3282302532, 2506862371, 3952623596, 3818358673, 2005649973, 2659800972, 80495456, 3996363428, 4156024188, 3028370222, 3154715663, 1906917274, 1844776834, 407586584, 3802061067, 1788980658, 953353270, 2666158583, 468762002, 3997022236, 3458782472, 3416675731, 1414647942, 2279837081, 99824592, 1856738750, 1670056238, 3018262113, 3714670796, 1787663536, 3082181756, 2177349827, 2301197011, 2082185616, 4154287292, 2106865768, 3881209635, 2661260596, 3531838733, 2654193596, 1062716176, 1592059249, 2299934332, 2078491503, 1176835859, 3087139671, 3678480009, 59539609, 1470655403, 549624109, 768926902, 3205493053, 1411153081, 513116636, 3733177770, 1143540808, 169865066, 302623699, 1944574775, 3322185604, 246289694, 1582950522, 3857480267, 2961234806, 2648371337, 3667698522, 380915208, 1773214509, 1493190386, 1485176884, 281170210, 540883378, 524478045, 2097423432, 2818100609, 2362848650, 3755350407, 2039675917, 4230508198, 4180157270, 924383152, 2900535780, 2565409715, 946923017, 3037210256, 3180588708, 3595291661, 4212342371, 1266698288, 534419183, 1565245975], [1273986756, 1134644678, 292692403, 1997666901, 521037191, 3108562023, 148143935, 2033737201, 359471023, 2253210908, 12137020, 3746936876, 29686652, 2536448677, 3073708660, 1570580977, 2394446881, 1394502530, 1387682217, 68963057, 4046508988, 497249043, 2168343018, 1497033756, 3473568992, 599554418, 1008797535, 980372540, 1287294998, 337825748, 969519686, 4186099785, 4153164050, 815677055, 3663960682, 2736229996, 3091763396, 2805732159, 1378872299, 63835045, 1361310565, 1932589339, 1777391924, 546904871, 2794148865, 1274692095, 4037251787, 1089904447, 1289929968, 3532803895, 464066988, 1888342599, 65387943, 1152911246, 2719178002, 2651709026, 3848048718, 653624994, 4131146611, 2402521742, 392767885, 243020005, 4212311773, 2448050431, 2453478858, 1928859941, 1068582018, 4285263534, 2963660954, 2754480003, 3181391511, 2039052459, 1693699263, 2508596171, 1871375959, 2463257244, 3731738945, 2996063110, 593100383, 2803207189, 78484004, 168617947, 550008154, 2912736075, 699368359, 2715781895, 1473072220, 2762646217, 3789964553, 2436230458, 3433950581, 1815546565, 2678940407, 881255218, 3642297178, 94707215, 1879043043, 493173378, 2013863632, 2769290767, 376101769, 1703726865, 2436546297, 1055788348, 2827672220, 4065514524, 1056300206, 2656682136, 2647853590, 964272451, 4272977576, 1516990830, 3827291998, 1587613175, 4179315256, 4282861954, 2511121478, 1790550970, 198541216, 314816291, 3807979442, 3255881037, 3126461571, 3939279223, 1830688956, 2904446557, 3086440998, 2600571883, 548784128, 1442944229, 621382122, 1013396339, 3116621324, 1212088302, 3442633318, 4003120903, 1999954756, 2354496505, 789813700, 2448614497, 321219606, 522139953, 500061799, 3434076690, 4004413233, 3333588337, 3713710082, 2590682938, 584377766, 1587892912, 3564204394, 2882938465, 99817695, 283987237, 3098909489, 3814795673, 1693722022, 3419694640, 558065731, 1830419783, 3616944707, 3697864819, 320588766, 1153910970, 2785711399, 1106863001, 3730210589, 90498898, 4129727692, 987078243, 659723536, 263795406, 1952847011, 1717569219, 2484901116, 3944076903, 2594711997, 1261906119, 1202985328, 4130165964, 2075521492, 3012015969, 350437752, 3216768464, 1662185950, 2458842052, 2231775023, 2432957429, 2281221464, 3890618796, 1258958805, 3185057049, 1846046424, 1190800026, 1636571994, 1942311681, 1315516048, 1947480239, 2360976152, 2555171445, 1880758220, 1046088253, 2535662012, 1447717342, 2145647919, 2425979853, 1867204130, 1493953153, 3025627524, 2579262391, 3275909543, 3649293489, 1442718476, 2261546393, 4204923365, 2855233621, 2485460677, 2255782658, 2740806398, 1852242809, 4119004578, 277584693, 3661714641, 2831428528, 3570308313, 1948937040, 4019732476, 1728330807, 1484301361, 1870518976, 2630730974, 2173573550, 2352472242, 2775014273, 474583721, 3429692380, 335783731, 3259804786, 593758152, 2275153125, 562607723, 1880284364, 1817998312, 553344781, 2962401605, 1672043822, 1595069804, 669852988, 1373223807, 4083062455, 4290334658, 3721120470, 824675057, 3833294497, 3793285498, 3162877823, 3666946199, 2543493733, 2231655731, 3167021178, 2608745489, 3748366423, 2911186445, 2690261265, 2736004988, 3983045841, 945896899, 4053110957, 1755097075, 3626244892, 99153606, 4164446052, 2107742192, 4223324084, 3058031739, 2178769108, 2947663761, 3024647920, 2965236687, 2655297567, 2942205137, 1373715666, 1681196545, 2971014697, 2426894797, 806378661, 4171895656, 3649780212, 3655458272, 51220608, 4131022917, 3512021179, 4160498155, 3692561016, 2400051216, 3333442717, 1196330630, 2211130858, 2745903512, 1858138357, 2623990518, 3170612039, 3454184043, 4199271909, 1143358715, 3739742909, 3854481095, 971911496, 3384269704, 1565245975]))

/-- Zipper state after all 623 steps of pass two, seed 42. -/
def mtZ2B42 : Nat × List Nat × List Nat := (2, ([3564348608, 3831079317], [1266698288, 4212342371, 3595291661, 3180588708, 3037210256, 946923017, 2565409715, 2900535780, 924383152, 4180157270, 4230508198, 2039675917, 3755350407, 2362848650, 2818100609, 2097423432, 524478045, 540883378, 281170210, 1485176884, 1493190386, 1773214509, 380915208, 3667698522, 2648371337, 2961234806, 3857480267, 1582950522, 246289694, 3322185604, 1944574775, 302623699, 169865066, 1143540808, 3733177770, 513116636, 1411153081, 3205493053, 768926902, 549624109, 1470655403, 59539609, 3678480009, 3087139671, 1176835859, 2078491503, 2299934332, 1592059249, 1062716176, 2654193596, 3531838733, 2661260596, 3881209635, 2106865768, 4154287292, 2082185616, 2301197011, 2177349827, 3082181756, 1787663536, 3714670796, 3018262113, 1670056238, 1856738750, 99824592, 2279837081, 1414647942, 3416675731, 3458782472, 3997022236, 468762002, 2666158583, 953353270, 1788980658, 3802061067, 407586584, 1844776834, 1906917274, 3154715663, 3028370222, 4156024188, 3996363428, 80495456, 2659800972, 2005649973, 3818358673, 3952623596, 2506862371, 3282302532, 263923435, 3384662671, 3292439172, 3119957588, 1224426111, 899864150, 215262826, 1619647231, 3347694949, 3497868538, 2029552053, 2992804824, 4080010250, 2023513186, 1885979437, 3564622190, 3775424270, 2297810139, 3549449169, 2664856277, 3274801974, 2794883969, 980412666, 2980215653, 2794389321, 2816521934, 1266970739, 542306338, 3646225311, 3598997630, 2111980720, 2949252482, 2489027658, 352815024, 11610683, 1386663624, 2004196796, 1161461546, 1921293780, 2463949525, 1647009713, 3550093655, 2563894064, 3486310554, 1506105865, 243092931, 2659437476, 4200687059, 2284345122, 1974438610, 3591096528, 967119212, 3362401375, 140678365, 311602112, 2361740275, 2139598582, 3632873481, 2762232439, 4156482318, 381637792, 3253346525, 2492118775, 1502434558, 3164497290, 3550998357, 2412448305, 2223955385, 4122879535, 350121793, 1835149778, 2175117867, 989674750, 3178241202, 3553093569, 3470650311, 2829698151, 3209427769, 1779174943, 275388428, 4044574515, 715447260, 3180940440, 4020772289, 1322708567, 3189868792, 4250485633, 716970023, 2307550151, 1074996711, 1217573599, 197006094, 2178394212, 1255233746, 4164251484, 1405608772, 2808160475, 1304736088, 1796071066, 2761748078, 3570739698, 1616118556, 2232868135, 3567541936, 3470600401, 3031621994, 3351764214, 1359785149, 2617497797, 3340028190, 356162828, 2083806068, 2503635608, 4024838996, 2577080371, 2897993505, 3120733934, 905794891, 2506078507, 4211618666, 3777871979, 809751414, 4080874167, 1562977008, 3917373055, 2132779194, 4014249473, 4067327082, 2582869847, 1780081876, 1842619106, 3381761227, 921004274, 1393256920, 1883566732, 2702071861, 865327389, 1622085203, 3021825820, 2687061406, 1748902923, 689023977, 308399650, 2377287978, 1646969411, 1051806316, 4277884230, 2041056290, 101134519, 2032472116, 4112521069, 151202901, 2773743461, 551348559, 3476836808, 510935951, 625057077, 3757450756, 2977698135, 3027776859, 2616998041, 2773430005, 544190486, 2241368212, 1141105829, 1452816309, 4199229235, 3218013033, 4229475816, 1659576351, 3020348754, 1193400518, 3208584597, 1151197733, 2597187966, 503065140, 2421841572, 1437291709, 1909275895, 2872630545, 793588217, 3792934707, 1784451785, 2921385648, 1669902526, 4189978976, 1196986251, 434805516, 1907541826, 2624415034, 1687778718, 650746582, 1949153382, 4148493093, 841300520, 1164202054, 4203468658, 4106300911, 850346789, 1715730760, 3114661489, 2866524548, 1360448945, 3601318775, 1743078223, 2413855408, 1211895622, 325117146, 2721152875, 1284334485, 2446538832, 739014618, 2237045115, 842553465, 2538598293, 746460793, 4010387366, 2002655192, 4193733112, 1194380773, 3918217378, 1447487475, 5659228, 3408847694, 4190318700, 1862549564, 781683719, 1194618118, 755053413, 3436011942, 2885435303, 3081151348, 2017642831, 1053816502, 1086627485, 2157296554, 110650022, 965352898, 1003174194, 1288956241, 4057404871, 2965068465, 2897064481, 2457377317, 1879872545, 358455290, 375086701, 3015902095, 1676249984, 924455526, 2084169389, 1989014644, 1993749926, 2009424973, 2113340508, 3980883273, 2915977458, 203328382, 3020815229, 2415050113, 4103009585, 3700885489, 2916647550, 1523006503, 174302338, 2476909338, 1969322490, 4285741984, 1528449097, 3355315515, 4217241278, 599579127, 2572243673, 3035856735, 1539140489, 1782314913, 4238644287, 1746424142, 1978148312, 2380746849, 184941882, 1106717981, 1720750349, 981701307, 3953154731, 3257809181, 2892339376, 3339778166, 3676936849, 87425948, 3029257381, 2037942523, 3807628706, 2861474706, 1058852346, 1322765211, 2686046342, 2689342655, 2303436168, 2571627181, 1986057734, 1183564308, 2829677523, 1295563975, 503126586, 2025890348, 4179277821, 1735262467, 981331774, 1613447066, 1011606109, 2000062246, 3581448390, 3477731384, 3641307373, 3508544379, 2327233491, 3931944343, 4189052882, 2990416380, 422406169, 202291313, 2531006461, 4277024116, 3815144003, 821314585, 1344175168, 3562834071, 1339615445, 1831545190, 3115548822, 743512780, 4006999448, 3720181735, 1012033521, 919931041, 2628967879, 1151876565, 1268107129, 3674829936, 834977846, 743987006, 3947536548, 3706529695, 4121073678, 2507605742, 1595636918, 2708047833, 2427507331, 3868216331, 3254240010, 2097683411, 3279710596, 3686819053, 1843541720, 1683793619, 3245287285, 3571828776, 3733296431, 3806747478, 1390930605, 3860422228, 114397037, 1931519825, 2770684378, 1556101783, 1436111731, 4031950081, 562876656, 1775895782, 612364620, 1313509772, 4283410242, 3252958463, 2176555836, 3933073367, 3013277102, 1444071961, 3120949516, 2824578890, 325676929, 943677134, 1800649256, 1721927060, 347498719, 1435221321, 2623572981, 1408548470, 4145586315, 2901889237, 1849377952, 1239144551, 3382598266, 2992893897, 3738297588, 611280106, 3897415338, 2370299241, 1772308583, 3697465753, 354508058, 2702360134, 591308331, 3524072501, 976616000, 2563717192, 3078266097, 1376594703, 4209795919, 2454412767, 2712206031, 2963860163, 3734324882, 2248653800, 324872786, 3789837448, 3779000146, 527733939, 2844165793, 576499681, 1618787435, 2638888650, 57511068, 2804627518, 2993670030, 481402236, 2810124845, 1416045214, 1723694191, 1214944572, 3188123783, 1139185907, 3851015362, 1719652470, 1661343029, 3644307578, 3564178709, 1256656955, 46631590, 4231317929, 3098958589, 1834956625, 2206185428, 3695688374, 3647957317, 1064098871, 1739100906, 2579568980, 27974051, 2617466775, 964075233, 907049942, 4164146575, 3377168066, 2524828266, 1083546008, 2992960953, 2260789066, 1543742095, 2843842831, 1375722284, 3574521313, 110842534, 2310998251, 3076511734, 783145600, 1287776608, 3087144146, 305559823, 2356293719, 3228441476, 1678938122, 3775814061, 1620283952, 2512027726, 1031432407, 962295099, 3877418501, 968669928, 304126693, 3711291137, 3847527101, 494066767, 4050229756, 4169448589, 671763915, 1095747781, 4006132710, 394725957, 200521654, 2715998750, 1477567673, 895171901, 3370105999, 2684157455, 4153990023, 3966076501, 2043374409, 144443759, 6764556, 1611650045, 1480956755, 1388276468, 4136518438, 1538041336, 266773992, 1623357516, 2267298390, 3183919402, 1084292424, 2796136160, 2413448816, 2850375199, 3510894040, 2644778623, 3317288284, 3697317540, 1465776787, 1843489446, 1416711171, 744701117, 1286781349, 3748640476, 861982119, 2377742909, 1171768136, 2701877439, 3839724288, 2869791015, 2386067954, 2629214347, 955801623, 3831079317]))

/-- The seeded MT19937 state array for seed 42. -/
def mtSeed42 : List Nat := [2147483648, 3564348608, 1266698288, 4212342371, 3595291661, 3180588708, 3037210256, 946923017, 2565409715, 2900535780, 924383152, 4180157270, 4230508198, 2039675917, 3755350407, 2362848650, 2818100609, 2097423432, 524478045, 540883378, 281170210, 1485176884, 1493190386, 1773214509, 380915208, 3667698522, 2648371337, 2961234806, 3857480267, 1582950522, 246289694, 3322185604, 1944574775, 302623699, 169865066, 1143540808, 3733177770, 513116636, 1411153081, 3205493053, 768926902, 549624109, 1470655403, 59539609, 3678480009, 3087139671, 1176835859, 2078491503, 2299934332, 1592059249, 1062716176, 2654193596, 3531838733, 2661260596, 3881209635, 2106865768, 4154287292, 2082185616, 2301197011, 2177349827, 3082181756, 1787663536, 3714670796, 3018262113, 1670056238, 1856738750, 99824592, 2279837081, 1414647942, 3416675731, 3458782472, 3997022236, 468762002, 2666158583, 953353270, 1788980658, 3802061067, 407586584, 1844776834, 1906917274, 3154715663, 3028370222, 4156024188, 3996363428, 80495456, 2659800972, 2005649973, 3818358673, 3952623596, 2506862371, 3282302532, 263923435, 3384662671, 3292439172, 3119957588, 1224426111, 899864150, 215262826, 1619647231, 3347694949, 3497868538, 2029552053, 2992804824, 4080010250, 2023513186, 1885979437, 3564622190, 3775424270, 2297810139, 3549449169, 2664856277, 3274801974, 2794883969, 980412666, 2980215653, 2794389321, 2816521934, 1266970739, 542306338, 3646225311, 3598997630, 2111980720, 2949252482, 2489027658, 352815024, 11610683, 1386663624, 2004196796, 1161461546, 1921293780, 2463949525, 1647009713, 3550093655, 2563894064, 3486310554, 1506105865, 243092931, 2659437476, 4200687059, 2284345122, 1974438610, 3591096528, 967119212, 3362401375, 140678365, 311602112, 2361740275, 2139598582, 3632873481, 2762232439, 4156482318, 381637792, 3253346525, 2492118775, 1502434558, 3164497290, 3550998357, 2412448305, 2223955385, 4122879535, 350121793, 1835149778, 2175117867, 989674750, 3178241202, 3553093569, 3470650311, 2829698151, 3209427769, 1779174943, 275388428, 4044574515, 715447260, 3180940440, 4020772289, 1322708567, 3189868792, 4250485633, 716970023, 2307550151, 1074996711, 1217573599, 197006094, 2178394212, 1255233746, 4164251484, 1405608772, 2808160475, 1304736088, 1796071066, 2761748078, 3570739698, 1616118556, 2232868135, 3567541936, 3470600401, 3031621994, 3351764214, 1359785149, 2617497797, 3340028190, 356162828, 2083806068, 2503635608, 4024838996, 2577080371, 2897993505, 3120733934, 905794891, 2506078507, 4211618666, 3777871979, 809751414, 4080874167, 1562977008, 3917373055, 2132779194, 4014249473, 4067327082, 2582869847, 1780081876, 1842619106, 3381761227, 921004274, 1393256920, 1883566732, 2702071861, 865327389, 1622085203, 3021825820, 2687061406, 1748902923, 689023977, 308399650, 2377287978, 1646969411, 1051806316, 4277884230, 2041056290, 101134519, 2032472116, 4112521069, 151202901, 2773743461, 551348559, 3476836808, 510935951, 625057077, 3757450756, 2977698135, 3027776859, 2616998041, 2773430005, 544190486, 2241368212, 1141105829, 1452816309, 4199229235, 3218013033, 4229475816, 1659576351, 3020348754, 1193400518, 3208584597, 1151197733, 2597187966, 503065140, 2421841572, 1437291709, 1909275895, 2872630545, 793588217, 3792934707, 1784451785, 2921385648, 1669902526, 4189978976, 1196986251, 434805516, 1907541826, 2624415034, 1687778718, 650746582, 1949153382, 4148493093, 841300520, 1164202054, 4203468658, 4106300911, 850346789, 1715730760, 3114661489, 2866524548, 1360448945, 3601318775, 1743078223, 2413855408, 1211895622, 325117146, 2721152875, 1284334485, 2446538832, 739014618, 2237045115, 842553465, 2538598293, 746460793, 4010387366, 2002655192, 4193733112, 1194380773, 3918217378, 1447487475, 5659228, 3408847694, 4190318700, 1862549564, 781683719, 1194618118, 755053413, 3436011942, 2885435303, 3081151348, 2017642831, 1053816502, 1086627485, 2157296554, 110650022, 965352898, 1003174194, 1288956241, 4057404871, 2965068465, 2897064481, 2457377317, 1879872545, 358455290, 375086701, 3015902095, 1676249984, 924455526, 2084169389, 1989014644, 1993749926, 2009424973, 2113340508, 3980883273, 2915977458, 203328382, 3020815229, 2415050113, 4103009585, 3700885489, 2916647550, 1523006503, 174302338, 2476909338, 1969322490, 4285741984, 1528449097, 3355315515, 4217241278, 599579127, 2572243673, 3035856735, 1539140489, 1782314913, 4238644287, 1746424142, 1978148312, 2380746849, 184941882, 1106717981, 1720750349, 981701307, 3953154731, 3257809181, 2892339376, 3339778166, 3676936849, 87425948, 3029257381, 2037942523, 3807628706, 2861474706, 1058852346, 1322765211, 2686046342, 2689342655, 2303436168, 2571627181, 1986057734, 1183564308, 2829677523, 1295563975, 503126586, 2025890348, 4179277821, 1735262467, 981331774, 1613447066, 1011606109, 2000062246, 3581448390, 3477731384, 3641307373, 3508544379, 2327233491, 3931944343, 4189052882, 2990416380, 422406169, 202291313, 2531006461, 4277024116, 3815144003, 821314585, 1344175168, 3562834071, 1339615445, 1831545190, 3115548822, 743512780, 4006999448, 3720181735, 1012033521, 919931041, 2628967879, 1151876565, 1268107129, 3674829936, 834977846, 743987006, 3947536548, 3706529695, 4121073678, 2507605742, 1595636918, 2708047833, 2427507331, 3868216331, 3254240010, 2097683411, 3279710596, 3686819053, 1843541720, 1683793619, 3245287285, 3571828776, 3733296431, 3806747478, 1390930605, 3860422228, 114397037, 1931519825, 2770684378, 1556101783, 1436111731, 4031950081, 562876656, 1775895782, 612364620, 1313509772, 4283410242, 3252958463, 2176555836, 3933073367, 3013277102, 1444071961, 3120949516, 2824578890, 325676929, 943677134, 1800649256, 1721927060, 347498719, 1435221321, 2623572981, 1408548470, 4145586315, 2901889237, 1849377952, 1239144551, 3382598266, 2992893897, 3738297588, 611280106, 3897415338, 2370299241, 1772308583, 3697465753, 354508058, 2702360134, 591308331, 3524072501, 976616000, 2563717192, 3078266097, 1376594703, 4209795919, 2454412767, 2712206031, 2963860163, 3734324882, 2248653800, 324872786, 3789837448, 3779000146, 527733939, 2844165793, 576499681, 1618787435, 2638888650, 57511068, 2804627518, 2993670030, 481402236, 2810124845, 1416045214, 1723694191, 1214944572, 3188123783, 1139185907, 3851015362, 1719652470, 1661343029, 3644307578, 3564178709, 1256656955, 46631590, 4231317929, 3098958589, 1834956625, 2206185428, 3695688374, 3647957317, 1064098871, 1739100906, 2579568980, 27974051, 2617466775, 964075233, 907049942, 4164146575, 3377168066, 2524828266, 1083546008, 2992960953, 2260789066, 1543742095, 2843842831, 1375722284, 3574521313, 110842534, 2310998251, 3076511734, 783145600, 1287776608, 3087144146, 305559823, 2356293719, 3228441476, 1678938122, 3775814061, 1620283952, 2512027726, 1031432407, 962295099, 3877418501, 968669928, 304126693, 3711291137, 3847527101, 494066767, 4050229756, 4169448589, 671763915, 1095747781, 4006132710, 394725957, 200521654, 2715998750, 1477567673, 895171901, 3370105999, 2684157455, 4153990023, 3966076501, 2043374409, 144443759, 6764556, 1611650045, 1480956755, 1388276468, 4136518438, 1538041336, 266773992, 1623357516, 2267298390, 3183919402, 1084292424, 2796136160, 2413448816, 2850375199, 3510894040, 2644778623, 3317288284, 3697317540, 1465776787, 1843489446, 1416711171, 744701117, 1286781349, 3748640476, 861982119, 2377742909, 1171768136, 2701877439, 3839724288, 2869791015, 2386067954, 2629214347, 955801623, 3831079317]

/-- First twisted block for seed 42 (untempered). -/
def mtB1of42 : List Nat := [2468570525, 44967195, 2667364560, 2449893699, 1652692239, 766678126, 273175325, 1513475390, 2407048223, 2326550691, 3055735416, 2487780036, 476975371, 81632736, 1598452444, 3338301038, 3898475993, 1749546629, 4084786842, 949316744, 2086501466, 4175211502, 3792229788, 1718685282, 2499662139, 4222931543, 3063257123, 910424605, 1400804300, 830603822, 3216023045, 2756927633, 3684278863, 3724968901, 332416530, 52016619, 2751489098, 1877715228, 1932382287, 3281876149, 3597828351, 330629843, 142483984, 1379430288, 83784318, 2266112133, 1736800492, 3746267091, 2610492607, 2079803227, 3463890091, 615297649, 2445958069, 138783768, 741209753, 3721915402, 2027708325, 4005341927, 2093884772, 119215273, 551524651, 3739622759, 3782730527, 404717681, 321534867, 1286801508, 1706479953, 2882329788, 1029701930, 2373551443, 3296995744, 468358352, 746091816, 4096927057, 641317208, 2423816852, 662051236, 1347945045, 744683282, 3532103569, 3323996770, 674188488, 2147579353, 4002509157, 1635774310, 2870381986, 1633495405, 3350196287, 225215418, 1170120648, 915993856, 814856433, 196876581, 2157558451, 3897838842, 3150173549, 626324766, 2067876245, 2163845165, 4042368565, 1376677108, 1262248675, 2205442378, 3993334766, 9743238, 2593325684, 2920379669, 1534455130, 3818766181, 931649853, 2158376649, 3577176492, 4105269980, 2743411340, 2855498512, 3468322221, 4289135738, 3070378031, 130878110, 2012459331, 3649976437, 1132601439, 747682378, 48846564, 660000069, 1790312343, 3727890972, 1155723235, 1514429407, 1230076367, 1013715474, 4196577359, 1320124222, 2614278628, 1297893158, 4083753327, 2352894470, 947894400, 2642100948, 1169889630, 1286436482, 3306394082, 3164045139, 1094362406, 809487105, 2843373296, 2280653556, 2080861721, 1562856334, 994764831, 4181417961, 1060980731, 2404272427, 3309777776, 1336994281, 634755732, 3631638369, 1391515368, 1418228798, 4257897983, 2054225289, 567832856, 1330177904, 2462727694, 814045371, 2591348022, 743574337, 2789138291, 2041853854, 894395601, 2564448893, 2991512555, 661658788, 4244382938, 592840949, 4198784705, 4208381264, 1027548464, 1699297713, 3507187687, 4228784501, 3944198753, 393010807, 1855658975, 2650303920, 837948699, 3219332495, 2923291683, 2860126530, 3856051376, 2249134764, 165767879, 2468337443, 1781864276, 2657744714, 35449830, 828146831, 117482919, 3433429317, 1819066727, 710883018, 3107854316, 3076257894, 928245986, 1936492070, 1083117887, 4108585320, 313911202, 235106869, 3091059945, 905889358, 259789608, 3447145250, 988142971, 2178196317, 859662840, 1908755715, 1247277970, 1481142601, 819671330, 2548134350, 1495134650, 4034870622, 2814194974, 2761218509, 2977430738, 614006212, 981226091, 413177493, 3471336991, 2131872665, 4009914404, 612529023, 378607496, 2988973248, 2418016553, 3050435072, 3405173865, 239315520, 553425169, 2806326921, 2194625577, 1297818883, 557367713, 1339678305, 625637250, 3007124173, 1403416408, 963253146, 557613038, 2995233521, 1599272606, 2877491804, 3025784937, 3444226192, 3778689225, 2511282536, 2036290414, 3663672933, 870613663, 3288722796, 1883286129, 2240711678, 1598432647, 1653428643, 1037288789, 3417332711, 632265342, 2992319607, 2229992519, 2627094451, 2902395192, 1798625598, 1888821172, 2928617356, 2806510607, 2169745473, 3263400237, 477483472, 2684152104, 2047416023, 1061764082, 3888197689, 3665203944, 3081648115, 1585188167, 979304208, 3283599107, 515443754, 3528859579, 2646985622, 1179116369, 3174096483, 3622666293, 1094110660, 982532210, 3915875056, 3442760653, 2482674618, 3543561277, 4242258297, 1883210421, 198934262, 3881993543, 3270985024, 3814018289, 3842198594, 3180274062, 349497396, 2056365044, 3662991668, 2471767104, 2872942732, 1154111690, 3142477833, 2062459812, 3422415124, 352502659, 3206123932, 769305078, 1282348479, 3011976512, 1592394005, 976424517, 3257644548, 2159244792, 3015546726, 1321951765, 1457127034, 1008018749, 1340492242, 3250697729, 1439525819, 2116389080, 3128629141, 3912463512, 2778908372, 5179345, 2764285036, 4013718511, 76636421, 2440399146, 4124147582, 1565329027, 2314846721, 2825257189, 554997050, 2676063690, 3230428478, 4066464853, 3785792675, 3491102306, 1012514472, 710423760, 1104362914, 1402276434, 870434098, 64327618, 245834932, 4099459452, 3866904251, 2240453378, 1724463324, 1330601334, 3433676187, 829295067, 3806454686, 950099493, 4293362446, 594307004, 79190971, 2311908688, 54171305, 62487414, 3504337811, 2771970015, 1836590151, 2595431378, 3416341100, 3453307109, 1174988285, 2852396363, 346848325, 2368812712, 226406421, 3941277996, 3989222844, 3009299209, 1702732764, 2598609657, 3925497101, 331397553, 388553728, 3553027581, 2831176302, 1171547784, 2429194224, 1919275555, 2943364212, 392528745, 2077320491, 416107366, 3505919650, 2641506636, 3367202201, 2496764115, 223919825, 271108961, 2545966472, 1316212361, 3137675020, 49774935, 2744430138, 3230926645, 1183214045, 1795720081, 3453588112, 891938360, 4144344690, 2777301904, 1995233055, 3359734316, 896930090, 3330969507, 3223398016, 1321717194, 4215086939, 3506673919, 100418703, 2598322782, 1873905913, 1698737593, 1965703533, 60435064, 1751428005, 1152971074, 3618663090, 3158488445, 3727477430, 657970680, 1511931134, 1717050987, 310598970, 2234372010, 1017571582, 4084110079, 2305036871, 4254307802, 2941750258, 2165051637, 1472622743, 2543351527, 1796705211, 2214600371, 686749318, 4022876929, 2100068217, 3727699398, 3217299548, 275738892, 78573358, 2500678662, 2944914056, 1277909152, 2318080503, 3799903604, 2033312710, 1430582106, 2681053359, 427226790, 4052010686, 1405513990, 283355798, 2154582023, 3237342184, 2326232545, 3053750987, 3682467274, 4258665988, 1693455081, 3276042809, 1890575484, 3321173492, 1435919955, 372744468, 2288550928, 130181578, 464432903, 2644098717, 850876397, 366381834, 1912868480, 4114884255, 2076074274, 2025154398, 3191648339, 1180631776, 1821926123, 142706752, 3139028750, 3108622860, 1876156978, 3356317510, 3260050869, 2334989316, 747109268, 4016280193, 2897996881, 2994915453, 803723030, 1933605890, 3104516246, 533383945, 701195023, 2592103620, 1356972692, 1491149426, 4160117465, 3960597945, 2567279869, 1374045353, 3117232482, 139766291, 2589485771, 1707073928, 3210823559, 537281128, 10518971, 1901873126, 2898897661, 573642982, 760245815, 3807024923, 2334167321, 1211114995, 3530176240, 1229318785, 3602144670, 1250553934, 1010089880, 2172233573, 2688964066, 3758094780, 2941802101, 1581001398, 3746782544, 2917164021, 252667418, 1150188760, 3542252877, 1389159379, 1906599979, 3288259755, 778740684, 358910446, 26153786, 443928973, 1407665083, 298990169, 3405562703, 504530202, 3362938768, 1086122129, 3588952012, 177358838, 1668686040, 1788441005, 2920778456, 3450590302, 1707705043, 3940504028, 1650147200, 2144853533, 429939140, 2060161875, 226622212, 1271791848, 3603087696, 48155551, 966813043, 984177119, 3033759521, 3492815891, 2391190442, 3575857178, 3965974952, 459455113, 59851712, 416034666, 1727702234, 3862955095, 2038677741, 405912737, 3651584525, 1433865433, 4162114042, 319642522, 120211088, 3610217925, 1667950605, 284010502, 2536690859, 1757606927, 98163371, 1298766898, 2843598018, 2749694903, 3031345259, 2633279512, 2812045979, 34084905, 2989448216, 3311204930, 763257776, 747261640, 127287928, 326017657, 2610204813, 3746483709, 1345625337, 76875111, 1840566970, 4008707741, 1079217633]

/-- Second twisted block for seed 42 (untempered). -/
def mtB2of42 : List Nat := [2855956593, 2685291548, 3345876759, 2476269427, 236192081, 1104449523, 2959661011, 1443336009, 1217332317, 1447679981, 1510771203, 1090512338, 1276969081, 2493916770, 562738784, 1320360969, 767511720, 2134514320, 927086037, 4093062333, 155694031, 2248262844, 3602039969, 3852111709, 747873240, 4147408356, 77841010, 3919474534, 1443286237, 2112741510, 438474856, 4046988663, 1825878883, 643410928, 4257531795, 1730835272, 1953496822, 3371889501, 4236180423, 629250578, 1821410507, 3658734526, 237756976, 1482753473, 4242128630, 1631707468, 864075932, 3898745470, 396198285, 928497869, 919436349, 1052382967, 3308177145, 3638049540, 3111354594, 2389775542, 710343455, 1451877428, 1967980938, 4098556723, 1749783466, 1450662156, 3311927787, 2486387256, 3008679988, 72616703, 1506621182, 3566934370, 2110365442, 460584726, 414300466, 2314312251, 3127334097, 2727877138, 1543123020, 1129883204, 826860018, 3603206241, 988545782, 3574898682, 2406112174, 1692277815, 2326796932, 3019605386, 1696899757, 743649693, 4014550675, 1350688969, 2864172020, 479073098, 2599338912, 21955280, 2884844139, 1643949431, 3069007081, 2817416208, 3742790967, 3787522967, 1598870422, 794309786, 3490636613, 154908901, 3424354041, 4177758159, 1654285064, 101539091, 2951387928, 602633065, 3998001109, 1983396154, 3324009607, 3369758995, 2116372048, 643417482, 1197386399, 1612269876, 3947033543, 3647396235, 4061178602, 3979251351, 255851049, 4200181916, 2557558671, 3678769876, 362774134, 659367709, 1629597157, 3516234936, 46222271, 1043352417, 2763614531, 369883257, 2703291919, 1151286133, 2381074015, 2767568408, 3609152857, 1183679641, 2964830815, 1863537088, 4097676655, 2378891064, 1554640139, 7270970, 3036373658, 2617768134, 1213419942, 1890553713, 1543412096, 141917406, 3382277432, 3659655314, 2978079989, 2887526392, 1666098529, 1993170884, 1192413368, 1059107825, 2791476506, 4265942934, 1124825911, 913721825, 3281640520, 3747125656, 3309843723, 2409455086, 1610404010, 1984453689, 3772326511, 4294766668, 1849186290, 2652101132, 1538756798, 578610553, 3329335359, 45922485, 1195363164, 3513237332, 3154967592, 2898370701, 977381567, 3495957627, 2548389955, 878014215, 1965213043, 1456019979, 1083238756, 2149468347, 2659758064, 1483027423, 3731441276, 2286646308, 333459312, 3916759026, 948811038, 2576830009, 1127096321, 3928834212, 388628886, 102940927, 464866662, 2357359094, 952310908, 693889813, 780004587, 1387327675, 1283664250, 3546322423, 745244265, 4179255440, 3004211711, 3125741961, 1676031225, 2615867736, 3954305252, 1689709596, 139827833, 2577843891, 536599273, 413014686, 4145702992, 3882963794, 65668726, 3487029598, 890186963, 3166468223, 3294958603, 1063422948, 510840780, 569266692, 2753161057, 3311241265, 1251738679, 2843531699, 2266971906, 308804957, 2855931142, 489512739, 3381205381, 3333891042, 1288256681, 3727660094, 3341274118, 2472219463, 1839145297, 3084127340, 2586057489, 368228866, 2527066955, 1459201286, 2318660626, 961685238, 873477391, 1644600890, 771037, 483482729, 21121329, 2919609221, 834852071, 1322665429, 3346091543, 4278420076, 2441204052, 3693209336, 1327210792, 1085171435, 2002147117, 3971326511, 23991618, 3647500598, 236880221, 2302923369, 1493921430, 617042778, 583624870, 3460098418, 3474896004, 2029491413, 826565219, 555941197, 3346835197, 328968225, 3813301698, 3901313081, 2696893000, 1751285250, 1285057645, 655824319, 3864323598, 2341135392, 1847067471, 885264346, 4138367546, 961957916, 3386063195, 1232756346, 3839978031, 1363997935, 2036470010, 1560426674, 1133472663, 1578602295, 3923858488, 1345536850, 1046906566, 1215145175, 2345865021, 3305123764, 1503055309, 2811916830, 4199650218, 817525483, 1312169464, 1810278984, 771141915, 2403942270, 3473392212, 2237795182, 1470256683, 348913771, 2017403863, 1083237564, 603941869, 4261654069, 2711140715, 110237733, 3509925199, 4217511032, 2386139812, 3957873168, 1089203216, 2440324618, 958372223, 736075789, 1467140389, 3164456127, 2937522701, 3561066161, 642579515, 2774877709, 786628895, 1035343136, 2545384106, 1991680536, 341666086, 2728058999, 3807260786, 1870253238, 442608233, 1907015937, 3008327141, 1270063394, 845233525, 1103639348, 4167039377, 456239398, 1071287424, 2750085913, 740793543, 1259758989, 106591988, 4270379569, 2203193507, 1749230411, 2268213419, 2177321872, 2857061901, 3419297000, 3699166438, 3355275273, 76055698, 1819187473, 2648393085, 4180940976, 3141225537, 3024763772, 86830391, 2890524686, 633601087, 1267541716, 538352002, 2953849756, 1884669072, 2560958573, 173351783, 3498170308, 1055035085, 833989337, 2718902338, 778847761, 263222687, 3470547723, 1064738767, 194836893, 346189693, 3904660887, 533113218, 2038448584, 1286187879, 4283929332, 773472458, 3993873262, 1275437075, 3127823695, 34063330, 1671959455, 1037923810, 832669307, 777077728, 2322061253, 3961921395, 1692963438, 2945165646, 3134942549, 747813292, 3093587640, 49397955, 3857420613, 3666761196, 4053726240, 3444851428, 1647754635, 601536823, 591311681, 2370741825, 3015458532, 4155227231, 3225673726, 2179846361, 3591596255, 2196966678, 2380299394, 1400759687, 3787050103, 4047301974, 129217328, 1043565297, 3691431076, 3923043189, 1323903622, 835602098, 3807397497, 1713376201, 1443294726, 957955859, 3259065109, 1717031027, 2695998889, 1056959479, 4043411170, 1561547506, 3649853905, 666159097, 2417127240, 2442012347, 4193009839, 251020519, 4227590991, 2372546743, 1221292960, 2751099824, 3504133702, 1953648909, 908538146, 1813227929, 3037849702, 3960822351, 3660012577, 2459234157, 4293242713, 4206373828, 1710158874, 787125424, 4200525541, 3383342125, 1419054833, 994532323, 4107861776, 3525484381, 2361048268, 441543684, 586238247, 4010991519, 173644219, 2855399821, 1914953730, 3658064521, 1354047878, 1062246725, 2607453393, 3844334008, 3971023544, 1030837882, 1259136130, 1789086425, 1648464946, 1982656668, 173950333, 2496606702, 95389584, 1395565123, 114279173, 907833207, 2324183686, 783575327, 2684165116, 4000824250, 120943132, 1147683754, 3672794051, 4094477426, 1985120019, 3851386714, 1104691727, 1332212981, 3391387447, 695826835, 2165851468, 3780015483, 122808497, 632342701, 351394957, 3713981376, 2520685291, 3623151603, 694235598, 3294283952, 2065778788, 3514559126, 3103381579, 3751003286, 2518384020, 2499107972, 1992535323, 3962909900, 2755430482, 2361416913, 2668981133, 782249255, 3615653525, 1002799289, 1107905989, 1106093211, 2686048015, 2865472966, 2556090126, 1397470054, 1517821371, 4027148997, 3549539035, 1608067839, 426731489, 1369917891, 3683086776, 4221933029, 436978365, 1527991058, 3507110371, 755152754, 1981209586, 266768325, 2921598386, 2523415385, 3932039670, 3858407133, 2315842610, 2993587041, 1211558704, 3596248214, 2732118596, 127614424, 2998810359, 2924137621, 1183009028, 1773744436, 1065789981, 1523294633, 1797830901, 3463127876, 3057459525, 3265870971, 156195655, 1551039731, 1430989965, 3587901389, 4171133276, 1256113261, 171729217, 3455418460, 695902807, 2374661090, 304242212, 874289737, 1509456062, 4156832789, 2516214059, 3295171393, 3055022767, 2228444616, 2511180158, 1806025274, 1448248985, 799958774, 597173038, 3103196783, 3979988283, 2295513662, 1852624270, 2060889614, 2824435803, 2175962721, 1761304134, 2252269084, 682076585, 847154149, 850446753, 3132014216, 4179600318, 1070507432, 2754915747, 1028034752, 3134381292, 295506872, 2480087397]

/-- Tempered output words 0..623 for seed 42. -/
def mtT1of42 : List Nat := [2746317213, 478163327, 107420369, 3184935163, 1181241943, 1051802512, 958682846, 599310825, 3163119785, 440213415, 2906402157, 3181143731, 3831882064, 2342331444, 373399426, 2536146025, 1812140441, 136505587, 127978094, 402418010, 939042955, 999270936, 2170484433, 2585650756, 113971123, 2410529190, 854001193, 3075280817, 2791232393, 3012167820, 2340505846, 1801823908, 946785248, 1929338154, 2530876844, 1194819984, 3476477323, 3733616459, 27911967, 3259052811, 3460967357, 685731524, 2998485882, 1815115025, 1461364854, 1193448329, 667779376, 924765563, 4111198819, 3279182318, 1445662585, 438989805, 398340369, 1631775357, 415393687, 1541804686, 3639960595, 1477278577, 2592983555, 1136108454, 3466589567, 186618211, 3134174160, 1973214822, 2303082117, 536124280, 4179500364, 3961228449, 1625792787, 338444264, 2370996465, 1259191105, 3562265906, 2699987374, 2656522106, 3802986287, 3701002945, 1553210608, 2479708607, 825873196, 3026113008, 298737106, 196814233, 2840104345, 978815630, 3320303242, 1242911821, 4231494220, 342703921, 3673561638, 999829240, 3721519026, 433797840, 1632629719, 1193887545, 1947382419, 2730243887, 3582477022, 1566942273, 698594025, 1589915144, 1525876051, 899825838, 2878380452, 1146660997, 3014295294, 4022900809, 2935814872, 2783290795, 306671447, 2616197747, 2727210979, 735034881, 2294113287, 3131575764, 1051454923, 701808367, 1985392498, 1629748727, 1159417075, 4249970406, 3974524834, 2748778024, 2955633092, 2392080953, 943239974, 2940395823, 1392783743, 3620021413, 3299881676, 3332894265, 240251661, 983753977, 3529615275, 137869475, 3457645390, 1354860540, 1722989659, 1149938334, 284277889, 906164396, 3921889760, 4049766372, 2436019774, 3763970286, 3083418319, 1351531223, 913224047, 2815087637, 2144181937, 1699226064, 3799685197, 3927951973, 2761027762, 1970753705, 613628803, 1137651678, 599707677, 1059257080, 3199703321, 2411057787, 2314889832, 1128466620, 3208399878, 2510777721, 1840109255, 3856119925, 2506254832, 1715412119, 1554762903, 941975480, 4283481572, 4284391408, 594130308, 2188398760, 2119634399, 390452952, 3246059658, 202363285, 3698408854, 470939445, 656448479, 2694860228, 687117441, 3401954956, 2922644564, 1813163240, 2561557300, 272849424, 1652563013, 1639042338, 2559321289, 4278308761, 2010258946, 2272528809, 1079815404, 4170749881, 2376087131, 3697020653, 4047709743, 49310608, 2921794983, 3095476665, 491995979, 2927923735, 3800137469, 2306270004, 3224995600, 1146005448, 3301106403, 2752909971, 1461042543, 479112937, 1260573448, 1867302554, 679282378, 1948728483, 13938521, 4096608204, 3101361778, 3761759725, 3091004939, 1131247330, 4174227595, 2150000991, 3272602734, 767303988, 2180476188, 3919706735, 457031004, 3738848790, 2685643886, 1281810600, 3614942327, 2744267175, 2180395476, 2615507143, 854316681, 656439677, 1605947756, 3274958945, 693847829, 2316615266, 4095250239, 3344175247, 3961824197, 2277851678, 3944899549, 2456273, 2572447412, 1392239675, 2098545541, 83651970, 480468219, 3990448177, 1558990517, 3774081712, 4231923083, 3571976249, 3465071405, 1320763135, 1028439863, 248786714, 1034535593, 3771022520, 2436779490, 4067116918, 338258951, 367878761, 3143519183, 2087313121, 3504793184, 297265480, 4200411392, 3266761413, 2287955558, 3289233844, 540137296, 551437149, 2833608204, 2041322270, 4066684108, 2361388464, 709214891, 1138409539, 2266341635, 3747071386, 2605301030, 1817363615, 4141907136, 909666337, 3989653086, 2316259067, 3243839315, 3135030058, 2962958940, 863937247, 3062092518, 1338811290, 1713658874, 4274133950, 2884873529, 2791205006, 1603828849, 1881625505, 3863813067, 2222971316, 1939118223, 519709079, 1064746525, 965067727, 274989148, 1452066459, 90341465, 2526766690, 2379074819, 988335251, 2527331058, 945826486, 30884438, 304912982, 3040153710, 2710566582, 252860896, 983297492, 289482182, 3888749350, 134917627, 3692105921, 1419179580, 304330003, 2208283728, 1022222125, 1196050747, 2873237671, 2084839399, 920140090, 2315992115, 568275055, 3106775595, 4018003062, 3789806435, 2452611418, 2474810179, 2030106617, 1043665192, 3369914783, 2031403296, 3468173213, 1748309234, 817804383, 405126228, 416314667, 2830309370, 1851350739, 1521696479, 1819256337, 1765670844, 2005855667, 3710150572, 3131356954, 232663462, 2892078691, 2806569935, 4226957392, 2775320897, 422701550, 260329455, 1729245242, 3127653547, 1457293575, 3438518641, 3700855390, 469306919, 1067970820, 822873088, 816941039, 2303329764, 1926780541, 602078388, 1811967841, 788075126, 1196342297, 1986972437, 1072910527, 3755888575, 3965395580, 323775634, 1903232052, 3470429115, 3699466215, 3676349806, 2363629219, 420514789, 217275224, 2800940984, 4291885525, 2321807489, 3590711152, 63384488, 4161807235, 400560567, 3978715881, 3236539184, 3645120421, 1015242176, 714300770, 1745535098, 2085812759, 2067418686, 918037633, 3713645169, 1722454917, 3875962612, 251837136, 707111048, 1627677155, 9257255, 4231869256, 1676848676, 1139038460, 3979364815, 3367557574, 3372104909, 1954246074, 1225136114, 1816803306, 2991837720, 4111647939, 3137496438, 4275307901, 3364512142, 2387006772, 2842715617, 3085540042, 2090237817, 664847319, 815605132, 1274350418, 935018220, 4160575046, 251183830, 2487560384, 3159967109, 2328710672, 261810763, 3212530587, 1346922426, 245522987, 215359682, 2509023674, 2047791082, 2159725924, 3948737639, 3662404042, 2281169403, 676168421, 244295904, 4126513954, 2181106786, 344076115, 3656488400, 798112150, 294296873, 2555656321, 291889680, 2900015820, 3701485292, 1010193046, 1734202799, 514909066, 4044124555, 3823754905, 2446737272, 1057486868, 2486438403, 2553440342, 170689150, 2660223333, 352116052, 1800557283, 2823396242, 2506853388, 2427631155, 2245334677, 1358798143, 4014532821, 1119980130, 877286584, 2876451163, 3076020365, 1349409434, 1025148381, 1140805649, 1699887270, 562117925, 2884887548, 2772404776, 1288477634, 1963764597, 1357970698, 3990103355, 3229233394, 4018948187, 311570307, 40009587, 1968321319, 2667858669, 4288329154, 2418039268, 4278201677, 429416213, 314652384, 2309122187, 915490795, 2172758220, 1139027119, 568896616, 4008318526, 1498981529, 3783282817, 295456419, 3776436931, 1049193572, 1587106770, 1224011538, 677517496, 1881988384, 3580907314, 2333103372, 3021680963, 1299301222, 2627135980, 4225617788, 4240133721, 3466467857, 2808806886, 2271782991, 33599984, 2868450609, 3509435546, 2381998678, 1285821930, 4001861726, 2849232839, 444900634, 4032673646, 3771526597, 576775951, 1135872495, 495762348, 3821286999, 459716009, 3188655387, 2376077463, 667643690, 1169726681, 1210133979, 2597724331, 904647469, 3082120871, 1472659626, 874443787, 2952777682, 2724031273, 3663232650, 1133802214, 2170715377, 2098228320, 1078557553, 3888390599, 3900513400, 3633987776, 218179599, 396418889, 2724230947, 1819244083, 3562022940, 1188332531, 189351213, 15228622, 1432614422, 3311931853, 561866144, 2736381108, 4208200162, 1125089309, 693989311, 3183562527, 1897669065, 2369449369, 3030818620, 1836901321, 2409076656, 41531046, 480494664, 323169889, 4058962851, 3792913072, 2967906665, 3882343658, 640183291, 2343292475, 154739678, 3584558315, 1585770584, 2501859536, 2373077218, 636057975, 1845919895, 547374338, 179653598, 1323959527, 1566166314, 3861096073, 4007582471, 3419319262, 4175551143, 3696689457, 171347175, 3860851904, 1536778950, 902271852, 2929454134]

/-- Tempered output words 624..1247 for seed 42. -/
def mtT2of42 : List Nat := [1071722055, 2864457210, 441495235, 1519038154, 3350573756, 2404681399, 3797329628, 3756862531, 1745377599, 4182598148, 2665720874, 3218981849, 663801533, 3976125337, 3993808565, 1016779084, 3713453204, 697939765, 4192772969, 3435488617, 3482238042, 760434128, 3785653776, 1770791023, 106456634, 770348179, 3163520297, 3970642689, 1426725702, 3360324392, 3997823785, 1768294570, 3445573666, 2877229210, 3711126727, 3157048077, 3482141802, 1065870178, 1145921803, 683749521, 3381747775, 3011966884, 464267175, 1643004186, 3745927824, 166320906, 3687629943, 2021598245, 955345537, 857158768, 3507212752, 3944720882, 1976987348, 1501771491, 1310784794, 3524176919, 3415982886, 3742303947, 977515194, 957449367, 101637979, 2834820954, 829486135, 1711398352, 1409874348, 1196591018, 3712367625, 298159856, 4152757072, 3321412630, 1198832728, 1508161137, 2755143093, 2187880715, 1716605598, 2918508077, 4214005797, 3623497101, 2303029031, 1422277848, 4033992825, 118543408, 495389030, 3766851291, 4167838882, 1121910732, 766942939, 2493613917, 4134053399, 4224317562, 1140169349, 164313410, 465585404, 2562254028, 1866437132, 1484714820, 3129077209, 3377683299, 1347233823, 1874297457, 2603647189, 4227260783, 2196545325, 496694873, 1654401763, 3863343401, 2476426797, 816382125, 1094024844, 190638698, 3044209616, 1872852789, 7263971, 2233040884, 3975315062, 3463937792, 2312633708, 2950028965, 3089928308, 4038399339, 3186651306, 3165552769, 2880327491, 846259450, 1564319318, 1852408227, 300535210, 4075384877, 2852879124, 3954680709, 1418198351, 2676432103, 1348257414, 2849227494, 3642197907, 535261654, 3091320992, 3865671731, 1289874320, 2178074590, 1328367510, 2864283209, 1754034197, 1400944900, 1728296502, 2994487334, 1269829408, 2381183483, 546696950, 823946934, 1805803262, 2855850145, 4038831207, 1628416575, 2909058412, 3213213454, 3877520294, 747441732, 2643616431, 2444288473, 1292569882, 1744079573, 2353372386, 3580822352, 1743499, 1305132983, 1232285036, 902727745, 1846355528, 3374808475, 2491015654, 2605591588, 2811939242, 1384049914, 1997109065, 1897456484, 1899061865, 2901796894, 917840538, 2195475598, 2032319170, 3409067573, 3870542148, 4122447047, 3418900313, 3160930353, 728818981, 2829742424, 364194056, 1218853328, 2213849513, 2851230518, 2718460279, 2659704908, 1439622619, 401094954, 3515101988, 4088807393, 3226113732, 1008752943, 2889635392, 1333241445, 964824319, 3464161270, 855256552, 632880459, 104906255, 198486416, 1051590706, 4225973028, 2040695043, 2625401719, 3649595613, 3300636585, 312794864, 1955997540, 1780010572, 3805929053, 2704821724, 2472487690, 835092972, 3085272193, 2990818727, 1649174966, 2123333781, 1716495971, 1047905204, 633814084, 2817747689, 2953315788, 23814791, 3833944737, 3225367864, 3695564089, 3307323181, 3803044105, 457788949, 3343290201, 1825989011, 939915527, 755427535, 3453625530, 4114432816, 2988918316, 2224611603, 1995226582, 215686308, 2394039673, 1070298438, 3940503685, 3643576871, 521231222, 1960488639, 572687073, 3442058095, 1995627518, 2867224513, 2281194061, 4242965764, 2400565848, 2557448229, 1362784338, 4080389027, 3243774098, 3828645201, 1900838388, 2631321682, 3500426290, 3089258120, 3831197998, 2168005699, 1832837596, 3567267411, 3894911417, 2353092123, 1915184358, 3853479481, 683577992, 3193975799, 3700092464, 2038711176, 1933034905, 1113219231, 3228856718, 1061886576, 3607183629, 2738735023, 1191043170, 3289144721, 3340087993, 2238965651, 2081328344, 2691864041, 1027553177, 1179387055, 1889238423, 332788471, 3064651867, 1227193073, 1007142260, 1167007513, 1442454200, 1373142116, 3835521053, 2319936135, 346078411, 594312071, 647812758, 993260504, 1645124051, 2980491761, 656293602, 3034047118, 918920620, 275860817, 1781844052, 1750625978, 1421124738, 2330497115, 2001129658, 1785736751, 267429212, 888346940, 3577240334, 1804502687, 1672790155, 3886251649, 3306247679, 2508601974, 4063305495, 2987248494, 83889094, 3679636056, 3782391589, 3288203651, 2472571231, 1633724084, 2048612358, 25323460, 4049044592, 1510792572, 1282531582, 3236151037, 1674979897, 3665531029, 3829571259, 4094952113, 3589427315, 1799682701, 2311639723, 3210555359, 3155229266, 2345620385, 3435407619, 2590950133, 3856070374, 947206476, 2096929657, 942408767, 1172248246, 1871901278, 2085816511, 124660666, 1670128972, 1443665390, 2872790327, 2916892179, 3427995190, 1736526879, 3110335359, 708861714, 3609944328, 2007425404, 3949401194, 548157187, 4212168831, 2672573305, 2294043548, 115820025, 3895229819, 1692304102, 2542160120, 2424045110, 2847562279, 116402431, 360551585, 2760588734, 1840877826, 582824840, 3723098211, 1982979741, 780520225, 215970859, 1117362852, 1628238707, 1405969000, 909074012, 1952918745, 1403792057, 1449553823, 3269456693, 3778024983, 1628334692, 1195103064, 3229857594, 4085390589, 3573087602, 1810607153, 1083497965, 3585915088, 351784589, 2019952485, 83250566, 3217034696, 2316787198, 223705953, 4294571397, 4088463963, 1503068227, 963026855, 2792347639, 294713656, 3355370399, 4111510355, 2799264931, 172907376, 3239406957, 133272825, 4078551333, 1062073697, 856247605, 3604460472, 87531510, 2668616333, 654477195, 1024542722, 542114964, 2033929266, 2875303857, 491298929, 2422230882, 4070585433, 936150587, 1997305752, 3004179184, 1100558303, 3293802269, 1584392711, 720648887, 2602289301, 2608108101, 4139209207, 3212316223, 3085320828, 491914923, 3340590688, 3518871744, 703368777, 4143444172, 1335901990, 464280597, 2485432021, 110287971, 3989540022, 1339846171, 2473028098, 2909184445, 3899942615, 4115320994, 1611931113, 1703617827, 4043585413, 3070964768, 851819913, 326402374, 2543040948, 2966166331, 3567277991, 2693985578, 1043030161, 437662764, 2994421136, 3317780148, 1295287749, 3651981656, 2938870196, 2578748240, 3459716271, 519927529, 3419769846, 4225579315, 2430661792, 3361393222, 176390590, 1491228808, 2288123416, 1839869544, 2841212515, 1591589823, 296166921, 2173085046, 2781177100, 1465576748, 54340558, 3648899533, 1804138557, 3531884396, 2105400301, 453285987, 1861968817, 4126551191, 1555585773, 2729817240, 3829285512, 3559270786, 1974565461, 3037867512, 657091982, 1870403050, 756502473, 3151626818, 2240885202, 4146678097, 2793693337, 1159995046, 2645323395, 3471189200, 3949727766, 2311435034, 3327059683, 2076605983, 1996617659, 1870778191, 3546503094, 3139733667, 2544659112, 1152750071, 1384287616, 3658080160, 1054393708, 3567962531, 4014170428, 372214308, 1197987692, 3786577118, 1936179853, 1047385483, 3223271103, 1995907669, 2447485590, 2621354709, 2869847630, 1627746667, 1444812497, 123265537, 2123030247, 3654814605, 1395925222, 780996231, 2094011037, 911047815, 1523961606, 3426663902, 1109615163, 1461744198, 1201124041, 3780945510, 2560466250, 3011561274, 3780032269, 1186564497, 2387104291, 43598698, 2218897149, 4071897791, 820581106, 367704871, 1036616336, 3092697141, 1745595491, 2098425880, 2384463652, 3256292393, 1032183433, 2966144543, 2044804330, 2774131811, 3057339843, 2108061573, 1924895021, 3405620755, 74059253, 399661102, 1263732197, 951749308, 1736889606, 2971203213, 1044987715, 1315144891, 2851686578, 2497762234, 1584930775, 2032638323, 2377148230, 2280292341, 1476426754, 1827524957, 4280499551, 3203768294, 2363900493, 1420737819, 1511014697, 3018739003, 1948821078, 1163577186, 1316935719, 1079770569, 990153355, 518213060, 3097892639, 827143233, 1355268102, 513483708, 3190649866]

/-- Zipper state after 312 steps of `init_by_array` pass one, seed 99. -/
def mtZ1A99 : Nat × List Nat × List Nat := (313, ([2930412668, 783178295, 2187163478, 292325614, 2132104684, 1182017166, 1027130820, 2253039763, 1231266097, 1219938397, 334317759, 3237713023, 3953963130, 1337266294, 3861653033, 391527666, 2536708945, 3802560514, 2445974983, 3914620232, 643199769, 3206552143, 2163331837, 1747220655, 1315678183, 1166942732, 3235990569, 1125046630, 2713836344, 1691602580, 2405896293, 1730890689, 1890859634, 3017131891, 2618302023, 3233232487, 997966963, 3768606224, 1294421532, 3768341357, 18456287, 3316213677, 109387202, 1203172977, 2440843911, 1859074989, 2185986220, 2386322508, 2231948191, 3444518359, 2835098273, 965542725, 3080837302, 2393920953, 341370828, 4196872793, 3553364915, 218386362, 2719618660, 914283263, 1576999078, 1868661345, 1881646786, 890547074, 3755684537, 2270011709, 3018105970, 3348501406, 3241403297, 2613803304, 2005078858, 3714833765, 2650849781, 744081490, 1870086552, 2627369871, 3248333406, 1265892283, 619992330, 1707041090, 4027947532, 2410505870, 2045768555, 4069117433, 420494431, 689172305, 2818182188, 977647192, 1809759269, 4101500169, 1209130914, 3935712192, 2857483364, 2413227539, 986321599, 4161736359, 2197101783, 3540507361, 2482750082, 2461814753, 2930979068, 3497444623, 3187347384, 2924444512, 410734787, 1766645394, 3094985259, 2956795419, 1056183767, 750176797, 2479050929, 2100671634, 426344358, 4232779195, 3578372927, 3061619884, 1697817399, 1341851661, 3373990805, 3707335903, 595822677, 3518644165, 611999526, 4294082865, 2656112679, 338509889, 770256297, 1457996072, 1349415204, 1341742912, 911622333, 2506813842, 1281677705, 3108019134, 3983197815, 4250228401, 3086832829, 671205593, 2919201809, 1139868824, 3687877064, 964078556, 3209633511, 2349347556, 681674437, 1056071501, 3748047621, 344964551, 280657338, 2664516202, 2743620282, 3893288964, 697441861, 4082765564, 1003174804, 3295984042, 1107599788, 2279779819, 3434462452, 2965068858, 677074281, 744485695, 1348330655, 3407159390, 4208373982, 1512099038, 3980707634, 3466920926, 3341391202, 3979860376, 1417971071, 253754002, 1758935669, 2469201675, 3056664684, 4015669490, 924878689, 2123132230, 1987207129, 1320390388, 3137964788, 2965831479, 2084410147, 398202246, 4218867765, 3013277683, 1156587220, 3198627663, 1476301037, 741382422, 3306843697, 3510362510, 2815238466, 362194862, 4095403975, 1366464448, 2135967820, 2156800101, 761881758, 2943631766, 268850727, 3730097797, 339003189, 2517407201, 1284134207, 3456165273, 765282044, 3750427556, 1857359427, 4175789393, 3753336426, 1287587854, 2400805726, 2410452423, 510391842, 2638604520, 1833910140, 3884012826, 3313613348, 3015997776, 1606867394, 3940167245, 1423765486, 1383094615, 4207395025, 2136183421, 3502709700, 280866954, 3911321317, 3304492221, 2431677418, 3767382317, 1930227334, 2013713070, 289015256, 1246904299, 3376368277, 121825214, 552747952, 403979297, 693794863, 460264562, 943315021, 1022190855, 3767257230, 2878886471, 1596837996, 1051691400, 3662332330, 2795553755, 250743072, 2083350659, 270164403, 1606638948, 1245387355, 99790917, 708417402, 150698326, 518347457, 1016023033, 3111006353, 1807505233, 2742331742, 3693367803, 281075363, 4274953639, 2969849943, 3202069701, 794347388, 2572099788, 3581496357, 4147374434, 1669290394, 32980699, 2623445472, 1728389579, 4268545730, 3304517333, 1948024595, 1427247780, 588836288, 2043693485, 1156271093, 849893296, 1378901145, 1799437703, 1706759158, 1006335657, 2098205030, 1970565861, 1119185182, 3065618229, 2963209992, 2855374431, 2951298924, 3432980739, 3530137454, 2563135864, 3310076972, 4098741270, 4192891385, 1683014449, 3461028946, 2941168417, 3056487845, 2107005565, 1472348072, 3934072866, 321516259, 1785183570, 2753117183, 4287171092, 19650218], [569716755, 4042990521, 3947471773, 1575951506, 3517313596, 3100986137, 2199197158, 3376719924, 4087139828, 3705107125, 1482533137, 1541227668, 1678953742, 2056318769, 3045003063, 1622629937, 487578169, 4137196231, 3764647071, 2241527512, 2558474063, 1038354351, 2094837850, 2481932343, 3229539130, 3756851151, 1006180559, 4181103103, 3565909441, 2371373280, 1493415041, 160348120, 1285104017, 3595587370, 4264242568, 1161124915, 2042766103, 737713932, 3481808155, 478389208, 1300643225, 1007986266, 1168231653, 3652705112, 2909421388, 3924670764, 1731016690, 4084014919, 4205099837, 1373900512, 2937538864, 2730075174, 957417377, 3258199283, 87174175, 792789163, 2527971304, 2716998340, 3091367825, 97659251, 1782441684, 919015551, 735476370, 87326482, 926205331, 1888657273, 3715638227, 1715499660, 1922410526, 4175228089, 1525608673, 3578587616, 2042086160, 3730509879, 3607443975, 3879209240, 3652717612, 2372597521, 3471943430, 2765853569, 3643232056, 3297105617, 2692883557, 1805942063, 1394934451, 3337180104, 1181922214, 2331394419, 306465830, 3736887952, 1729663122, 3390355091, 2379159653, 3851731257, 4021176185, 1079541434, 433656928, 1831627642, 2892512290, 4063025724, 406246264, 1293199350, 1120564498, 3926678815, 1350089133, 4273098366, 3385122292, 993379095, 725502136, 25504318, 752278045, 3729298457, 2392480235, 2657233815, 320925812, 2950230896, 989728679, 506301841, 1404204260, 1413065993, 865242585, 866785615, 1859142878, 589268143, 775553472, 1410495094, 1607063978, 3888932143, 704411669, 3513884419, 3370826939, 2896358996, 439226283, 2352722741, 1626809714, 246502175, 189424636, 1337937966, 3719088974, 4178799653, 2794717891, 1831166187, 1862432793, 2263235392, 3847861459, 802662362, 3621709005, 2634319122, 3245216029, 1466421412, 1528864744, 349292989, 3152395874, 3374677426, 2279952808, 1238578150, 107682552, 913857966, 3747681661, 3560958606, 3617063034, 1988620951, 1854864649, 1862999556, 2962654934, 1498851202, 2003448718, 2942754891, 798789550, 3882536840, 3338815162, 3066948065, 2057094004, 4171611151, 4284063395, 2325690120, 2659914459, 165909127, 2783186990, 2161504072, 343671839, 2751150377, 3621950182, 222528329, 3219381950, 238911006, 2710753737, 2982111755, 1115859074, 156211365, 228231184, 2302165064, 933165355, 4181545713, 2201173365, 291303663, 19134280, 3581811046, 68817880, 1037069880, 2445243929, 2507869609, 1468655994, 2646143627, 2709652242, 559859542, 2657856757, 248278651, 656698256, 2682159578, 3542996035, 2775252812, 1761180115, 3646714856, 2330951878, 834843492, 3951905925, 744286448, 3621804227, 2822882772, 1168938371, 3349647456, 672527398, 1163635478, 3445281068, 722448549, 3543924788, 2823456463, 1931863550, 2483173049, 4148604134, 3081487737, 2916138664, 940193076, 4142650279, 2563327448, 3737140007, 2407111514, 243557343, 1657192483, 3995730323, 1012445178, 2365602253, 2830079959, 2287658550, 2893719730, 2373631903, 4215513121, 189686171, 2003138393, 3410898923, 1020530876, 1103312993, 1976606742, 899447370, 1949555562, 3167671920, 595304244, 1919198655, 2929333298, 619161901, 623498751, 2063591130, 763251111, 4291719204, 3951567013, 2998385089, 758818611, 1375945828, 2510752543, 4188334520, 121785359, 3225750324, 1354685949, 1643999927, 911976986, 518523023, 3993561529, 2326708913, 336174575, 853096604, 2873283550, 4022490143, 3010604384, 2080594943, 1702902668, 3360749048, 4184957279, 2421794725, 4155016765, 3104188113, 1576615579, 604774175, 2739462297, 4096823942, 1932918233, 1779286169, 2544260698, 1430072091, 2196303270, 4237199385, 2613550760, 1481676153, 2920297152, 2463881971, 1098865791, 2939219489, 2494804283, 3108728554, 1635052534, 2905164258]))

/-- Zipper state after all 624 steps of pass one, seed 99. -/
def mtZ1B99 : Nat × List Nat × List Nat := (2, ([197052632, 1822026916], [2753117183, 1785183570, 321516259, 3934072866, 1472348072, 2107005565, 3056487845, 2941168417, 3461028946, 1683014449, 4192891385, 4098741270, 3310076972, 2563135864, 3530137454, 3432980739, 2951298924, 2855374431, 2963209992, 3065618229, 1119185182, 1970565861, 2098205030, 1006335657, 1706759158, 1799437703, 1378901145, 849893296, 1156271093, 2043693485, 588836288, 1427247780, 1948024595, 3304517333, 4268545730, 1728389579, 2623445472, 32980699, 1669290394, 4147374434, 3581496357, 2572099788, 794347388, 3202069701, 2969849943, 4274953639, 281075363, 3693367803, 2742331742, 1807505233, 3111006353, 1016023033, 518347457, 150698326, 708417402, 99790917, 1245387355, 1606638948, 270164403, 2083350659, 250743072, 2795553755, 3662332330, 1051691400, 1596837996, 2878886471, 3767257230, 1022190855, 943315021, 460264562, 693794863, 403979297, 552747952, 121825214, 3376368277, 1246904299, 289015256, 2013713070, 1930227334, 3767382317, 2431677418, 3304492221, 3911321317, 280866954, 3502709700, 2136183421, 4207395025, 1383094615, 1423765486, 3940167245, 1606867394, 3015997776, 3313613348, 3884012826, 1833910140, 2638604520, 510391842, 2410452423, 2400805726, 1287587854, 3753336426, 4175789393, 1857359427, 3750427556, 765282044, 3456165273, 1284134207, 2517407201, 339003189, 3730097797, 268850727, 2943631766, 761881758, 2156800101, 2135967820, 1366464448, 4095403975, 362194862, 2815238466, 3510362510, 3306843697, 741382422, 1476301037, 3198627663, 1156587220, 3013277683, 4218867765, 398202246, 2084410147, 2965831479, 3137964788, 1320390388, 1987207129, 2123132230, 924878689, 4015669490, 3056664684, 2469201675, 1758935669, 253754002, 1417971071, 3979860376, 3341391202, 3466920926, 3980707634, 1512099038, 4208373982, 3407159390, 1348330655, 744485695, 677074281, 2965068858, 3434462452, 2279779819, 1107599788, 3295984042, 1003174804, 4082765564, 697441861, 3893288964, 2743620282, 2664516202, 280657338, 344964551, 3748047621, 1056071501, 681674437, 2349347556, 3209633511, 964078556, 3687877064, 1139868824, 2919201809, 671205593, 3086832829, 4250228401, 3983197815, 3108019134, 1281677705, 2506813842, 911622333, 1341742912, 1349415204, 1457996072, 770256297, 338509889, 2656112679, 4294082865, 611999526, 3518644165, 595822677, 3707335903, 3373990805, 1341851661, 1697817399, 3061619884, 3578372927, 4232779195, 426344358, 2100671634, 2479050929, 750176797, 1056183767, 2956795419, 3094985259, 1766645394, 410734787, 2924444512, 3187347384, 3497444623, 2930979068, 2461814753, 2482750082, 3540507361, 2197101783, 4161736359, 986321599, 2413227539, 2857483364, 3935712192, 1209130914, 4101500169, 1809759269, 977647192, 2818182188, 689172305, 420494431, 4069117433, 2045768555, 2410505870, 4027947532, 1707041090, 619992330, 1265892283, 3248333406, 2627369871, 1870086552, 744081490, 2650849781, 3714833765, 2005078858, 2613803304, 3241403297, 3348501406, 3018105970, 2270011709, 3755684537, 890547074, 1881646786, 1868661345, 1576999078, 914283263, 2719618660, 218386362, 3553364915, 4196872793, 341370828, 2393920953, 3080837302, 965542725, 2835098273, 3444518359, 2231948191, 2386322508, 2185986220, 1859074989, 2440843911, 1203172977, 109387202, 3316213677, 18456287, 3768341357, 1294421532, 3768606224, 997966963, 3233232487, 2618302023, 3017131891, 1890859634, 1730890689, 2405896293, 1691602580, 2713836344, 1125046630, 3235990569, 1166942732, 1315678183, 1747220655, 2163331837, 3206552143, 643199769, 3914620232, 2445974983, 3802560514, 2536708945, 391527666, 3861653033, 1337266294, 3953963130, 3237713023, 334317759, 1219938397, 1231266097, 2253039763, 1027130820, 1182017166, 2132104684, 292325614, 2187163478, 783178295, 2930412668, 2869192408, 2340763406, 1654075492, 2772283414, 4221049755, 2874850820, 3942457355, 589396159, 451606186, 3456577658, 1461912983, 3078244461, 2029660944, 2081758031, 3589175844, 2938233901, 3006630589, 222281687, 784896983, 1049417110, 3180964916, 2438284660, 1599814407, 1733503964, 1798738790, 1248033367, 1741185780, 1068578289, 3364730719, 56934319, 1368900037, 2172803471, 243833883, 3214270680, 2572577533, 4023997731, 1876308506, 3246576310, 1221459085, 1916942631, 2304653274, 3291759621, 737547534, 2415361873, 4128093918, 953085560, 4161854541, 657284372, 3723692444, 1515706966, 1189382590, 3198008568, 3265868662, 2444301925, 566755719, 2729696723, 4280024, 438373023, 1059939301, 162167349, 867939528, 617664186, 1794433603, 473151147, 3610226079, 2420205560, 1464975556, 3010607856, 327074487, 2050957909, 3992504072, 1884263634, 2286314506, 1651332290, 22595139, 708037346, 1311856057, 1925864876, 1435437362, 2670942841, 3096237418, 2547224828, 2329130214, 2058582814, 2534905987, 828798888, 1127985297, 4203157126, 2895540042, 1287533723, 3065026467, 3087953953, 2166078469, 496408517, 3170202843, 2389580834, 3224713763, 3385907517, 23036007, 1530746218, 1907239802, 658149676, 3285619345, 713146584, 3774636984, 1197661284, 1081520952, 691342677, 2742076492, 1728717355, 3085738658, 1597544092, 2578279029, 3585800703, 3499485723, 2162327723, 1639633301, 3277590904, 471110206, 3009907858, 734072556, 2858537238, 1709822781, 3573163782, 1703344356, 1768985658, 4030976440, 1401507251, 2696128130, 780659686, 1185948280, 2396788948, 1171687896, 4047095187, 4014034309, 3019571508, 1338699941, 646758621, 37622490, 1457569178, 3750518911, 3649777418, 2007859663, 1682149529, 3300611022, 3762047254, 1558573375, 2044555671, 1112054246, 100076162, 2572012501, 2767964857, 3291968384, 2676454008, 3095543293, 417631352, 220326211, 3276593196, 2059510145, 4086421873, 1622505235, 2716714464, 645129686, 4233163325, 137988179, 4261501464, 1274111796, 2984819805, 112911840, 2795381835, 3298798450, 4005450687, 1493167195, 1766940928, 3250114065, 312514117, 72289725, 118592129, 255379206, 1410437225, 1256833466, 2141807033, 1415828769, 3982430796, 120960800, 2834068257, 2849905521, 2093833535, 102816007, 2661111905, 1833265018, 3355182042, 3323679121, 270009086, 772040694, 804764660, 2120758415, 3345426099, 80545163, 1155646618, 928042025, 1695070751, 2668531551, 2101979029, 3010755065, 1314518348, 1488490111, 4206829184, 4219721114, 3076738946, 1981144614, 3255054106, 1989288953, 463786195, 4257361108, 2423931890, 1144676376, 938295320, 1997376094, 1549346154, 2572033615, 422094828, 3356588861, 1817206163, 1707359657, 1275044240, 2931817164, 1937856284, 2604539882, 1417951444, 1903062170, 3937370377, 3751622541, 1408652133, 2070661142, 1488459606, 4242858671, 2747634249, 1545677939, 1581280844, 3566683869, 3250692895, 1720601092, 2308659193, 4046364652, 3709137396, 3203206263, 2804850739, 3199519305, 243159289, 867204529, 76019620, 3612726168, 3189645612, 3550640511, 753944713, 2796917480, 199241529, 4221615805, 3710744567, 722069164, 2367482790, 3382749681, 4110370128, 343861110, 3736659134, 3796652731, 3623298254, 1513670768, 1383020805, 3898971375, 3603487830, 3020883400, 3782548258, 2684875901, 442674892, 2759598390, 3818163840, 548449401, 4052248109, 2784541997, 2849736480, 2777496840, 386545989, 2853191137, 1126608238, 163118526, 41810012, 34595692, 1398739620, 1448646419, 848030164, 32852286, 1492749602, 1331924644, 3526689307, 2513660932, 4076516983, 1509708130, 2382395908, 2914262714, 228409939, 2345985457, 4125085498, 2007294329, 2291277770, 3987579756, 2725591035, 3537462194, 1853849198, 1822026916]))

/-- Zipper state after 312 steps of pass two, seed 99. -/
def mtZ2A99 : Nat × List Nat × List Nat := (314, ([1172042946, 4216680420, 645276128, 4215231139, 1938604770, 580387845, 1447702704, 211423081, 2133158770, 2047813745, 1013450064, 1252319355, 560853598, 975837924, 476280098, 4176978204, 1487197506, 2724716839, 3058988484, 177780533, 3849456495, 190603948, 4216832918, 1106846399, 4288131311, 1432692050, 3454956146, 685340121, 642249862, 291763681, 452420321, 2708112714, 1714654316, 3651576567, 1950642488, 1675686541, 3395174935, 1907485422, 2913338911, 1173688187, 1588515260, 1331425569, 973481302, 512029224, 3048510950, 4169626457, 1418275387, 2309418509, 1681632414, 1356903182, 2105094996, 2330855582, 198463265, 2488781605, 3910457776, 216380226, 135463144, 1316725233, 1420422427, 4069036323, 1847015264, 667654906, 1618757905, 841378921, 3647021454, 3413818658, 3884034916, 1359022191, 101340363, 45210118, 3747628476, 3495022200, 2099607969, 1770087978, 1775535554, 57335975, 1399061384, 1491521907, 1243962988, 851746940, 448887292, 3833022488, 420348956, 1983461640, 661168289, 3779298320, 2415647437, 1854239180, 2536585560, 4039095118, 1591338670, 2014851637, 2528122207, 2755097678, 344635958, 3942878681, 1081055517, 1901034364, 777396679, 3008831505, 2550860547, 749521477, 308405889, 3777329852, 2862100220, 351970217, 2036834099, 1760215889, 3263960103, 721033667, 2600097914, 89164920, 2312284789, 792159292, 1993831163, 2818826119, 486683530, 4065997476, 1802504818, 3073404634, 3255901654, 3999412395, 597164902, 3062218338, 1073378958, 4220771825, 334478530, 1741462157, 303605590, 4016621464, 1801571941, 3917217583, 3239594107, 486717690, 3052106393, 3507661577, 2918148062, 1378788455, 2983948640, 3888316701, 4291281361, 1216807919, 3231159892, 680972775, 3407364669, 3809283289, 1484227573, 2126292476, 2417578521, 2261660807, 2511041471, 3773159787, 4075395048, 3145476619, 1763331415, 1703499587, 3085808595, 3859878353, 1650505516, 1853295805, 12872807, 1314480563, 1846973819, 1623370280, 2820977167, 826114162, 412420344, 447925041, 2443530399, 1899303767, 14789793, 1560927113, 1776533833, 3271914487, 1536873151, 679447981, 405173951, 2172659248, 1684825956, 1180967336, 420185131, 1403950837, 2788911883, 1280577732, 1075522304, 2073570042, 3774526112, 1805500541, 3195374593, 120637917, 8058532, 3835754454, 2841507151, 4186060237, 1821216762, 660233203, 2153000212, 2009132820, 1945544309, 2989918219, 1031546535, 4105973365, 518342298, 1613320349, 2034965607, 2972021139, 2131568065, 3847182866, 1943347841, 7768630, 3446392858, 3140929938, 830391594, 1755852268, 2035372791, 896157401, 1906140580, 211284201, 65393297, 487254690, 856687700, 2008975052, 2946463136, 1153548415, 1004436587, 2356275605, 893277836, 1496587079, 3921257446, 2690850143, 2800818076, 1956306411, 3937281672, 2498202342, 2105011185, 3618738005, 607883359, 148628283, 1536309419, 937558440, 3177255448, 3922997571, 2352665302, 2688375873, 2773079552, 1365454619, 1913700860, 3097957146, 3202333554, 2266725661, 2853656361, 3653106228, 540562922, 1832330197, 1044824570, 1367597948, 3705634794, 3123113836, 1675713159, 4219009483, 2145382849, 2785392225, 3820406711, 1058060703, 1908817634, 532342984, 1676476094, 2939982464, 1802912260, 358874596, 1007082236, 369884431, 1730048237, 2927673702, 3496564871, 2516788691, 759698597, 4116463470, 2907158290, 3101262946, 1055310155, 3445627947, 2713539117, 1394461900, 3793263152, 3152521915, 777052982, 3769980189, 3793833518, 3729785173, 4214447, 2654954725, 4123496578, 3019424760, 3397114039, 556671857, 1822147522, 538833552, 1193854135, 3915664869, 45958643, 433923934, 3660170900, 93826838, 3111904136, 221745904, 3065204891, 83047155, 1883617660, 113337447, 487098344, 529252037, 197052632, 1822026916], [2340763406, 1654075492, 2772283414, 4221049755, 2874850820, 3942457355, 589396159, 451606186, 3456577658, 1461912983, 3078244461, 2029660944, 2081758031, 3589175844, 2938233901, 3006630589, 222281687, 784896983, 1049417110, 3180964916, 2438284660, 1599814407, 1733503964, 1798738790, 1248033367, 1741185780, 1068578289, 3364730719, 56934319, 1368900037, 2172803471, 243833883, 3214270680, 2572577533, 4023997731, 1876308506, 3246576310, 1221459085, 1916942631, 2304653274, 3291759621, 737547534, 2415361873, 4128093918, 953085560, 4161854541, 657284372, 3723692444, 1515706966, 1189382590, 3198008568, 3265868662, 2444301925, 566755719, 2729696723, 4280024, 438373023, 1059939301, 162167349, 867939528, 617664186, 1794433603, 473151147, 3610226079, 2420205560, 1464975556, 3010607856, 327074487, 2050957909, 3992504072, 1884263634, 2286314506, 1651332290, 22595139, 708037346, 1311856057, 1925864876, 1435437362, 2670942841, 3096237418, 2547224828, 2329130214, 2058582814, 2534905987, 828798888, 1127985297, 4203157126, 2895540042, 1287533723, 3065026467, 3087953953, 2166078469, 496408517, 3170202843, 2389580834, 3224713763, 3385907517, 23036007, 1530746218, 1907239802, 658149676, 3285619345, 713146584, 3774636984, 1197661284, 1081520952, 691342677, 2742076492, 1728717355, 3085738658, 1597544092, 2578279029, 3585800703, 3499485723, 2162327723, 1639633301, 3277590904, 471110206, 3009907858, 734072556, 2858537238, 1709822781, 3573163782, 1703344356, 1768985658, 4030976440, 1401507251, 2696128130, 780659686, 1185948280, 2396788948, 1171687896, 4047095187, 4014034309, 3019571508, 1338699941, 646758621, 37622490, 1457569178, 3750518911, 3649777418, 2007859663, 1682149529, 3300611022, 3762047254, 1558573375, 2044555671, 1112054246, 100076162, 2572012501, 2767964857, 3291968384, 2676454008, 3095543293, 417631352, 220326211, 3276593196, 2059510145, 4086421873, 1622505235, 2716714464, 645129686, 4233163325, 137988179, 4261501464, 1274111796, 2984819805, 112911840, 2795381835, 3298798450, 4005450687, 1493167195, 1766940928, 3250114065, 312514117, 72289725, 118592129, 255379206, 1410437225, 1256833466, 2141807033, 1415828769, 3982430796, 120960800, 2834068257, 2849905521, 2093833535, 102816007, 2661111905, 1833265018, 3355182042, 3323679121, 270009086, 772040694, 804764660, 2120758415, 3345426099, 80545163, 1155646618, 928042025, 1695070751, 2668531551, 2101979029, 3010755065, 1314518348, 1488490111, 4206829184, 4219721114, 3076738946, 1981144614, 3255054106, 1989288953, 463786195, 4257361108, 2423931890, 1144676376, 938295320, 1997376094, 1549346154, 2572033615, 422094828, 3356588861, 1817206163, 1707359657, 1275044240, 2931817164, 1937856284, 2604539882, 1417951444, 1903062170, 3937370377, 3751622541, 1408652133, 2070661142, 1488459606, 4242858671, 2747634249, 1545677939, 1581280844, 3566683869, 3250692895, 1720601092, 2308659193, 4046364652, 3709137396, 3203206263, 2804850739, 3199519305, 243159289, 867204529, 76019620, 3612726168, 3189645612, 3550640511, 753944713, 2796917480, 199241529, 4221615805, 3710744567, 722069164, 2367482790, 3382749681, 4110370128, 343861110, 3736659134, 3796652731, 3623298254, 1513670768, 1383020805, 3898971375, 3603487830, 3020883400, 3782548258, 2684875901, 442674892, 2759598390, 3818163840, 548449401, 4052248109, 2784541997, 2849736480, 2777496840, 386545989, 2853191137, 1126608238, 163118526, 41810012, 34595692, 1398739620, 1448646419, 848030164, 32852286, 1492749602, 1331924644, 3526689307, 2513660932, 4076516983, 1509708130, 2382395908, 2914262714, 228409939, 2345985457, 4125085498, 2007294329, 2291277770, 3987579756, 2725591035, 3537462194, 1853849198, 1822026916]))

/-- Zipper state after all 623 steps of pass two, seed 99. -/
def mtZ2B99 : Nat × List Nat × List Nat := (2, ([4037907767, 374159456], [529252037, 487098344, 113337447, 1883617660, 83047155, 3065204891, 221745904, 3111904136, 93826838, 3660170900, 433923934, 45958643, 3915664869, 1193854135, 538833552, 1822147522, 556671857, 3397114039, 3019424760, 4123496578, 2654954725, 4214447, 3729785173, 3793833518, 3769980189, 777052982, 3152521915, 3793263152, 1394461900, 2713539117, 3445627947, 1055310155, 3101262946, 2907158290, 4116463470, 759698597, 2516788691, 3496564871, 2927673702, 1730048237, 369884431, 1007082236, 358874596, 1802912260, 2939982464, 1676476094, 532342984, 1908817634, 1058060703, 3820406711, 2785392225, 2145382849, 4219009483, 1675713159, 3123113836, 3705634794, 1367597948, 1044824570, 1832330197, 540562922, 3653106228, 2853656361, 2266725661, 3202333554, 3097957146, 1913700860, 1365454619, 2773079552, 2688375873, 2352665302, 3922997571, 3177255448, 937558440, 1536309419, 148628283, 607883359, 3618738005, 2105011185, 2498202342, 3937281672, 1956306411, 2800818076, 2690850143, 3921257446, 1496587079, 893277836, 2356275605, 1004436587, 1153548415, 2946463136, 2008975052, 856687700, 487254690, 65393297, 211284201, 1906140580, 896157401, 2035372791, 1755852268, 830391594, 3140929938, 3446392858, 7768630, 1943347841, 3847182866, 2131568065, 2972021139, 2034965607, 1613320349, 518342298, 4105973365, 1031546535, 2989918219, 1945544309, 2009132820, 2153000212, 660233203, 1821216762, 4186060237, 2841507151, 3835754454, 8058532, 120637917, 3195374593, 1805500541, 3774526112, 2073570042, 1075522304, 1280577732, 2788911883, 1403950837, 420185131, 1180967336, 1684825956, 2172659248, 405173951, 679447981, 1536873151, 3271914487, 1776533833, 1560927113, 14789793, 1899303767, 2443530399, 447925041, 412420344, 826114162, 2820977167, 1623370280, 1846973819, 1314480563, 12872807, 1853295805, 1650505516, 3859878353, 3085808595, 1703499587, 1763331415, 3145476619, 4075395048, 3773159787, 2511041471, 2261660807, 2417578521, 2126292476, 1484227573, 3809283289, 3407364669, 680972775, 3231159892, 1216807919, 4291281361, 3888316701, 2983948640, 1378788455, 2918148062, 3507661577, 3052106393, 486717690, 3239594107, 3917217583, 1801571941, 4016621464, 303605590, 1741462157, 334478530, 4220771825, 1073378958, 3062218338, 597164902, 3999412395, 3255901654, 3073404634, 1802504818, 4065997476, 486683530, 2818826119, 1993831163, 792159292, 2312284789, 89164920, 2600097914, 721033667, 3263960103, 1760215889, 2036834099, 351970217, 2862100220, 3777329852, 308405889, 749521477, 2550860547, 3008831505, 777396679, 1901034364, 1081055517, 3942878681, 344635958, 2755097678, 2528122207, 2014851637, 1591338670, 4039095118, 2536585560, 1854239180, 2415647437, 3779298320, 661168289, 1983461640, 420348956, 3833022488, 448887292, 851746940, 1243962988, 1491521907, 1399061384, 57335975, 1775535554, 1770087978, 2099607969, 3495022200, 3747628476, 45210118, 101340363, 1359022191, 3884034916, 3413818658, 3647021454, 841378921, 1618757905, 667654906, 1847015264, 4069036323, 1420422427, 1316725233, 135463144, 216380226, 3910457776, 2488781605, 198463265, 2330855582, 2105094996, 1356903182, 1681632414, 2309418509, 1418275387, 4169626457, 3048510950, 512029224, 973481302, 1331425569, 1588515260, 1173688187, 2913338911, 1907485422, 3395174935, 1675686541, 1950642488, 3651576567, 1714654316, 2708112714, 452420321, 291763681, 642249862, 685340121, 3454956146, 1432692050, 4288131311, 1106846399, 4216832918, 190603948, 3849456495, 177780533, 3058988484, 2724716839, 1487197506, 4176978204, 476280098, 975837924, 560853598, 1252319355, 1013450064, 2047813745, 2133158770, 211423081, 1447702704, 580387845, 1938604770, 4215231139, 645276128, 4216680420, 1172042946, 2083538343, 293317343, 1845808561, 1401662638, 391943889, 2831145535, 3456712814, 351497066, 332193126, 1648016742, 2601643402, 2150737011, 1738678164, 867837350, 382736139, 1414633889, 2359607981, 1595229841, 2629423610, 1107874207, 3670947540, 525427589, 1972260949, 2895502577, 4207109430, 1972032714, 2577995666, 294439738, 1336939255, 3167013748, 2737769641, 1773159187, 1085332328, 2270623797, 69508660, 2783875905, 916432763, 922295979, 4025862640, 1517922468, 1853711034, 2695719014, 1301217985, 132637113, 3933039903, 1830460122, 1626430219, 3840167941, 2948664478, 1816535751, 268469626, 238342887, 578007768, 2110313808, 3461676214, 733262656, 599748973, 2629340017, 3064204790, 2711046167, 1775900797, 3456245048, 4224657012, 2443928307, 2272232051, 2314735574, 656695000, 1348890642, 3203639468, 963690543, 1957872089, 3158353073, 1629191643, 3007758782, 545802314, 3729122566, 1567574735, 2195280621, 1809720746, 2255249044, 1988055624, 986885024, 3456035762, 2524155337, 2805619761, 2711986175, 1722378695, 1807962307, 2166752383, 987181663, 1525023430, 2125633521, 1122227423, 1446178742, 38201977, 903286021, 2238775082, 1015079188, 550763506, 3811632483, 3236892206, 3769471665, 3503310146, 65141884, 1438460646, 1948510072, 4265871172, 792897194, 2234526611, 3983296496, 644465563, 3097116073, 866439902, 3493875682, 3354668226, 2537595139, 3122593647, 3044435344, 1718342232, 3164167488, 481652330, 689032508, 3824134646, 428403352, 802521100, 3684816717, 2350384317, 4094046496, 278955631, 130771704, 3981033808, 5234090, 2155087299, 729766881, 293694001, 893742895, 610771092, 2513216251, 3862020323, 1574360666, 3018249255, 3679733391, 49170397, 1094977846, 922498267, 10367117, 1977664874, 183395332, 2420943176, 953430552, 936443889, 3430130884, 4228348969, 3612145052, 4102467311, 2048707722, 1551430181, 223392734, 2134988815, 1792155324, 3563288727, 585435607, 1640786706, 1097336143, 2411342336, 3087060511, 3671829068, 3673289194, 712758724, 1809016643, 580304593, 1527983433, 2042073730, 1740185303, 3589785667, 238275348, 3414386299, 2072137843, 3646304423, 2636380961, 3963581064, 3546446599, 1901765864, 1112548316, 3806549022, 3431854861, 352592325, 3012529865, 7263616, 1357110019, 1669561368, 2730678099, 1653075217, 3571207851, 2224552384, 1462364424, 1112535872, 3376038959, 918621126, 1389291830, 1327653802, 3648627237, 509492071, 1218585429, 341800802, 3683958734, 938795609, 3583538046, 2427526857, 3765731110, 917728631, 2880695549, 2448827194, 1404657597, 1942460622, 2212875426, 1898567974, 1507807530, 1739356553, 579261138, 2364642080, 2079586112, 2508752926, 1939921036, 3598605591, 3522915341, 3844893310, 393345950, 1399010660, 3199699236, 845101783, 921813565, 2351337554, 2625213795, 248744687, 3085530559, 3619978930, 4144576639, 2964254840, 2031113942, 1447123618, 2240349984, 1778650983, 2418600101, 1741325545, 1581083088, 1957271574, 30519849, 3102858146, 3676043614, 669062369, 187609640, 938876590, 2872109986, 365730929, 540442436, 3021606067, 648257581, 2748568826, 3749464375, 951383012, 2207361734, 326077380, 1866167521, 1767003804, 4080481799, 596335894, 4113457561, 995370113, 1765401283, 2288848532, 1066218653, 1011489161, 825655333, 1705904393, 992790225, 249652135, 215961419, 628647274, 603466670, 2209034292, 3016386547, 170451452, 3311714104, 4244296659, 1456437847, 816450394, 574601621, 1518275091, 4171113902, 4091159353, 3587516543, 1213054832, 3591727570, 2978625038, 2469181527, 1678267548, 1171189552, 1650163949, 663625025, 2111214992, 3026343453, 2565406105, 641979381, 1115862777, 3649532489, 714829917, 1284812182, 430835087, 374159456]))

/-- The seeded MT19937 state array for seed 99. -/
def mtSeed99 : List Nat := [2147483648, 4037907767, 529252037, 487098344, 113337447, 1883617660, 83047155, 3065204891, 221745904, 3111904136, 93826838, 3660170900, 433923934, 45958643, 3915664869, 1193854135, 538833552, 1822147522, 556671857, 3397114039, 3019424760, 4123496578, 2654954725, 4214447, 3729785173, 3793833518, 3769980189, 777052982, 3152521915, 3793263152, 1394461900, 2713539117, 3445627947, 1055310155, 3101262946, 2907158290, 4116463470, 759698597, 2516788691, 3496564871, 2927673702, 1730048237, 369884431, 1007082236, 358874596, 1802912260, 2939982464, 1676476094, 532342984, 1908817634, 1058060703, 3820406711, 2785392225, 2145382849, 4219009483, 1675713159, 3123113836, 3705634794, 1367597948, 1044824570, 1832330197, 540562922, 3653106228, 2853656361, 2266725661, 3202333554, 3097957146, 1913700860, 1365454619, 2773079552, 2688375873, 2352665302, 3922997571, 3177255448, 937558440, 1536309419, 148628283, 607883359, 3618738005, 2105011185, 2498202342, 3937281672, 1956306411, 2800818076, 2690850143, 3921257446, 1496587079, 893277836, 2356275605, 1004436587, 1153548415, 2946463136, 2008975052, 856687700, 487254690, 65393297, 211284201, 1906140580, 896157401, 2035372791, 1755852268, 830391594, 3140929938, 3446392858, 7768630, 1943347841, 3847182866, 2131568065, 2972021139, 2034965607, 1613320349, 518342298, 4105973365, 1031546535, 2989918219, 1945544309, 2009132820, 2153000212, 660233203, 1821216762, 4186060237, 2841507151, 3835754454, 8058532, 120637917, 3195374593, 1805500541, 3774526112, 2073570042, 1075522304, 1280577732, 2788911883, 1403950837, 420185131, 1180967336, 1684825956, 2172659248, 405173951, 679447981, 1536873151, 3271914487, 1776533833, 1560927113, 14789793, 1899303767, 2443530399, 447925041, 412420344, 826114162, 2820977167, 1623370280, 1846973819, 1314480563, 12872807, 1853295805, 1650505516, 3859878353, 3085808595, 1703499587, 1763331415, 3145476619, 4075395048, 3773159787, 2511041471, 2261660807, 2417578521, 2126292476, 1484227573, 3809283289, 3407364669, 680972775, 3231159892, 1216807919, 4291281361, 3888316701, 2983948640, 1378788455, 2918148062, 3507661577, 3052106393, 486717690, 3239594107, 3917217583, 1801571941, 4016621464, 303605590, 1741462157, 334478530, 4220771825, 1073378958, 3062218338, 597164902, 3999412395, 3255901654, 3073404634, 1802504818, 4065997476, 486683530, 2818826119, 1993831163, 792159292, 2312284789, 89164920, 2600097914, 721033667, 3263960103, 1760215889, 2036834099, 351970217, 2862100220, 3777329852, 308405889, 749521477, 2550860547, 3008831505, 777396679, 1901034364, 1081055517, 3942878681, 344635958, 2755097678, 2528122207, 2014851637, 1591338670, 4039095118, 2536585560, 1854239180, 2415647437, 3779298320, 661168289, 1983461640, 420348956, 3833022488, 448887292, 851746940, 1243962988, 1491521907, 1399061384, 57335975, 1775535554, 1770087978, 2099607969, 3495022200, 3747628476, 45210118, 101340363, 1359022191, 3884034916, 3413818658, 3647021454, 841378921, 1618757905, 667654906, 1847015264, 4069036323, 1420422427, 1316725233, 135463144, 216380226, 3910457776, 2488781605, 198463265, 2330855582, 2105094996, 1356903182, 1681632414, 2309418509, 1418275387, 4169626457, 3048510950, 512029224, 973481302, 1331425569, 1588515260, 1173688187, 2913338911, 1907485422, 3395174935, 1675686541, 1950642488, 3651576567, 1714654316, 2708112714, 452420321, 291763681, 642249862, 685340121, 3454956146, 1432692050, 4288131311, 1106846399, 4216832918, 190603948, 3849456495, 177780533, 3058988484, 2724716839, 1487197506, 4176978204, 476280098, 975837924, 560853598, 1252319355, 1013450064, 2047813745, 2133158770, 211423081, 1447702704, 580387845, 1938604770, 4215231139, 645276128, 4216680420, 1172042946, 2083538343, 293317343, 1845808561, 1401662638, 391943889, 2831145535, 3456712814, 351497066, 332193126, 1648016742, 2601643402, 2150737011, 1738678164, 867837350, 382736139, 1414633889, 2359607981, 1595229841, 2629423610, 1107874207, 3670947540, 525427589, 1972260949, 2895502577, 4207109430, 1972032714, 2577995666, 294439738, 1336939255, 3167013748, 2737769641, 1773159187, 1085332328, 2270623797, 69508660, 2783875905, 916432763, 922295979, 4025862640, 1517922468, 1853711034, 2695719014, 1301217985, 132637113, 3933039903, 1830460122, 1626430219, 3840167941, 2948664478, 1816535751, 268469626, 238342887, 578007768, 2110313808, 3461676214, 733262656, 599748973, 2629340017, 3064204790, 2711046167, 1775900797, 3456245048, 4224657012, 2443928307, 2272232051, 2314735574, 656695000, 1348890642, 3203639468, 963690543, 1957872089, 3158353073, 1629191643, 3007758782, 545802314, 3729122566, 1567574735, 2195280621, 1809720746, 2255249044, 1988055624, 986885024, 3456035762, 2524155337, 2805619761, 2711986175, 1722378695, 1807962307, 2166752383, 987181663, 1525023430, 2125633521, 1122227423, 1446178742, 38201977, 903286021, 2238775082, 1015079188, 550763506, 3811632483, 3236892206, 3769471665, 3503310146, 65141884, 1438460646, 1948510072, 4265871172, 792897194, 2234526611, 3983296496, 644465563, 3097116073, 866439902, 3493875682, 3354668226, 2537595139, 3122593647, 3044435344, 1718342232, 3164167488, 481652330, 689032508, 3824134646, 428403352, 802521100, 3684816717, 2350384317, 4094046496, 278955631, 130771704, 3981033808, 5234090, 2155087299, 729766881, 293694001, 893742895, 610771092, 2513216251, 3862020323, 1574360666, 3018249255, 3679733391, 49170397, 1094977846, 922498267, 10367117, 1977664874, 183395332, 2420943176, 953430552, 936443889, 3430130884, 4228348969, 3612145052, 4102467311, 2048707722, 1551430181, 223392734, 2134988815, 1792155324, 3563288727, 585435607, 1640786706, 1097336143, 2411342336, 3087060511, 3671829068, 3673289194, 712758724, 1809016643, 580304593, 1527983433, 2042073730, 1740185303, 3589785667, 238275348, 3414386299, 2072137843, 3646304423, 2636380961, 3963581064, 3546446599, 1901765864, 1112548316, 3806549022, 3431854861, 352592325, 3012529865, 7263616, 1357110019, 1669561368, 2730678099, 1653075217, 3571207851, 2224552384, 1462364424, 1112535872, 3376038959, 918621126, 1389291830, 1327653802, 3648627237, 509492071, 1218585429, 341800802, 3683958734, 938795609, 3583538046, 2427526857, 3765731110, 917728631, 2880695549, 2448827194, 1404657597, 1942460622, 2212875426, 1898567974, 1507807530, 1739356553, 579261138, 2364642080, 2079586112, 2508752926, 1939921036, 3598605591, 3522915341, 3844893310, 393345950, 1399010660, 3199699236, 845101783, 921813565, 2351337554, 2625213795, 248744687, 3085530559, 3619978930, 4144576639, 2964254840, 2031113942, 1447123618, 2240349984, 1778650983, 2418600101, 1741325545, 1581083088, 1957271574, 30519849, 3102858146, 3676043614, 669062369, 187609640, 938876590, 2872109986, 365730929, 540442436, 3021606067, 648257581, 2748568826, 3749464375, 951383012, 2207361734, 326077380, 1866167521, 1767003804, 4080481799, 596335894, 4113457561, 995370113, 1765401283, 2288848532, 1066218653, 1011489161, 825655333, 1705904393, 992790225, 249652135, 215961419, 628647274, 603466670, 2209034292, 3016386547, 170451452, 3311714104, 4244296659, 1456437847, 816450394, 574601621, 1518275091, 4171113902, 4091159353, 3587516543, 1213054832, 3591727570, 2978625038, 2469181527, 1678267548, 1171189552, 1650163949, 663625025, 2111214992, 3026343453, 2565406105, 641979381, 1115862777, 3649532489, 714829917, 1284812182, 430835087, 374159456]

/-- First twisted block for seed 99 (untempered). -/
def mtB1of99 : List Nat := [1999501197, 1912025996, 2938231819, 4240534315, 1407290493, 441920985, 3095800525, 478006206, 1645176373, 2622292, 2066091260, 1319664086, 2910920483, 684353799, 3323736976, 819790522, 3581740162, 1232121673, 1553518133, 2301371582, 2030187581, 2208966731, 2903208176, 1214560049, 1582432701, 1818374594, 3125032555, 2727519769, 3382079665, 1512715448, 1503024683, 944542216, 1362850169, 2792504670, 3822435865, 482725359, 1932912589, 2394704988, 3626881440, 3031419205, 4077871665, 3185102420, 3315776051, 2259286607, 3250393122, 121556783, 1983714727, 3801396532, 950846171, 116713939, 2209122533, 3683320286, 3550619408, 2161339566, 2100608871, 4213356373, 867789231, 3676775833, 3296142962, 2910676712, 1364730819, 438487489, 3432852422, 2942683963, 1434565053, 3424592069, 1104958182, 2255083683, 3738652612, 890331862, 2438044919, 425985681, 615269766, 126481137, 3113295700, 3794016589, 3787941452, 1723011042, 3310767344, 1807724129, 876549643, 1828713514, 2876786129, 333616188, 2922192921, 3756615864, 1900825605, 3181836996, 2683610019, 3269444194, 1886823431, 2921892645, 398182718, 3305509674, 3816294884, 1175812108, 2783791603, 1870848315, 1992450723, 1158591006, 1525629257, 4286066903, 2855802624, 1430217950, 325955414, 852064393, 3060660540, 3793318926, 1198516671, 3415995776, 3685674470, 666983973, 2426358404, 3260811162, 701081546, 220298316, 1390739388, 2240282252, 4013909464, 3147272542, 2231658797, 1712262281, 2611594396, 2909025896, 1403651489, 2088193576, 3490260598, 1266645002, 2344515965, 3084659544, 3651951335, 2199413611, 375963240, 1377552882, 1810457240, 1735158417, 4154284370, 29812009, 3476434624, 755138874, 2656667895, 1643249676, 1216547458, 1153323786, 2259411726, 2268258339, 3002928472, 717355758, 3152751589, 4232561990, 846884609, 2969012969, 780399443, 2046249011, 3325649897, 447662159, 3152953312, 3180151260, 671912276, 4004686525, 3915129681, 2393954435, 2380292304, 2932224650, 3503664122, 3350169948, 1848150139, 2406425170, 4155122665, 4206216834, 2340102280, 3901205849, 2262642547, 1592999138, 2119047325, 1405892118, 3381394136, 3375699647, 1080861525, 1575933881, 3602898947, 2229737940, 529490410, 339689178, 3156357682, 2444941592, 1624128674, 749490355, 1617956826, 654886584, 1627029910, 3415712131, 1512327226, 1434014922, 2036812402, 475364408, 1836659307, 245526312, 1370058321, 498291682, 1485134557, 3193083375, 1538414186, 4242519908, 2591097689, 3070417764, 1562729192, 1622131250, 3231268609, 954139182, 103623245, 1054139379, 102862089, 2762699851, 2347585292, 1526480211, 2662424848, 3512722339, 4263971590, 2331199422, 4094912901, 2810584892, 4142629150, 314878458, 118239546, 1861008745, 2293786073, 126629253, 3142308611, 2487042191, 4031146277, 1641687153, 1463259431, 2716105459, 963601544, 3614752339, 697958032, 3818638448, 2051160887, 2571217974, 2404410632, 3996439724, 1600987236, 2485512577, 3548198387, 3977312989, 3136090380, 482306732, 4011505804, 1829828123, 3780256614, 1303891136, 1533651570, 436784677, 1372512331, 2007175318, 1579398348, 1608814474, 214367952, 2182620212, 2056301073, 3869424214, 1652118597, 1531297354, 3164707347, 1173755513, 1206119559, 1447324482, 3875701927, 2329985831, 2611669220, 2132301933, 678012913, 3452904133, 1833895652, 1081358252, 3134420999, 1800683900, 3785963842, 1719256756, 4090145432, 1837235650, 793884410, 2717918080, 3355762650, 1225993281, 2341101521, 1005236586, 3168903529, 896076358, 2462984944, 271550699, 1739494829, 2644031907, 2638471745, 384569224, 1497565303, 2905230457, 1465236480, 968444148, 390007774, 97247158, 4228914149, 1170752171, 1495382619, 1511259035, 1083881017, 3162219734, 1429837147, 267344991, 1087997132, 2475137003, 3171193561, 3596410377, 739483508, 838759844, 3944354869, 3805306800, 595580645, 1891592457, 2407507615, 3936249687, 1997022911, 2825240374, 3063055325, 85159273, 1557373133, 3364878867, 1280855256, 895665801, 2747103049, 489768875, 3401949337, 2601181782, 884569363, 3835720010, 1155115815, 2798608253, 1560556608, 2622210381, 2325373447, 2535005806, 323164662, 2591803703, 1750560730, 3479636076, 557079963, 3340117559, 3991991798, 1508812798, 789580258, 1683022169, 290167418, 3879180075, 1529465913, 1953581250, 757558107, 1972526263, 4120194566, 3206062898, 4183904559, 1007281367, 2286406445, 4288486383, 2681486469, 3725588396, 333900690, 3111384748, 875059628, 3226731243, 3555370605, 3724142069, 1324479735, 1595453881, 230749298, 3322722527, 765117664, 3905232615, 4094397698, 2098322495, 1371828282, 3644897215, 3743291527, 415231955, 983933787, 3247021926, 4145138274, 3105359732, 2710710784, 2053076328, 916597539, 2772089135, 3298403862, 353837407, 2449897346, 3512030768, 679784633, 1106165327, 559796857, 1820404559, 4061799516, 3889539709, 2544836582, 3841522619, 1868885400, 4162189797, 1995939938, 1318331872, 117714825, 490151551, 1249857104, 2890649547, 959060854, 12172213, 3320981812, 135802235, 1727543430, 1243878629, 4052111935, 1694911384, 47712159, 3807899492, 1793286080, 2806342521, 2347221283, 142280510, 898855955, 998198460, 1828353457, 2679478530, 2791605676, 3913607797, 2840491460, 327151069, 1948722348, 4050578426, 1947957090, 298314315, 2316089482, 3643096968, 3735579867, 1521859812, 1494845487, 2819981752, 2440564086, 1729476920, 1178884753, 1708878914, 606869620, 3839381844, 2167031896, 3978060180, 513604, 138657557, 4079920669, 1664368690, 3030336532, 1915798423, 4171071720, 1841820562, 2761115889, 826880044, 2334041951, 2876846519, 3315736082, 2638820860, 4075280120, 1813742240, 2470097641, 3898206633, 2458759278, 1976903979, 3631871363, 165019032, 3569704600, 3757870341, 3568059491, 3868145254, 2294225680, 906264404, 2003842768, 83036841, 3678540776, 3596639099, 3949308401, 807221137, 684465024, 3378773743, 2713411548, 3736098727, 3213633196, 151138975, 2456771382, 838620611, 2801657374, 2679101139, 2882065097, 2866496235, 2153124148, 4225959884, 1291867518, 762866724, 4044188402, 2333263371, 3812465162, 165838613, 3575599422, 2978043512, 102041926, 242634586, 529903944, 2472827449, 1618237658, 2887478788, 2388578471, 1791364101, 2284890931, 2564919617, 1038472972, 2774291550, 3075768348, 1276370426, 1725313051, 2601651731, 570100440, 531541405, 3379386357, 786220985, 70859239, 2223306614, 1764223550, 4093589056, 1263571698, 1189248937, 3246546806, 1610469716, 1983852569, 4075690648, 1651675442, 3482494950, 2648974278, 94504390, 782610742, 725432705, 1621102193, 627875532, 2810909543, 1360974647, 1751280983, 485104102, 1256821718, 4005952481, 2040219138, 2012417436, 3393943939, 2689792948, 2759721476, 1230013922, 842003267, 4036062354, 48925597, 683776194, 2301464037, 2384564616, 2740455017, 1191131927, 2312352924, 1500814560, 2265063884, 2420551536, 1344449022, 2042529191, 970038312, 2104370281, 3336500052, 2756128788, 4152077649, 465117868, 3301165701, 1083061489, 1151866680, 2676715174, 3655666044, 689040401, 3009181222, 1924698653, 1049318399, 1388242292, 3096917856, 373279265, 1626999957, 2372406832, 3488866939, 305361800, 2040427914, 1899768146, 3806748023, 882868059, 798418945, 1453650266, 3608141228, 3120021924, 4198738440, 3447678371, 455555591, 2418889402, 1444636886, 151087933, 165567307, 2904175305, 978884683, 2457916402, 1262887193, 3388637354, 975281317, 1961813011, 2960534605, 2397814912, 284274900, 148680423, 861763476, 131712410, 3665021440, 2317024160]

/-- Second twisted block for seed 99 (untempered). -/
def mtB2of99 : List Nat := [2031429513, 2948959395, 2347314693, 48386749, 1945537614, 316979807, 2865110628, 3345739357, 4160878671, 1264887324, 1774197003, 2295075015, 3495598627, 1769035672, 4096085654, 328505655, 4245249230, 1924595441, 210648868, 2205258311, 3539578911, 2802051655, 2554110175, 3036264350, 3569809285, 4006212650, 1862566058, 1982089636, 1701715298, 2152787929, 660145592, 3715071442, 2358020013, 1317464703, 1043250269, 165426941, 337759219, 405916796, 842121095, 2492757669, 1328254305, 1909806412, 58290800, 3195462858, 2149739436, 4212109859, 2573196066, 1411833028, 4251417870, 3734679100, 136244397, 1308429308, 2763122435, 1723377460, 1233488609, 3235107404, 3168312582, 2434086180, 898298694, 1161553194, 3861452712, 3738375435, 2742920912, 1465591024, 2387480721, 3958410796, 826633529, 2865347056, 3351348375, 1665640540, 3114348855, 2171375658, 1922408462, 2386902980, 2647627090, 2828682917, 2056026729, 4134435040, 858516202, 1471905721, 3505441907, 67864871, 2146776394, 4184741379, 1795669749, 988579125, 3367183897, 1033324799, 1366480544, 3388995932, 1199508386, 3932601155, 4231224882, 3459261022, 1778945689, 428953360, 3744830849, 76834704, 3173552092, 532136626, 208661087, 3578403508, 2440869283, 1152811733, 2903793855, 3929773676, 4196301836, 428006922, 741311957, 3100125133, 2070497717, 240823300, 1868057751, 1265722029, 2515854367, 1225139972, 2933428546, 4190200395, 923649194, 1404710778, 1928243162, 808531266, 4092481386, 1200173587, 1915255534, 1322427168, 4272796182, 3173811897, 1145092145, 1018415705, 4132980435, 1326278355, 2911441807, 1557355378, 1497478103, 1889418843, 2668215778, 3860416534, 159158729, 3759883453, 2182552222, 1177752691, 3989671523, 2662453825, 3744711944, 2010855322, 2120074486, 3831311196, 1531935855, 1740543032, 3496847004, 2787845153, 3105426720, 4043150077, 983183129, 1684822514, 691383666, 2655858985, 235085365, 1238934387, 2533382524, 1960821547, 2817684951, 1786797664, 1259756652, 1731295495, 2308309153, 1099278146, 1000724566, 3429770456, 3024091795, 1566836394, 4282331393, 4128052591, 1347985068, 487874884, 2164006889, 1071649313, 330885911, 1160572303, 1506455110, 2332326512, 1251060636, 1522077217, 3612738090, 2843875117, 2790225047, 2204398027, 1631383873, 251007796, 4001203562, 3582268285, 1015242820, 1548331436, 2202185772, 1615317905, 358761500, 3359797885, 2145747107, 1470906566, 2998830451, 1112523572, 1758145256, 54521055, 3799428118, 2496726908, 4247291066, 2724402520, 3426931629, 3422899503, 2405673499, 2479238416, 642201651, 2142126029, 1727430020, 1142854033, 945668516, 1160911142, 831997900, 1400318032, 3710439198, 1803841627, 1103034906, 819687177, 2846305265, 1193756723, 1356091837, 4256726743, 2094242875, 1791142472, 3943167578, 3244684290, 2602448889, 4134644768, 1977156011, 2899117831, 2057912356, 2380903503, 2221721308, 2549262503, 510344654, 2610159268, 2156846376, 230651624, 2637574976, 1375225762, 3442353937, 3849645145, 1216553365, 2828382572, 3525464574, 4185006780, 2059740135, 3739959376, 1307951599, 1249888004, 2946672668, 557480656, 3697504200, 1758225018, 2111289172, 3592070816, 612297176, 2474227237, 3821172639, 2294872347, 3216392964, 3852632045, 2913829888, 1319896578, 1492285475, 220072075, 1155568542, 4026030160, 1948043026, 2030465490, 2872086146, 952791052, 1052895398, 2639573583, 276322773, 1580028316, 3520316300, 3638227691, 1821643739, 2840030321, 416202143, 1632729027, 2221379624, 2853876648, 2252623962, 613542552, 2083807778, 3874237638, 3787439668, 1919463539, 3973725887, 3523997495, 2645570640, 2030708193, 2359349279, 986654847, 1400297263, 3474200475, 1114584562, 2322465065, 1233563090, 593802753, 2599720919, 1603925804, 1772449065, 2894939974, 3368704750, 2663049635, 627601965, 4260850789, 3096958596, 2412269583, 1261551384, 1652833698, 578265386, 2290363673, 228823179, 494167216, 3742720507, 172617573, 2734198628, 1782828083, 1458817327, 430620376, 2468778463, 293470252, 2814306119, 961181274, 735241903, 3612074137, 849819820, 367743893, 2574777469, 3005074763, 16641434, 3696584932, 3711136576, 3673368239, 3732072061, 4271856312, 3912862910, 68607265, 1556506301, 3831909275, 3970560608, 2056107987, 3829520490, 171042005, 2266243800, 3420175683, 2675070173, 3432174032, 276903754, 1211173831, 2615089606, 3295340190, 2522350451, 1240142719, 2300490688, 1083171840, 4238524395, 3624089160, 4279346649, 489713034, 1766166628, 558075820, 3244285849, 2025701071, 1582548972, 226631199, 3402935188, 2858967069, 1101757153, 2449159485, 1163229693, 3424490373, 2973441732, 2909785088, 3196714650, 1972108036, 357867721, 3351858300, 166754719, 632017049, 3776295464, 693800807, 3031587191, 2157263712, 690949210, 4142870741, 1972488992, 1033479024, 4062979026, 3325174575, 485453966, 462360927, 4133530694, 4149111077, 2598526476, 1757625126, 1650917247, 3275753821, 479675792, 1873677492, 3583269147, 2344816529, 819362344, 2226544653, 1583404969, 1379986690, 3001854361, 1337334954, 2802202289, 2766656340, 1832017438, 4130545612, 3941452530, 3382252626, 2357195234, 4230253173, 1242818200, 499847028, 1301614517, 1006200894, 4002752826, 3067188980, 1147552077, 3342538476, 2597609637, 3058657308, 1575880917, 2321938014, 4283740884, 3491479169, 318038463, 3547466060, 1343508813, 1893844767, 918078906, 2344475227, 1637523057, 3476996900, 1508399345, 19652150, 1180000195, 3919888595, 3658360678, 4031492716, 2351062734, 1721515569, 2329049948, 3611899438, 3079015883, 274670430, 2933208118, 3915309787, 1618554627, 410537773, 3276615345, 4246678944, 3791612407, 2399065189, 1991744175, 3385328927, 3999093410, 671250782, 353548654, 3880552541, 327293444, 3151868795, 3687983711, 2524830838, 2725256470, 1098725519, 1167750619, 1616168987, 3091683942, 1125698619, 3762049479, 3355795976, 3581226450, 755636410, 541736364, 2075720334, 1324359605, 3941980676, 1228825381, 2898833419, 863839323, 1631673787, 2194216872, 416903353, 1894746989, 576764193, 4182011458, 1285190251, 2777129480, 3668853639, 3845390169, 340672569, 3314817395, 1400036726, 1494644273, 3726187304, 1214279464, 481181622, 3209354099, 3337184531, 2369437982, 427259246, 2137181143, 3635854300, 910147767, 664674860, 2162541115, 1272714982, 3874031525, 3156720595, 1154746662, 537800565, 3077371618, 397737011, 948786116, 669327920, 4142632123, 667384971, 806850082, 1766294121, 1285185195, 954449668, 1726937696, 412886448, 2336494773, 2251836173, 3698060096, 842705590, 1902198906, 298803555, 2642288489, 3254552180, 2466505958, 2404263774, 2263949802, 685201760, 3005098399, 2748891898, 833644971, 517309306, 980070889, 80529453, 2097347625, 322558113, 691451493, 2143490646, 757774907, 3058471042, 2421893213, 4194536263, 4020010689, 2644387379, 3752297275, 58523004, 2490777436, 3038914495, 2133120163, 3264882793, 1495332947, 3394696468, 1446331691, 3195207882, 2847595213, 1472243709, 2210536820, 3323319286, 99898246, 3957761638, 106691476, 2262593486, 751183873, 2529963626, 1634630013, 2274656886, 377336657, 1059960294, 1331631207, 2012213794, 160849348, 3228402990, 3768394465, 1466579901, 3732366072, 3884340411, 168949505, 3940036943, 608591389, 594678504, 4063566865, 508528200, 2726218048, 715574922, 208875644, 3635602567, 1134049854, 1965023806, 2754586105, 1109548745, 1366735697, 3511475780, 1689685674, 2294538086, 1658728665, 2842520130, 3023857867, 2904351421, 2205800877, 68610394, 3017952517, 2417223739]

/-- Tempered output words 0..623 for seed 99. -/
def mtT1of99 : List Nat := [1735072617, 1635320116, 859317502, 2574571355, 767950141, 988970880, 1067004398, 572280320, 3263648760, 371851742, 1078685359, 3131164401, 1645262724, 2279822770, 2939083229, 3008573902, 2313394522, 385843939, 4030297890, 2679714516, 2101419947, 856709066, 1810926946, 3101935391, 2633742915, 2527189548, 930686387, 3404251255, 3874057541, 3385791885, 1606230926, 3531860794, 1666927681, 3700080827, 2930751749, 913070797, 654022735, 1982055645, 2837117532, 768803272, 3650581304, 2434881413, 1455163851, 356334143, 4066728729, 3078117160, 2270818643, 2909314296, 3326338643, 377107664, 2014507376, 1358836353, 1729251472, 183186681, 1157060813, 2396385334, 32726782, 1826245835, 875161500, 1557060727, 4250170642, 4007784992, 2294844113, 347103918, 1984647192, 2227606160, 3866511089, 850746677, 2600641901, 1987283302, 4194945606, 220408281, 1535557871, 554650892, 926954023, 4090636090, 3954652237, 3071521991, 690682099, 3210523715, 3400923076, 1897149841, 2557298754, 3972187486, 4221472218, 762895435, 4054065125, 2161207983, 2835965429, 756012761, 159180812, 471554866, 100089274, 735243548, 2034641460, 2937176551, 3520447535, 1799690550, 348580190, 4023020602, 1827165979, 2714482467, 369448323, 613800471, 1330610608, 2651673637, 24343647, 1636646723, 1416040795, 583325775, 2247994820, 1740880382, 862405428, 3865342339, 3381066399, 4182570672, 237940776, 2750641679, 908107196, 1902553589, 1106282972, 2342779776, 1735457400, 3543922720, 3280474243, 542672983, 1519596022, 4043077978, 2984997576, 2045020196, 3960816233, 239735157, 562326942, 3172065615, 3710548734, 3085348069, 2575554585, 3345530543, 3209291095, 646134986, 2611488556, 4042523761, 1753632834, 534151989, 414392414, 509876070, 617025352, 1271197856, 747904421, 4256834768, 762981650, 1760397859, 624966909, 3969124863, 891546381, 3781421006, 2409329473, 1370551832, 3309560726, 2143762201, 3427236164, 1004618848, 3634081018, 1106377776, 503427151, 3684506826, 3531959755, 1553500816, 798657483, 2913382227, 310910286, 2152778680, 1235723455, 47882419, 2515530277, 3575790296, 204773930, 1449272069, 929096601, 1619092163, 1714125045, 1446347322, 3532039847, 3489111104, 1715453435, 1657599600, 1778396517, 3494765994, 1593332453, 2295092627, 397990184, 778357358, 3777717369, 161458567, 3964410120, 1602003912, 3099506146, 3681394494, 1711887614, 3310653661, 1906852892, 988743558, 1337533390, 3666106931, 2810343449, 970859464, 2806175507, 3092233689, 1334259143, 454187274, 3754789915, 2954429417, 3095491352, 1348331442, 938896856, 3281326129, 3475804919, 3056067414, 2896082496, 3056367197, 1072541715, 1647354355, 1272928409, 1881734117, 3227694756, 4119268255, 344143221, 3790404856, 1880404732, 1808650068, 4139518023, 3898358563, 1100424496, 299258889, 2161015639, 1258553349, 3896418592, 2941227098, 3756348553, 1376948231, 3385311093, 2049121982, 2290266080, 546665241, 3993592663, 3848348058, 1103101181, 1850795605, 3786352432, 1249330200, 1758069520, 4158018380, 2827022311, 3549015518, 2624240653, 684702919, 1212429995, 1627615195, 2913029095, 2913492058, 2595347624, 3705297335, 4240388800, 2657134565, 2863805580, 3070153092, 1890015443, 835250493, 1631333944, 1446747185, 3811701237, 848930240, 1483406943, 18516967, 2865006517, 1525955479, 2982156824, 1268738835, 4143129433, 3652680161, 830118163, 3828228726, 2856202307, 2868251449, 737269053, 3390844579, 2749055596, 1120914063, 2822509010, 1789767500, 3191230008, 3232610609, 3720626574, 3033363847, 993153649, 1753402537, 3695842564, 3701198358, 1484067370, 2819887960, 1717560104, 15540342, 482462934, 2154597176, 2283842148, 869721873, 5551098, 2242403016, 1333736758, 4079800191, 2887508730, 4201766149, 3210680604, 4253969137, 718804273, 2195226332, 3370997708, 3460850345, 1907467251, 4007597907, 881742024, 1133469944, 3215113427, 3656959359, 3173660743, 1790302121, 2010149837, 2406784561, 2280761005, 2688549441, 2662036941, 3297939495, 2713110208, 3567104557, 3285828683, 2602484099, 3302555940, 1234818800, 860215831, 3174987258, 88552602, 4292985909, 451622319, 3463361493, 1320707097, 324576987, 2493275703, 137270904, 4128055915, 250449297, 1790026191, 1287289579, 1585815592, 4169599864, 2393279145, 2690366077, 4072972551, 3053360515, 2525489538, 2469230317, 1267756385, 833240321, 3249844665, 429975588, 4259838331, 3709600021, 3408569093, 1695056272, 1711314855, 3389795944, 739820735, 1137315515, 1979216695, 1413288224, 551768660, 3770434919, 561196004, 3873062386, 1917911143, 3727707016, 3651677406, 2983454557, 3014383022, 1670837963, 1795996588, 2413268768, 4098822600, 3071089591, 768086455, 1545497473, 1074462052, 891684657, 1175008416, 1989266079, 2459571690, 3626438291, 3821506142, 3005410128, 1643487550, 788833451, 3550500848, 3919916705, 4024161139, 4286974277, 2058034479, 2460146674, 3835102643, 2688011625, 3819368933, 3934176259, 2045922117, 2856205373, 727918189, 4210938429, 321028921, 2283477624, 1028958292, 4282875190, 1975135515, 2247019178, 66198243, 493351488, 1416249905, 3419929504, 2122245828, 309856960, 1442039169, 2813986875, 3151336074, 16924529, 2446490440, 2923281767, 2289269270, 1182630847, 2720894147, 51565667, 2503726914, 1370461405, 1777853920, 1123294482, 712896841, 584770149, 2526054586, 3951345129, 203961341, 1706230883, 155227210, 205111969, 1470552734, 2196172007, 987652902, 2384848273, 3244929252, 1254798800, 680824172, 3598468901, 1885838821, 246988961, 2987310043, 3328732406, 1794081827, 986125243, 3458970497, 809505281, 503229870, 2081605598, 738033917, 1171673253, 1183224478, 2821098141, 1568387718, 303419659, 2403897327, 3946245994, 851434012, 3331129655, 2400888493, 745778332, 3014291609, 1519054329, 2802889490, 4122996135, 3501267846, 2297603404, 349880946, 3192981795, 2911447521, 487757268, 3112768597, 539877158, 3543660517, 588209818, 645093825, 2342145071, 371551275, 142095799, 3260668869, 2202171859, 2777178260, 1628845545, 715386332, 1520025871, 3740367459, 3359872707, 3079242971, 994527627, 2641336207, 2612478143, 3266554315, 4160224494, 2624598754, 691956989, 1460683541, 3320760466, 226823836, 3835768812, 1470606031, 3476467262, 2684621239, 1873192509, 807411844, 1320553644, 771270435, 3173335835, 477324837, 629495081, 2132697880, 2761237892, 4151690013, 2238714548, 3138297984, 3993444391, 53848109, 992542508, 1618502051, 3937681987, 2929691352, 3407114526, 416467284, 3361945514, 3413880220, 4251503836, 1010838160, 2434164835, 1906316824, 3148225334, 3405632058, 2587525347, 3754644200, 3823890143, 344365509, 3764264265, 3510129956, 693350185, 3759955691, 3823803793, 3601660527, 714995029, 3324498356, 1906652246, 1602520877, 1086636096, 1346027098, 2531009549, 195853058, 2509738389, 1703068554, 87532478, 1291228853, 4074162576, 682160897, 570140809, 4052918015, 48488341, 3783677163, 1226832565, 3477562357, 2388013597, 1270158865, 1245979942, 530878931, 2115028175, 1836083201, 3442928481, 310529288, 173064475, 1519310518, 704179414, 2604810582, 2935841383, 1362904475, 3636037023, 1436814318, 2851818904, 1404260520, 3459547098, 3560727219, 4160717643, 148463338, 1617723359, 3495627457, 1162536974, 2621101043, 973390414, 2353540594, 647454389, 2979124063, 2896453689, 79634863, 3280070639, 3706970212, 4032228349, 1240276262, 3173762224, 1716028164, 1800021405, 2200192577, 3073532980, 3870803791, 3327497447, 978519726, 747988359, 2251075954, 1744958591]

/-- Tempered output words 624..1247 for seed 99. -/
def mtT2of99 : List Nat := [4259065050, 234387308, 911232692, 1038373646, 2782305642, 1115861608, 703667803, 3623036636, 2436025404, 403540107, 1867071194, 18549635, 2429068610, 4052751830, 123329897, 3597700152, 867738507, 565884480, 3867920321, 4094678006, 772010025, 2702653055, 1290514673, 263159619, 4248589460, 3780253504, 1093493873, 786993175, 2490025275, 3282212652, 1849536791, 639291195, 13828233, 4005777682, 2764117178, 152902588, 2160274426, 1700057488, 4024144454, 4259499987, 4194719377, 1916608873, 317923298, 711402127, 2526419652, 1002086331, 1465950593, 1866876238, 567314709, 2053732211, 3938174430, 2629473779, 390816365, 1587312519, 2155911792, 686673933, 999098998, 3150936433, 2460508850, 2081513298, 895065052, 3072914979, 3671059927, 431459321, 1874051647, 2625880477, 866192252, 3892222904, 3438746906, 745512754, 578161932, 2041903061, 3170339207, 3854360204, 1066955590, 740362341, 3611642935, 2948499520, 1101782397, 720879723, 2798055387, 2215455573, 2887300842, 3439151230, 2166816331, 3938824340, 3739488580, 3653160569, 2333118014, 331780818, 1008200646, 1032960752, 2252668232, 973991641, 2951061617, 3027911847, 1808169282, 1698359890, 2252164546, 2411205540, 311309057, 1037757953, 1075878077, 1391723064, 3294749611, 2424894268, 1435331104, 2128998760, 812129983, 416775292, 3407892564, 2696630271, 127131770, 4051464286, 164239473, 1875860531, 266946986, 1353735371, 814426416, 3973739913, 214630204, 2847738635, 1257795741, 795073133, 1152024139, 3866448617, 3964800180, 2885623126, 1094857334, 43535494, 2479287722, 2277683215, 1268442827, 842844438, 3116819728, 1565686984, 489953560, 684169102, 1479912662, 1671765436, 611141606, 2991848965, 1310221396, 2280009986, 1118315482, 850892369, 1943016890, 239466472, 4052511203, 4116056767, 116899477, 1524495730, 994713683, 606175943, 2612485297, 336381434, 3585539114, 3698624786, 1630323741, 77564864, 1541192960, 4043121772, 1365695296, 3821871640, 1611756579, 1052083333, 2312044690, 659016743, 3349203845, 318090145, 92498444, 124764145, 755666725, 910008258, 953994504, 1475580468, 2666017744, 1099165379, 3266488486, 4043338834, 302617361, 2770298168, 3190053, 1864254151, 489470881, 2823887867, 1871950365, 347740907, 2971581464, 3625036274, 4177539226, 3122252761, 1588130690, 2135325640, 1819989860, 2398090451, 3762737733, 1614246590, 3297136050, 2401800324, 3883973571, 2768627085, 1128818143, 1404800972, 3058339793, 1481215310, 3472049686, 501172813, 1173690378, 2281352824, 1045716987, 276697930, 3995699550, 142724138, 943630788, 1147012052, 1400428738, 2666826328, 440099242, 1163855202, 3763687570, 1317753335, 2668669057, 2683781529, 1044124315, 913302849, 1899513337, 2856822601, 1909988926, 2241975797, 72402352, 2585241657, 3194187047, 1124954198, 333445884, 3335978386, 1646791558, 523770423, 3168429682, 76023760, 1212462648, 2122511871, 3283791005, 4045209409, 3874483773, 3466206988, 3023433048, 1896488070, 1828878897, 3410285835, 3992091848, 3240978611, 1378250570, 2188945830, 4279386643, 1010094577, 2598338174, 2979280762, 2296025875, 3962508029, 3743181413, 3722576012, 454582851, 3934774066, 1230658823, 1711012730, 3329213015, 895129332, 292578796, 2538452561, 3974056795, 1201651373, 1948931206, 3189869651, 2104893399, 1453802165, 4278294483, 2557038424, 365588841, 2991550666, 85201307, 204244285, 2418511869, 359120492, 2724048206, 557058769, 3704199034, 1761022288, 826234005, 1818344934, 3793281110, 2847604811, 2824706233, 2518209605, 2485644362, 76082887, 84144312, 521252238, 3433149310, 1376207524, 936594289, 874789011, 2868036041, 2749487457, 4266214790, 459218622, 54632279, 4283344836, 1845612613, 3566350646, 4031129493, 3774265555, 1232143225, 786654022, 3598776835, 579116585, 3517376023, 3323959810, 2966610843, 1231973886, 4287731258, 761229515, 3030801744, 1784006313, 449611620, 1330426251, 3615946516, 793414552, 3228771658, 1798035397, 1658514235, 2713604483, 413553202, 333666796, 1155259717, 4074203088, 2260814203, 1305193229, 1074561665, 3645884577, 4237811586, 3123365955, 679921935, 3233811579, 1177364778, 3125061442, 531032806, 150866373, 3215048985, 2598035940, 3557971034, 299954333, 1077231836, 2033510436, 1680006996, 551607308, 3815751884, 1248793873, 2567247661, 2080260377, 934182222, 3633716711, 4281263928, 3701481397, 3305481047, 2154398694, 1316974115, 3558217003, 1923616199, 1083545890, 2147932887, 1086452077, 2725235961, 791852724, 1973310195, 1216461436, 640022536, 817439167, 1413553310, 2192125553, 552983407, 3444453860, 2158185231, 987642830, 2635618915, 1524975682, 2585012824, 2216400595, 303104788, 974076896, 2387080463, 1868410337, 3355896637, 620978695, 2460637585, 1441206, 1450665988, 3113499681, 3373291026, 3150896920, 1716053234, 2494173975, 3407761940, 353685933, 45285483, 1812871362, 379774472, 1828617315, 1966661174, 458091814, 359313098, 20588478, 837959195, 3733881314, 4008145034, 378316348, 3335832505, 1038086558, 1282988009, 823203306, 491912577, 629638734, 3141319940, 1107306480, 3041154381, 1333612347, 744029682, 3548545141, 2383584400, 2906012894, 2753729559, 815858414, 382241463, 2647494909, 479144330, 1390011847, 107984527, 4147697454, 3597102555, 936370693, 1278917805, 1737390190, 1437860906, 2164386279, 183910431, 1902698938, 2786235558, 4150349604, 1074209275, 2059527037, 2328994780, 2648037310, 1500848383, 937276141, 1495109186, 561428459, 184755027, 3019634678, 1396239812, 2988265533, 3919877369, 2376460526, 4051111547, 2891544882, 3925311337, 994476564, 3654247529, 896356452, 3483072954, 3432712633, 2697508154, 2246793451, 2597857551, 1823882465, 3085321534, 2045284407, 4125452643, 702635829, 2593027894, 1492718870, 2393941945, 758680012, 3128834706, 2224332295, 3629016798, 3430810555, 2293085148, 1317535448, 88236347, 70503453, 2602284400, 2549020612, 1477641837, 656352858, 551097673, 1873096313, 196675684, 293350728, 2293232311, 1372517189, 4101848400, 2893142201, 2396874571, 1257964145, 3582033478, 1558744651, 742977762, 2377549504, 1412634483, 2976575697, 4102769799, 3320417163, 2958101052, 431728849, 3121171140, 2358786214, 1269527396, 141405072, 2868849520, 3900096501, 1473874933, 1819501688, 853251251, 2730362251, 676776754, 172915747, 753927744, 2700375185, 397169029, 2039448311, 1679363276, 1841401108, 3725982678, 2336935115, 2339880765, 1629793210, 1600415462, 2543124945, 2755348409, 3576609615, 3960884152, 1620616517, 1112243392, 451352758, 3944865378, 875226862, 4216716879, 3342842709, 1510715212, 578162582, 271075920, 1124137250, 2925012528, 423500677, 3947335918, 19268605, 1579375102, 1676927846, 1346098237, 2548751822, 1017448005, 2549513453, 533541067, 2595946392, 2852364750, 4194826742, 1242571215, 4269080062, 4008234657, 1185990359, 1751596704, 3844625510, 553767436, 579335019, 2864703916, 3808731755, 4215902532, 3613540017, 556826619, 1233323308, 4166440217, 3013060183, 2841071166, 3364128482, 3297362918, 3681589171, 4060756016, 116269917, 2354122099, 2181198032, 2297995067, 1126390036, 611672210, 1060618579, 1766533527, 2248975225, 2372570446, 551206087, 1138668360, 1302691232, 1864929052, 3189638957, 1648824867, 397155923, 3597596546, 4142901096, 1484434436, 126203834, 3849348325, 2112954046, 981280786, 2053522459, 2797010475, 284734817, 2146571015, 3778345424, 1295023827, 1037966872, 3347897509, 2179559899, 4246981598, 162540395, 544882514, 1948775759]

/-! Evidence retrieval tools (`src/agents/tools.py`). -/

/-- Modelled rendering of `datetime.isoformat()` for prompt text: an
injective rational rendering, since no claim depends on the textual form of
a timestamp. -/
def isoTs (q : ℚ) : String := toString q.num ++ "m/" ++ toString q.den

/-- Python truthiness of an optional string (`if service:`): false for
`None` and for the empty string. -/
def pyTruthyStr : Option String → Bool
  | none => false
  | some s => s != ""

/-- Case-sensitive substring containment (Python `in` on strings). -/
def containsSubstr (hay needle : String) : Bool :=
  decide (needle.toList <:+: hay.toList)

/-- Python `str.upper()` over the character list (basic-latin case mapping,
as `Char.toUpper` performs). -/
def strUpper (s : String) : String := ⟨s.data.map Char.toUpper⟩

/-- Python `str.lower()` over the character list. -/
def strLower (s : String) : String := ⟨s.data.map Char.toLower⟩

/-- The filtering-and-truncation core of `search_logs`: the sequential
optional filters from the source, then `entries[:limit]`. -/
def searchLogsEntries (md : MockDataSet) (service level : Option String)
    (time_start time_end : Option ℚ) (keyword : Option String) (limit : Nat) :
    List LogEntry :=
  let e0 := md.logs
  let e1 := if pyTruthyStr service then
      e0.filter (fun e => e.service.value == service.getD "") else e0
  let e2 := if pyTruthyStr level then
      e1.filter (fun e => e.level == strUpper (level.getD "")) else e1
  let e3 := match time_start with
    | some t => e2.filter (fun (e : LogEntry) => decide (t ≤ e.timestamp))
    | none => e2
  let e4 := match time_end with
    | some t => e3.filter (fun (e : LogEntry) => decide (e.timestamp ≤ t))
    | none => e3
  let e5 := if pyTruthyStr keyword then
      let kw := strLower (keyword.getD "")
      e4.filter (fun e => containsSubstr (strLower e.message) kw ||
        (match e.stack_trace with
         | some st => if st == "" then false else containsSubstr (strLower st) kw
         | none => false))
    else e4
  e5.take limit

/-- One formatted log line of `search_logs`, with Python truthiness on the
optional trace id and stack trace and the 300-character stack truncation. -/
def fmtLogLine (e : LogEntry) : String :=
  let line := "[" ++ isoTs e.timestamp ++ "] [" ++ e.service.value ++ "] " ++
    e.level ++ ": " ++ e.message
  let line2 := match e.trace_id with
    | some tid => if tid == "" then line else line ++ " (trace_id=" ++ tid ++ ")"
    | none => line
  match e.stack_trace with
  | some st => if st == "" then line2 else line2 ++ "\n  Stack: " ++ st.take 300
  | none => line2

/-- The sentinel `search_logs` returns when nothing matches. -/
def noLogsSentinel : String := "No log entries found matching the given filters."

/-- The function `search_logs` from `src/agents/tools.py`: filter, truncate to `limit`
(default 50 at call sites), and format; the sentinel when empty. -/
def search_logs (md : MockDataSet) (service level : Option String)
    (time_start time_end : Option ℚ) (keyword : Option String) (limit : Nat) :
    String :=
  let entries := searchLogsEntries md service level time_start time_end keyword limit
  if entries.isEmpty then noLogsSentinel
  else "Found " ++ toString entries.length ++ " log entries:\n\n" ++
    String.intercalate "\n\n" (entries.map fmtLogLine)

/-! The shared token-bucket rate limiter (`src/core/rate_limiter.py`).
Wall-clock instants from `time.monotonic()` are rationals in seconds. -/

structure TokenBucketRateLimiter where
  requests_per_minute : Nat
  burst_size : Nat
  tokens : ℚ
  last_refill : ℚ

namespace TokenBucketRateLimiter

/-- Construction plus `__post_init__`: the bucket starts with exactly
`burst_size` tokens and the current instant as the last refill. -/
def init (rpm burst : Nat) (now : ℚ) : TokenBucketRateLimiter :=
  ⟨rpm, burst, (burst : ℚ), now⟩

/-- The `_refill` rule: `tokens = min(tokens + elapsed * rpm / 60, burst)`
and `last_refill` advances to now, unconditionally. -/
def refill (l : TokenBucketRateLimiter) (now : ℚ) : TokenBucketRateLimiter :=
  { l with
    tokens := min (l.tokens + (now - l.last_refill) * ((l.requests_per_minute : ℚ) / 60))
      ((l.burst_size : ℚ)),
    last_refill := now }

/-- One attempt of `acquire` at a given instant: recompute the refill; if at
least one token is available, deduct exactly one and succeed, else report
that the caller must keep waiting (the `while` loop sleeps and retries). -/
def acquireAt (l : TokenBucketRateLimiter) (now : ℚ) : Option TokenBucketRateLimiter :=
  let l2 := refill l now
  if 1 ≤ l2.tokens then some { l2 with tokens := l2.tokens - 1 } else none

/-- An externally observable operation on the limiter state: a refill
computation (as `tokens_remaining` performs) or an `acquire` attempt at an
instant.  A failed attempt leaves the refilled state (the attempt refilled,
found fewer than 1.0 tokens, and went to sleep). -/
inductive Op
  | refillAt (now : ℚ)
  | acquire (now : ℚ)

/-- Applies one operation. -/
def step (l : TokenBucketRateLimiter) : Op → TokenBucketRateLimiter
  | .refillAt t => refill l t
  | .acquire t =>
    match acquireAt l t with
    | some l2 => l2
    | none => refill l t

end TokenBucketRateLimiter

/-! Configuration (`src/core/config.py`) and workflow state
(`src/core/state.py`). -/

/-- The settings record, with the environment-variable fields of
`src/core/config.py`. -/
structure Settings where
  groq_api_key : String
  groq_model : String
  groq_temperature : ℚ
  groq_max_tokens : Nat
  rate_limit_requests_per_minute : Nat
  rate_limit_burst_size : Nat
  investigation_time_window_minutes : Nat
  max_investigation_duration_seconds : Nat
  confidence_threshold_for_action : ℚ
  database_url : String
  api_host : String
  api_port : Nat
  github_token : String
  github_rollback_repo : String
  github_rollback_workflow : String

/-- The literal defaults of `src/core/config.py`. -/
def defaultSettings : Settings :=
  ⟨"", "llama-3.3-70b-versatile", 1/10, 4096, 30, 5, 60, 300, 7/10,
    "sqlite+aiosqlite:///./sfa.db", "0.0.0.0", 8000, "", "", "rollback.yml"⟩

/-- The LangGraph investigation state (`src/core/state.py`).  The three list
fields use an additive merge; `confidence` is read with default 0.0 by the
consumers, modelled as an always-present field. -/
structure InvestigationState where
  alert : Alert
  mock_data : MockDataSet
  status : InvestigationStatus
  plan : Option InvestigationPlan
  root_cause : Option String
  recommendation : Option String
  confidence : ℚ
  findings : List AgentFinding
  agent_errors : List String
  reasoning_trace : List String
  report : Option RCAReport
  remediation_action : Option String
  iteration : Nat

/-- The partial state delta a LangGraph node returns: optional overwrites
plus additive list contributions. -/
structure NodeUpdate where
  status : Option InvestigationStatus
  findings : List AgentFinding
  agent_errors : List String
  reasoning_trace : List String
  report : Option RCAReport

/-- LangGraph's merge of a node's delta into the state: `operator.add` on
the three list fields, last-writer-wins on the rest. -/
def applyUpdate (st : InvestigationState) (u : NodeUpdate) : InvestigationState :=
  { st with
    status := u.status.getD st.status,
    findings := st.findings ++ u.findings,
    agent_errors := st.agent_errors ++ u.agent_errors,
    reasoning_trace := st.reasoning_trace ++ u.reasoning_trace,
    report := match u.report with | some r => some r | none => st.report }

/-! Report formatting filters (`src/reports/generator.py`) and the shared
percent rendering also used in commander trace strings.  Python float
formatting is modelled over exact rationals with round-half-even, the
rounding used by `format`; the deviations representable only in binary64
noise do not affect any rendered value below. -/

/-- Round to the nearest integer, ties to even (the rounding of Python's
`format` on floats). -/
def roundHalfEven (q : ℚ) : ℤ :=
  let f := ⌊q⌋
  let r := q - (f : ℚ)
  if r < 1/2 then f
  else if 1/2 < r then f + 1
  else if f % 2 = 0 then f else f + 1

/-- Python `f"{q:.0f}"`. -/
def fmt0 (q : ℚ) : String := toString (roundHalfEven q)

/-- Python `f"{q:.1f}"`. -/
def fmt1 (q : ℚ) : String :=
  let n := roundHalfEven (q * 10)
  (if n < 0 then "-" else "") ++ toString (n.natAbs / 10) ++ "." ++ toString (n.natAbs % 10)

/-- Python `f"{q:.0%}"`. -/
def fmtPct (q : ℚ) : String := fmt0 (q * 100) ++ "%"

/-- A dynamic value reaching the report formatters, classified by how
`float(value)` treats it: absent (`None`), numeric (floats, ints, numeric
strings — carried as the exact rational), or non-convertible (carried as
its `str(value)` text, the form the formatter falls back to). -/
inductive PyVal
  | vNone
  | vNum (q : ℚ)
  | vStr (s : String)

/-- The function `_fmt_percent` from `src/reports/generator.py`. -/
def fmt_percent (v : PyVal) : String :=
  match v with
  | .vNone => "N/A"
  | .vNum q => fmtPct q
  | .vStr s => s

/-- The function `_fmt_duration` from `src/reports/generator.py`. -/
def fmt_duration (v : PyVal) : String :=
  match v with
  | .vNone => "N/A"
  | .vNum q =>
    if q < 60 then fmt1 q ++ "s"
    else toString ⌊q / 60⌋ ++ "m " ++ fmt0 (q - 60 * (⌊q / 60⌋ : ℚ)) ++ "s"
  | .vStr s => s

/-! The commander orchestrator (`src/agents/commander.py`): the routing
decision and the terminal report step. -/

/-- The function `should_act_or_report`: routes to "act" exactly when the accumulated
confidence reaches the configured threshold (read from the process-wide
settings, here an explicit parameter). -/
def should_act_or_report (settings : Settings) (state : InvestigationState) : String :=
  if state.confidence ≥ settings.confidence_threshold_for_action then "act" else "report"

/-- The function `report_node`: wraps every reasoning-trace entry into a `TimelineEvent`
stamped with the report-assembly wall-clock time, assembles the final
`RCAReport` (fresh investigation id, status completed by construction), and
returns it with a reporting-status delta and one trace line.  `nowTime` is
the ambient `datetime.utcnow()`; `freshId` is the ambient random token the
`RCAReport` constructor generates. -/
def report_node (nowTime : ℚ) (freshId : String) (state : InvestigationState) : NodeUpdate :=
  let root_cause := state.root_cause.getD "Undetermined"
  let recommendation := state.recommendation.getD ""
  let timeline := state.reasoning_trace.map
    (fun tr => TimelineEvent.mk nowTime tr "reasoning_trace")
  let report : RCAReport := ⟨freshId, state.alert, InvestigationStatus.completed,
    state.plan, state.findings, root_cause, state.confidence, timeline,
    recommendation, state.remediation_action⟩
  ⟨some InvestigationStatus.reporting, [], [],
    ["[Commander] Investigation complete. Root cause: " ++ root_cause.take 100 ++
      ". Confidence: " ++ fmtPct state.confidence ++ ". Report ID: " ++
      report.investigation_id],
    some report⟩

/-! The logs specialist agent (`src/agents/logs_agent.py`).  The two
effectful steps — the shared rate limiter's `acquire` and the LLM call —
appear as `Except`-valued parameters (their exception text on failure);
`parse` abstracts `json.loads` plus dictionary field extraction, returning
`none` exactly when `json.loads` raises `JSONDecodeError`. -/

/-- The recovery value of the agent's outer exception handler: one
zero-confidence finding, one agent-errors entry, one trace line. -/
def logsAgentFallback (e : String) : NodeUpdate :=
  ⟨none,
    [⟨"logs_agent", "Log analysis failed: " ++ e, [], 0, [], none⟩],
    ["logs_agent: " ++ e],
    ["[Logs Agent] FAILED: " ++ e],
    none⟩

/-- The function `logs_agent_node`: gathers evidence, builds the prompt, and (through the
modelled effect outcomes) produces exactly one finding; every failure is
absorbed into `logsAgentFallback`. -/
def logs_agent_node (settings : Settings) (rl : Except String Unit)
    (llm : Except String String) (parse : String → Option LogsReplyJson)
    (state : InvestigationState) : NodeUpdate :=
  let alert := state.alert
  let time_end := alert.timestamp + 10
  let time_start := alert.timestamp - (settings.investigation_time_window_minutes : ℚ)
  let error_logs := search_logs state.mock_data none (some "ERROR")
    (some time_start) (some time_end) none 50
  let warn_logs := search_logs state.mock_data none (some "WARN")
    (some time_start) (some time_end) none 20
  let service_logs := search_logs state.mock_data (some alert.service.value) none
    (some time_start) (some time_end) none 50
  let _user_prompt :=
    "## Incident Context\nAlert: " ++ alert.description ++
    "\nService: " ++ alert.service.value ++
    "\nMetric: " ++ alert.metric ++ " = " ++ isoTs alert.value ++
    " (threshold: " ++ isoTs alert.threshold ++ ")" ++
    "\nAlert Time: " ++ isoTs alert.timestamp ++ "\n" ++
    (match state.plan with
     | some p => "Hypothesis: " ++ p.hypothesis ++ "\n"
     | none => "") ++
    "\n## ERROR Logs (all services)\n" ++ error_logs ++
    "\n\n## WARN Logs\n" ++ warn_logs ++
    "\n\n## All logs for " ++ alert.service.value ++ "\n" ++ service_logs ++
    "\n\nAnalyze these logs. What is the root cause?"
  match rl with
  | .error e => logsAgentFallback e
  | .ok _ =>
    match llm with
    | .error e => logsAgentFallback e
    | .ok content =>
      let data : LogsReplyJson :=
        match parse content with
        | some d => d
        | none => ⟨some (content.take 500), some [content.take 200], some (1/2), some []⟩
      let finding : AgentFinding :=
        ⟨"logs_agent", data.summary.getD "Log analysis completed",
          data.evidence.getD [], data.confidence.getD (1/2), [], some data⟩
      ⟨none, [finding], [], ["[Logs Agent] " ++ finding.summary], none⟩

/-! The repository layer (`src/db/repository.py`): `update_investigation`
over a session modelled as a partial map from ids to records; a record is a
map from attribute names to values of an arbitrary value universe, with
`hasattr` deciding membership in the fixed column set. -/

/-- The mapped attribute names of `InvestigationRecord`
(`src/db/models.py`). -/
def recordFields : List String :=
  ["id", "scenario_type", "alert_data", "status", "plan_data", "findings_data",
   "reasoning_trace", "agent_errors", "root_cause", "confidence", "recommendation",
   "remediation_action", "report_data", "created_at", "completed_at", "duration_seconds"]

/-- The `for key, value in kwargs: if hasattr(record, key): setattr(...)`
loop: applies the recognized keys in order, silently skipping the rest. -/
def setAttrs {V : Type} (r : String → V) (kwargs : List (String × V)) : String → V :=
  kwargs.foldl (fun acc kv =>
    if kv.1 ∈ recordFields then (fun k => if k = kv.1 then kv.2 else acc k) else acc) r

/-- The function `update_investigation`: fetch by id; absent ids yield an absent result
and an unchanged session; present ids get only their recognized attributes
updated, and the new record is committed back under the same id. -/
def update_investigation {V : Type} (db : String → Option (String → V))
    (investigation_id : String) (kwargs : List (String × V)) :
    Option (String → V) × (String → Option (String → V)) :=
  match db investigation_id with
  | none => (none, db)
  | some r =>
    let r2 := setAttrs r kwargs
    (some r2, fun k => if k = investigation_id then some r2 else db k)

/-! Fixtures and claim-level predicates. -/

/-- A degenerate Gaussian abstraction used for concrete instantiations. -/
def gaussZero : RNG.GaussF := fun _ _ => (0, 0)

/-- Erases the auto-generated `alert_id` token from a generator outcome,
leaving every deterministic field intact. -/
def eraseTok (r : Except String MockDataSet) : Except String MockDataSet :=
  r.map (fun ds => { ds with alert := { ds.alert with alert_id := "" } })

/-- Sortedness of all three evidence collections of a dataset. -/
def sortedDS (ds : MockDataSet) : Prop :=
  List.Sorted tsLeL ds.logs ∧ List.Sorted tsLeM ds.metrics ∧ List.Sorted tsLeD ds.deployments

/-- Sortedness of a generator outcome (vacuous on the severity-rejection
error branch). -/
def sortedOutcome (r : Except String MockDataSet) : Prop :=
  match r with
  | .ok ds => sortedDS ds
  | .error _ => True

/-- The combined pass-all-supplied-filters predicate of `search_logs`, with
the level filter exactly as the source computes it: the stored level must
equal the uppercased filter argument. -/
def passesFilters (service level : Option String) (time_start time_end : Option ℚ)
    (keyword : Option String) (e : LogEntry) : Bool :=
  (!pyTruthyStr service || e.service.value == service.getD "") &&
  ((!pyTruthyStr level || e.level == strUpper (level.getD "")) &&
  ((match time_start with | some t => decide (t ≤ e.timestamp) | none => true) &&
  ((match time_end with | some t => decide (e.timestamp ≤ t) | none => true) &&
  (!pyTruthyStr keyword ||
    (containsSubstr (strLower e.message) (strLower (keyword.getD "")) ||
     (match e.stack_trace with
      | some st => if st == "" then false else containsSubstr (strLower st) (strLower (keyword.getD ""))
      | none => false))))))

/-- Fixture alert. -/
def sampleAlert : Alert :=
  ⟨"alert-fixture", ServiceName.checkoutService, "p99_latency_ms", 2000, 500,
    Severity.critical, 0, "Checkout latency spike"⟩

/-- Fixture dataset whose single log entry stores the mixed-case level
"Error". -/
def mixedCaseDS : MockDataSet :=
  ⟨"fixture", [⟨0, ServiceName.checkoutService, "Error", "boom", none, none⟩],
    [], [], sampleAlert⟩

/-- Fixture investigation state. -/
def sampleState : InvestigationState :=
  ⟨sampleAlert, ⟨"fixture", [], [], [], sampleAlert⟩, InvestigationStatus.detecting,
    none, none, none, 0, [], [], [], none, none, 0⟩

/-- Fixture parsed LLM reply whose `relevant_timestamps` array is non-empty. -/
def sampleReply : LogsReplyJson :=
  ⟨some "pool exhaustion", some ["evidence-1"], some (17/20),
    some ["2025-06-15T12:00:00", "2025-06-15T12:01:00"]⟩

/-- The filter pipeline of `search_logs` before truncation, over an
arbitrary entry list (the `let`-free form of the source's sequential
reassignments). -/
def searchStages (service level : Option String) (time_start time_end : Option ℚ)
    (keyword : Option String) (l : List LogEntry) : List LogEntry :=
  let e1 := if pyTruthyStr service then
      l.filter (fun e => e.service.value == service.getD "") else l
  let e2 := if pyTruthyStr level then
      e1.filter (fun e => e.level == strUpper (level.getD "")) else e1
  let e3 := match time_start with
    | some t => e2.filter (fun (e : LogEntry) => decide (t ≤ e.timestamp))
    | none => e2
  let e4 := match time_end with
    | some t => e3.filter (fun (e : LogEntry) => decide (e.timestamp ≤ t))
    | none => e3
  if pyTruthyStr keyword then
    e4.filter (fun e => containsSubstr (strLower e.message) (strLower (keyword.getD "")) ||
      (match e.stack_trace with
       | some st => if st == "" then false
                    else containsSubstr (strLower st) (strLower (keyword.getD ""))
       | none => false))
  else e4

/-! Splitting lemmas for the seeding recursions. -/

namespace MT

/-- Splitting lemma: running `init_genrand` steps in two batches agrees with
running them in one batch. -/
theorem initAux_add (a : Nat) : ∀ (b i : Nat) (acc : List Nat),
    initAux (a + b) i acc = initAux b (i + a) (initAux a i acc) := by
  induction a with
  | zero => intro b i acc; simp [initAux]
  | succ n ih =>
    intro b i acc
    have h1 : n + 1 + b = (n + b) + 1 := by omega
    rw [h1]
    show initAux (n + b + 1) i acc = _
    rw [initAux, ih]
    have h2 : i + 1 + n = i + (n + 1) := by omega
    rw [h2]
    rfl

/-- Splitting lemma: an `init_by_array` sweep can be run in two batches. -/
theorem sweepAux_add (tmul key0 : Nat) (sub : Bool) (a : Nat) :
    ∀ (b i : Nat) (doneRev todo : List Nat),
    sweepAux tmul key0 sub (a + b) i doneRev todo =
      (fun z => sweepAux tmul key0 sub b z.1 z.2.1 z.2.2)
        (sweepAux tmul key0 sub a i doneRev todo) := by
  induction a with
  | zero => intro b i doneRev todo; simp [sweepAux]
  | succ n ih =>
    intro b i doneRev todo
    have h1 : n + 1 + b = (n + b) + 1 := by omega
    rw [h1]
    show sweepAux tmul key0 sub (n + b + 1) i doneRev todo = _
    cases todo with
    | nil => cases b <;> rfl
    | cons old rest =>
      cases rest with
      | nil =>
        simp only [sweepAux]
        rw [ih]
      | cons o2 r2 =>
        simp only [sweepAux]
        rw [ih]

end MT

/-- Kernel computation of the first half of `init_genrand`. -/
theorem mtIA1_eq : MT.initAux 312 1 [u32 19650218] = mtIA1 := by decide

/-- Kernel computation of the second half of `init_genrand`. -/
theorem mtIA2_eq : MT.initAux 311 313 mtIA1 = mtIA2 := by decide

/-- The `init_genrand(19650218)` array, computed. -/
theorem initGenrand_eq : MT.initGenrand 19650218 = mtInitLit := by
  show (MT.initAux 623 1 [u32 19650218]).reverse = mtInitLit
  rw [show (623 : Nat) = 312 + 311 from rfl, MT.initAux_add, mtIA1_eq,
    show (1 : Nat) + 312 = 313 from rfl, mtIA2_eq]
  decide

/-- Pass-one first batch, seed 42. -/
theorem mtZ1A42_eq :
    MT.sweepAux 1664525 42 false 312 1 [mtInitLit.headD 0] mtInitLit.tail = mtZ1A42 := by decide

/-- Pass-one second batch, seed 42. -/
theorem mtZ1B42_eq :
    MT.sweepAux 1664525 42 false 312 mtZ1A42.1 mtZ1A42.2.1 mtZ1A42.2.2 = mtZ1B42 := by decide

/-- Pass one of `init_by_array`, seed 42, assembled from its two batches. -/
theorem pass1_42 : MT.pass1 42 mtInitLit = mtZ1B42 := by
  show MT.sweepAux 1664525 42 false 624 1 [mtInitLit.headD 0] mtInitLit.tail = mtZ1B42
  rw [show (624 : Nat) = 312 + 312 from rfl, MT.sweepAux_add, mtZ1A42_eq]
  exact mtZ1B42_eq

/-- Pass-two first batch, seed 42. -/
theorem mtZ2A42_eq :
    MT.sweepAux 1566083941 42 true 312 mtZ1B42.1 mtZ1B42.2.1 mtZ1B42.2.2 = mtZ2A42 := by decide

/-- Pass-two second batch, seed 42. -/
theorem mtZ2B42_eq :
    MT.sweepAux 1566083941 42 true 311 mtZ2A42.1 mtZ2A42.2.1 mtZ2A42.2.2 = mtZ2B42 := by decide

/-- Pass two of `init_by_array`, seed 42, assembled from its two batches. -/
theorem pass2_42 : MT.pass2 42 mtZ1B42 = mtZ2B42 := by
  show MT.sweepAux 1566083941 42 true 623 mtZ1B42.1 mtZ1B42.2.1 mtZ1B42.2.2 = mtZ2B42
  rw [show (623 : Nat) = 312 + 311 from rfl, MT.sweepAux_add, mtZ2A42_eq]
  exact mtZ2B42_eq

/-- The seeded state array for seed 42. -/
theorem seedMT_42 : MT.seedMT 42 = mtSeed42 := by
  simp only [MT.seedMT, initGenrand_eq, pass1_42, pass2_42]
  decide

/-- First twist for seed 42. -/
theorem twist1_42 : MT.twist mtSeed42 = mtB1of42 := by decide

/-- Second twist for seed 42. -/
theorem twist2_42 : MT.twist mtB1of42 = mtB2of42 := by decide

/-- Tempering of the first block, seed 42. -/
theorem temper1_42 : mtB1of42.map MT.temper = mtT1of42 := by decide

/-- Tempering of the second block, seed 42. -/
theorem temper2_42 : mtB2of42.map MT.temper = mtT2of42 := by decide

/-- The four-block output stream of seed 42: the first 1248 words are the
two tempered literal blocks; the remainder stays symbolic (the scenario
consumes at most 739 words). -/
theorem stream_42 :
    MT.streamWords 42 4 = mtT1of42 ++ (mtT2of42 ++ MT.streamAux 2 mtB2of42) := by
  have h : MT.streamWords 42 4 =
      (MT.twist (MT.seedMT 42)).map MT.temper ++
        ((MT.twist (MT.twist (MT.seedMT 42))).map MT.temper ++
          MT.streamAux 2 (MT.twist (MT.twist (MT.seedMT 42)))) := rfl
  rw [h, seedMT_42, twist1_42, twist2_42, temper1_42, temper2_42]

/-- Pass-one first batch, seed 99. -/
theorem mtZ1A99_eq :
    MT.sweepAux 1664525 99 false 312 1 [mtInitLit.headD 0] mtInitLit.tail = mtZ1A99 := by decide

/-- Pass-one second batch, seed 99. -/
theorem mtZ1B99_eq :
    MT.sweepAux 1664525 99 false 312 mtZ1A99.1 mtZ1A99.2.1 mtZ1A99.2.2 = mtZ1B99 := by decide

/-- Pass one of `init_by_array`, seed 99, assembled from its two batches. -/
theorem pass1_99 : MT.pass1 99 mtInitLit = mtZ1B99 := by
  show MT.sweepAux 1664525 99 false 624 1 [mtInitLit.headD 0] mtInitLit.tail = mtZ1B99
  rw [show (624 : Nat) = 312 + 312 from rfl, MT.sweepAux_add, mtZ1A99_eq]
  exact mtZ1B99_eq

/-- Pass-two first batch, seed 99. -/
theorem mtZ2A99_eq :
    MT.sweepAux 1566083941 99 true 312 mtZ1B99.1 mtZ1B99.2.1 mtZ1B99.2.2 = mtZ2A99 := by decide

/-- Pass-two second batch, seed 99. -/
theorem mtZ2B99_eq :
    MT.sweepAux 1566083941 99 true 311 mtZ2A99.1 mtZ2A99.2.1 mtZ2A99.2.2 = mtZ2B99 := by decide

/-- Pass two of `init_by_array`, seed 99, assembled from its two batches. -/
theorem pass2_99 : MT.pass2 99 mtZ1B99 = mtZ2B99 := by
  show MT.sweepAux 1566083941 99 true 623 mtZ1B99.1 mtZ1B99.2.1 mtZ1B99.2.2 = mtZ2B99
  rw [show (623 : Nat) = 312 + 311 from rfl, MT.sweepAux_add, mtZ2A99_eq]
  exact mtZ2B99_eq

/-- The seeded state array for seed 99. -/
theorem seedMT_99 : MT.seedMT 99 = mtSeed99 := by
  simp only [MT.seedMT, initGenrand_eq, pass1_99, pass2_99]
  decide

/-- First twist for seed 99. -/
theorem twist1_99 : MT.twist mtSeed99 = mtB1of99 := by decide

/-- Second twist for seed 99. -/
theorem twist2_99 : MT.twist mtB1of99 = mtB2of99 := by decide

/-- Tempering of the first block, seed 99. -/
theorem temper1_99 : mtB1of99.map MT.temper = mtT1of99 := by decide

/-- Tempering of the second block, seed 99. -/
theorem temper2_99 : mtB2of99.map MT.temper = mtT2of99 := by decide

/-- The four-block output stream of seed 99: the first 1248 words are the
two tempered literal blocks; the remainder stays symbolic (the scenario
consumes at most 739 words). -/
theorem stream_99 :
    MT.streamWords 99 4 = mtT1of99 ++ (mtT2of99 ++ MT.streamAux 2 mtB2of99) := by
  have h : MT.streamWords 99 4 =
      (MT.twist (MT.seedMT 99)).map MT.temper ++
        ((MT.twist (MT.twist (MT.seedMT 99))).map MT.temper ++
          MT.streamAux 2 (MT.twist (MT.twist (MT.seedMT 99)))) := rfl
  rw [h, seedMT_99, twist1_99, twist2_99, temper1_99, temper2_99]

/-! Consumption lemmas for the latent_config_bug generator at seeds 42 and
99: each phase of the generator maps the word-stream checkpoint at its start
to the checkpoint at its end, independently of the Gaussian abstraction and
the base timestamps.  Phases that draw only Gaussian or uniform values hold
for an arbitrary stream remainder; phases that draw integers pin the
remainder to the symbolic third-and-fourth-block term, which reduction never
needs to force. -/

/-- Deployment-event draws, seed 42. -/
theorem ph42A (dt : ℚ) :
    (LCB.deploy dt ⟨mtT1of42 ++ (mtT2of42 ++ MT.streamAux 2 mtB2of42), none⟩).2 = ⟨mtT1of42.drop 7 ++ (mtT2of42 ++ MT.streamAux 2 mtB2of42), none⟩ := rfl

/-- Baseline draws for the first service, seed 42. -/
theorem ph42B1 (gfn : RNG.GaussF) (ws : ℚ) (svc : ServiceName) (rest : List Nat) :
    (LCB.baseSvc gfn ws svc ⟨mtT1of42.drop 7 ++ (mtT2of42 ++ rest), none⟩).2 = ⟨mtT1of42.drop 107 ++ (mtT2of42 ++ rest), none⟩ := rfl

/-- Baseline draws for the second service, seed 42. -/
theorem ph42B2 (gfn : RNG.GaussF) (ws : ℚ) (svc : ServiceName) (rest : List Nat) :
    (LCB.baseSvc gfn ws svc ⟨mtT1of42.drop 107 ++ (mtT2of42 ++ rest), none⟩).2 = ⟨mtT1of42.drop 207 ++ (mtT2of42 ++ rest), none⟩ := rfl

/-- Baseline draws for the third service, seed 42. -/
theorem ph42B3 (gfn : RNG.GaussF) (ws : ℚ) (svc : ServiceName) (rest : List Nat) :
    (LCB.baseSvc gfn ws svc ⟨mtT1of42.drop 207 ++ (mtT2of42 ++ rest), none⟩).2 = ⟨mtT1of42.drop 307 ++ (mtT2of42 ++ rest), none⟩ := rfl

/-- Spike and error-rate draws, seed 42. -/
theorem ph42C (now : ℚ) (rest : List Nat) :
    (LCB.spike now ⟨mtT1of42.drop 307 ++ (mtT2of42 ++ rest), none⟩).2 = ⟨mtT1of42.drop 327 ++ (mtT2of42 ++ rest), none⟩ := rfl

/-- Baseline-log batch draws, seed 42. -/
theorem ph42D (ws : ℚ) :
    (LCB.normalLogs ws ⟨mtT1of42.drop 327 ++ (mtT2of42 ++ MT.streamAux 2 mtB2of42), none⟩).2 = ⟨mtT1of42.drop 532 ++ (mtT2of42 ++ MT.streamAux 2 mtB2of42), none⟩ := rfl

/-- Baseline-log batch size, seed 42. -/
theorem ph42Dlen (ws : ℚ) :
    (LCB.normalLogs ws ⟨mtT1of42.drop 327 ++ (mtT2of42 ++ MT.streamAux 2 mtB2of42), none⟩).1.length = 41 := rfl

/-- Error-log batch draws, seed 42. -/
theorem ph42E (now : ℚ) :
    (LCB.errLogs now ⟨mtT1of42.drop 532 ++ (mtT2of42 ++ MT.streamAux 2 mtB2of42), none⟩).2 = ⟨mtT1of42.drop 609 ++ (mtT2of42 ++ MT.streamAux 2 mtB2of42), none⟩ := rfl

/-- Error-log batch size, seed 42. -/
theorem ph42Elen (now : ℚ) :
    (LCB.errLogs now ⟨mtT1of42.drop 532 ++ (mtT2of42 ++ MT.streamAux 2 mtB2of42), none⟩).1.length = 20 := rfl

/-- Gateway-log batch size, seed 42. -/
theorem ph42Flen (now : ℚ) :
    (LCB.gwLogs now ⟨mtT1of42.drop 609 ++ (mtT2of42 ++ MT.streamAux 2 mtB2of42), none⟩).1.length = 16 := rfl

/-- Deployment-event draws, seed 99. -/
theorem ph99A (dt : ℚ) :
    (LCB.deploy dt ⟨mtT1of99 ++ (mtT2of99 ++ MT.streamAux 2 mtB2of99), none⟩).2 = ⟨mtT1of99.drop 6 ++ (mtT2of99 ++ MT.streamAux 2 mtB2of99), none⟩ := rfl

/-- Baseline draws for the first service, seed 99. -/
theorem ph99B1 (gfn : RNG.GaussF) (ws : ℚ) (svc : ServiceName) (rest : List Nat) :
    (LCB.baseSvc gfn ws svc ⟨mtT1of99.drop 6 ++ (mtT2of99 ++ rest), none⟩).2 = ⟨mtT1of99.drop 106 ++ (mtT2of99 ++ rest), none⟩ := rfl

/-- Baseline draws for the second service, seed 99. -/
theorem ph99B2 (gfn : RNG.GaussF) (ws : ℚ) (svc : ServiceName) (rest : List Nat) :
    (LCB.baseSvc gfn ws svc ⟨mtT1of99.drop 106 ++ (mtT2of99 ++ rest), none⟩).2 = ⟨mtT1of99.drop 206 ++ (mtT2of99 ++ rest), none⟩ := rfl

/-- Baseline draws for the third service, seed 99. -/
theorem ph99B3 (gfn : RNG.GaussF) (ws : ℚ) (svc : ServiceName) (rest : List Nat) :
    (LCB.baseSvc gfn ws svc ⟨mtT1of99.drop 206 ++ (mtT2of99 ++ rest), none⟩).2 = ⟨mtT1of99.drop 306 ++ (mtT2of99 ++ rest), none⟩ := rfl

/-- Spike and error-rate draws, seed 99. -/
theorem ph99C (now : ℚ) (rest : List Nat) :
    (LCB.spike now ⟨mtT1of99.drop 306 ++ (mtT2of99 ++ rest), none⟩).2 = ⟨mtT1of99.drop 326 ++ (mtT2of99 ++ rest), none⟩ := rfl

/-- Baseline-log batch draws, seed 99. -/
theorem ph99D (ws : ℚ) :
    (LCB.normalLogs ws ⟨mtT1of99.drop 326 ++ (mtT2of99 ++ MT.streamAux 2 mtB2of99), none⟩).2 = ⟨mtT1of99.drop 594 ++ (mtT2of99 ++ MT.streamAux 2 mtB2of99), none⟩ := rfl

/-- Baseline-log batch size, seed 99. -/
theorem ph99Dlen (ws : ℚ) :
    (LCB.normalLogs ws ⟨mtT1of99.drop 326 ++ (mtT2of99 ++ MT.streamAux 2 mtB2of99), none⟩).1.length = 54 := rfl

/-- Error-log batch draws, seed 99. -/
theorem ph99E (now : ℚ) :
    (LCB.errLogs now ⟨mtT1of99.drop 594 ++ (mtT2of99 ++ MT.streamAux 2 mtB2of99), none⟩).2 = ⟨mtT2of99.drop 75 ++ MT.streamAux 2 mtB2of99, none⟩ := rfl

/-- Error-log batch size, seed 99. -/
theorem ph99Elen (now : ℚ) :
    (LCB.errLogs now ⟨mtT1of99.drop 594 ++ (mtT2of99 ++ MT.streamAux 2 mtB2of99), none⟩).1.length = 30 := rfl

/-- Gateway-log batch size, seed 99. -/
theorem ph99Flen (now : ℚ) :
    (LCB.gwLogs now ⟨mtT2of99.drop 75 ++ MT.streamAux 2 mtB2of99, none⟩).1.length = 12 := rfl

/-- Sorting preserves the number of log entries. -/
theorem sortLogs_length (l : List LogEntry) : (sortLogs l).length = l.length :=
  (List.perm_insertionSort tsLeL l).length_eq

/-- The latent_config_bug dataset at seed 42 has exactly 77 log entries,
for every Gaussian abstraction, incident time, and ambient world. -/
theorem lcbLen42 (gfn : RNG.GaussF) (t : ℚ) (w : World) :
    (LCB.generate gfn 42 "critical" (some t) w).toOption.map (fun ds => ds.logs.length)
      = some 77 := by
  have h0 : (LCB.generate gfn 42 "critical" (some t) w).toOption.map (fun ds => ds.logs.length)
      = some ((sortLogs
          ((LCB.normalLogs (t - 30) (LCB.spike t (LCB.baseline gfn (t - 30)
              (LCB.deploy (t - 15) ⟨MT.streamWords 42 4, none⟩).2).2).2).1 ++
           (LCB.errLogs t (LCB.normalLogs (t - 30) (LCB.spike t (LCB.baseline gfn (t - 30)
              (LCB.deploy (t - 15) ⟨MT.streamWords 42 4, none⟩).2).2).2).2).1 ++
           (LCB.gwLogs t (LCB.errLogs t (LCB.normalLogs (t - 30) (LCB.spike t
              (LCB.baseline gfn (t - 30)
              (LCB.deploy (t - 15) ⟨MT.streamWords 42 4, none⟩).2).2).2).2).2).1)).length) := rfl
  rw [h0, sortLogs_length, List.length_append, List.length_append, stream_42, ph42A]
  simp only [LCB.baseline]
  rw [ph42B1, ph42B2, ph42B3, ph42C, ph42D, ph42Dlen, ph42E, ph42Elen, ph42Flen]

/-- The latent_config_bug dataset at seed 99 has exactly 96 log entries,
for every Gaussian abstraction, incident time, and ambient world. -/
theorem lcbLen99 (gfn : RNG.GaussF) (t : ℚ) (w : World) :
    (LCB.generate gfn 99 "critical" (some t) w).toOption.map (fun ds => ds.logs.length)
      = some 96 := by
  have h0 : (LCB.generate gfn 99 "critical" (some t) w).toOption.map (fun ds => ds.logs.length)
      = some ((sortLogs
          ((LCB.normalLogs (t - 30) (LCB.spike t (LCB.baseline gfn (t - 30)
              (LCB.deploy (t - 15) ⟨MT.streamWords 99 4, none⟩).2).2).2).1 ++
           (LCB.errLogs t (LCB.normalLogs (t - 30) (LCB.spike t (LCB.baseline gfn (t - 30)
              (LCB.deploy (t - 15) ⟨MT.streamWords 99 4, none⟩).2).2).2).2).1 ++
           (LCB.gwLogs t (LCB.errLogs t (LCB.normalLogs (t - 30) (LCB.spike t
              (LCB.baseline gfn (t - 30)
              (LCB.deploy (t - 15) ⟨MT.streamWords 99 4, none⟩).2).2).2).2).2).1)).length) := rfl
  rw [h0, sortLogs_length, List.length_append, List.length_append, stream_99, ph99A]
  simp only [LCB.baseline]
  rw [ph99B1, ph99B2, ph99B3, ph99C, ph99D, ph99Dlen, ph99E, ph99Elen, ph99Flen]

/-- A guarded optional filter is a filter by the disjunction with the
guard's negation. -/
theorem opt_filter_eq (b : Bool) (f : LogEntry → Bool) (l : List LogEntry) :
    (if b then l.filter f else l) = l.filter (fun e => !b || f e) := by
  cases b with
  | true => simp
  | false => simp

/-- The `time_start` stage as one total filter. -/
theorem ts_filter_eq (ts : Option ℚ) (l : List LogEntry) :
    (match ts with
      | some t => l.filter (fun (e : LogEntry) => decide (t ≤ e.timestamp))
      | none => l) =
    l.filter (fun e => match ts with
      | some t => decide (t ≤ e.timestamp)
      | none => true) := by
  cases ts with
  | some t => rfl
  | none => simp

/-- The `time_end` stage as one total filter. -/
theorem te_filter_eq (te : Option ℚ) (l : List LogEntry) :
    (match te with
      | some t => l.filter (fun (e : LogEntry) => decide (e.timestamp ≤ t))
      | none => l) =
    l.filter (fun e => match te with
      | some t => decide (e.timestamp ≤ t)
      | none => true) := by
  cases te with
  | some t => rfl
  | none => simp

/-- Reassociation of the five collapsed filter clauses. -/
theorem bool_reorder (a b c d e : Bool) :
    (e && (d && (c && (b && a)))) = (a && (b && (c && (d && e)))) := by
  cases a <;> cases b <;> cases c <;> cases d <;> cases e <;> rfl

/-- The five sequential stages equal one filter by the combined
predicate. -/
theorem searchStages_eq (service level : Option String) (ts te : Option ℚ)
    (kw : Option String) (l : List LogEntry) :
    searchStages service level ts te kw l =
      l.filter (passesFilters service level ts te kw) := by
  unfold searchStages
  rw [opt_filter_eq, opt_filter_eq, ts_filter_eq, te_filter_eq, opt_filter_eq]
  simp only [List.filter_filter]
  exact List.filter_congr (fun a _ => bool_reorder _ _ _ _ _)

/-- The function `searchLogsEntries` is the combined filter followed by truncation. -/
theorem searchLogsEntries_eq (md : MockDataSet) (service level : Option String)
    (ts te : Option ℚ) (kw : Option String) (limit : Nat) :
    searchLogsEntries md service level ts te kw limit =
      (md.logs.filter (passesFilters service level ts te kw)).take limit := by
  have h0 : searchLogsEntries md service level ts te kw limit =
      (searchStages service level ts te kw md.logs).take limit := rfl
  rw [h0, searchStages_eq]

/-- A string that starts with 'F' is not the empty-result sentinel. -/
theorem ne_sentinel_of_head (s : String) (h : s.data.head? = some 'F') :
    s ≠ noLogsSentinel := by
  intro he
  rw [he] at h
  exact absurd h (by decide)

/-- On an empty filter result, `search_logs` returns the sentinel. -/
theorem search_logs_nil_eq (md : MockDataSet) (service level : Option String)
    (ts te : Option ℚ) (kw : Option String) (limit : Nat)
    (h : searchLogsEntries md service level ts te kw limit = []) :
    search_logs md service level ts te kw limit = noLogsSentinel := by
  unfold search_logs
  rw [h]
  rfl

/-- On a non-empty filter result, `search_logs` returns the formatted
listing. -/
theorem search_logs_cons_eq (md : MockDataSet) (service level : Option String)
    (ts te : Option ℚ) (kw : Option String) (limit : Nat) (a : LogEntry)
    (as : List LogEntry)
    (h : searchLogsEntries md service level ts te kw limit = a :: as) :
    search_logs md service level ts te kw limit =
      "Found " ++ toString (a :: as).length ++ " log entries:\n\n" ++
        String.intercalate "\n\n" ((a :: as).map fmtLogLine) := by
  unfold search_logs
  rw [h]
  rfl

/-- Claim C7's counterexample: on a dataset whose only entry stores the
mixed-case level "Error", filtering by level "Error" yields the sentinel
although the entry passes a case-insensitive level match, so the claimed
case-insensitive level semantics (and its sentinel-iff) fail. -/
theorem claim_C7_counterexample :
    ¬ ((search_logs mixedCaseDS none (some "Error") none none none 50 =
          noLogsSentinel) ↔
        mixedCaseDS.logs.filter
          (fun e => strLower e.level == strLower "Error") = []) := by
  decide

/-- Claim C7 as amended: for every dataset, filter combination and positive
limit, `search_logs` keeps exactly the first `limit` entries, in input
order, of those passing all supplied filters — service equality, the level
compared (case-sensitively) against the upper-cased filter argument,
inclusive time bounds, case-insensitive keyword substring match on message
or stack trace — and returns the sentinel exactly when no entry passes. -/
theorem claim_C7 (md : MockDataSet) (service level : Option String)
    (time_start time_end : Option ℚ) (keyword : Option String) (limit : Nat)
    (hl : 0 < limit) :
    searchLogsEntries md service level time_start time_end keyword limit =
      (md.logs.filter (passesFilters service level time_start time_end keyword)).take limit ∧
    (search_logs md service level time_start time_end keyword limit = noLogsSentinel ↔
      md.logs.filter (passesFilters service level time_start time_end keyword) = []) := by
  have hmain := searchLogsEntries_eq md service level time_start time_end keyword limit
  refine ⟨hmain, ?_, ?_⟩
  · intro hs
    cases hF : md.logs.filter (passesFilters service level time_start time_end keyword) with
    | nil => rfl
    | cons a as =>
      exfalso
      obtain ⟨k, rfl⟩ : ∃ k, limit = k + 1 :=
        ⟨limit - 1, (Nat.succ_pred_eq_of_pos hl).symm⟩
      have hE : searchLogsEntries md service level time_start time_end keyword (k + 1) =
          a :: as.take k := by
        rw [hmain, hF]
        rfl
      rw [search_logs_cons_eq md service level time_start time_end keyword (k + 1)
        a (as.take k) hE] at hs
      refine ne_sentinel_of_head _ ?_ hs
      rfl
  · intro hF
    exact search_logs_nil_eq md service level time_start time_end keyword limit
      (by rw [hmain, hF, List.take_nil])

/-- Witness for C7 at the mixed-case fixture with no filters and limit
50. -/
theorem claim_C7_witness :
    0 < 50 ∧
    (searchLogsEntries mixedCaseDS none none none none none 50 =
      (mixedCaseDS.logs.filter (passesFilters none none none none none)).take 50 ∧
    (search_logs mixedCaseDS none none none none none 50 = noLogsSentinel ↔
      mixedCaseDS.logs.filter (passesFilters none none none none none) = [])) :=
  ⟨by decide, claim_C7 mixedCaseDS none none none none none 50 (by decide)⟩

open TokenBucketRateLimiter in
/-- Any single limiter operation leaves at most `burst_size` tokens. -/
theorem tb_step_le (l : TokenBucketRateLimiter) (op : Op) :
    (step l op).tokens ≤ ((step l op).burst_size : ℚ) := by
  cases op with
  | refillAt t => exact min_le_right _ _
  | acquire t =>
    have h2 : (refill l t).tokens ≤ (((refill l t).burst_size : ℚ)) := min_le_right _ _
    by_cases h : 1 ≤ (refill l t).tokens <;>
      simp only [step, acquireAt, h, if_pos, if_neg, not_false_iff]
    · show (refill l t).tokens - 1 ≤ (((refill l t).burst_size : ℚ))
      linarith
    · exact h2

open TokenBucketRateLimiter in
/-- Limiter operations never change the configured burst size. -/
theorem tb_step_burst (l : TokenBucketRateLimiter) (op : Op) :
    (step l op).burst_size = l.burst_size := by
  cases op with
  | refillAt t => rfl
  | acquire t =>
    by_cases h : 1 ≤ (refill l t).tokens <;>
      simp only [step, acquireAt, h, if_pos, if_neg, not_false_iff] <;> rfl

open TokenBucketRateLimiter in
/-- Folding any operation sequence from a state within capacity stays
within capacity. -/
theorem tb_foldl_le (ops : List Op) (l : TokenBucketRateLimiter)
    (h : l.tokens ≤ (l.burst_size : ℚ)) :
    (ops.foldl step l).tokens ≤ (((ops.foldl step l).burst_size : ℚ)) := by
  induction ops generalizing l with
  | nil => exact h
  | cons op rest ih => exact ih (step l op) (tb_step_le l op)

/-- The key-filtering identity of the `hasattr`-guarded update loop. -/
theorem setAttrs_filter {V : Type} (kwargs : List (String × V)) (r : String → V) :
    setAttrs r kwargs =
      setAttrs r (kwargs.filter (fun kv => decide (kv.1 ∈ recordFields))) := by
  induction kwargs generalizing r with
  | nil => rfl
  | cons kv rest ih =>
    by_cases h : kv.1 ∈ recordFields
    · show setAttrs _ rest = setAttrs r (List.filter _ (kv :: rest))
      rw [List.filter_cons_of_pos (by simpa using h)]
      exact ih _
    · show setAttrs _ rest = setAttrs r (List.filter _ (kv :: rest))
      rw [List.filter_cons_of_neg (by simpa using h)]
      show setAttrs (if kv.1 ∈ recordFields then _ else r) rest = _
      rw [if_neg h]
      exact ih r

/-- When no supplied key is a recognized record attribute the update loop
is the identity. -/
theorem setAttrs_noop {V : Type} (kwargs : List (String × V)) (r : String → V)
    (h : ∀ kv ∈ kwargs, kv.1 ∉ recordFields) : setAttrs r kwargs = r := by
  induction kwargs generalizing r with
  | nil => rfl
  | cons kv rest ih =>
    show setAttrs (if kv.1 ∈ recordFields then _ else r) rest = r
    rw [if_neg (h kv (List.mem_cons_self kv rest))]
    exact ih r (fun kv2 h2 => h kv2 (List.mem_cons_of_mem kv h2))

/-- Claim C5: a token bucket built with positive rate and burst starts with
exactly `burst_size` tokens; every refill sets the count to
min(burst, tokens + elapsed · rpm/60) and stamps `last_refill := now`;
after any operation sequence the count never exceeds `burst_size` (whose
value is preserved); and a completed acquire deducts exactly 1.0 token and
only fires when the refilled count is at least 1.0. -/
theorem claim_C5 (rpm burst : Nat) (t0 : ℚ) (hrpm : 0 < rpm) (hburst : 0 < burst) :
    (TokenBucketRateLimiter.init rpm burst t0).tokens = (burst : ℚ) ∧
    (∀ (l : TokenBucketRateLimiter) (now : ℚ),
      (TokenBucketRateLimiter.refill l now).tokens =
        min ((l.burst_size : ℚ))
          (l.tokens + (now - l.last_refill) * ((l.requests_per_minute : ℚ) / 60)) ∧
      (TokenBucketRateLimiter.refill l now).last_refill = now) ∧
    (∀ ops : List TokenBucketRateLimiter.Op,
      (ops.foldl TokenBucketRateLimiter.step (TokenBucketRateLimiter.init rpm burst t0)).tokens
        ≤ (burst : ℚ) ∧
      (ops.foldl TokenBucketRateLimiter.step (TokenBucketRateLimiter.init rpm burst t0)).burst_size
        = burst) ∧
    (∀ (l l2 : TokenBucketRateLimiter) (now : ℚ),
      TokenBucketRateLimiter.acquireAt l now = some l2 →
      l2.tokens = (TokenBucketRateLimiter.refill l now).tokens - 1 ∧
      1 ≤ (TokenBucketRateLimiter.refill l now).tokens) := by
  refine ⟨rfl, fun l now => ⟨min_comm _ _, rfl⟩, fun ops => ?_, fun l l2 now h => ?_⟩
  · have hb : ∀ ops2 : List TokenBucketRateLimiter.Op,
        (ops2.foldl TokenBucketRateLimiter.step
          (TokenBucketRateLimiter.init rpm burst t0)).burst_size = burst := by
      intro ops2
      induction ops2 using List.reverseRecOn with
      | nil => rfl
      | append_singleton rest op ih =>
        rw [List.foldl_append, List.foldl_cons, List.foldl_nil, tb_step_burst]
        exact ih
    refine ⟨?_, hb ops⟩
    have := tb_foldl_le ops (TokenBucketRateLimiter.init rpm burst t0) (le_refl _)
    rwa [hb ops] at this
  · unfold TokenBucketRateLimiter.acquireAt at h
    by_cases h1 : 1 ≤ (TokenBucketRateLimiter.refill l now).tokens
    · rw [if_pos h1] at h
      cases h
      exact ⟨rfl, h1⟩
    · rw [if_neg h1] at h
      cases h

/-- Witness for C5 at rpm 60, burst 5, start instant 0. -/
theorem claim_C5_witness :
    (0 < 60 ∧ 0 < 5) ∧
    ((TokenBucketRateLimiter.init 60 5 0).tokens = ((5 : Nat) : ℚ) ∧
    (∀ (l : TokenBucketRateLimiter) (now : ℚ),
      (TokenBucketRateLimiter.refill l now).tokens =
        min ((l.burst_size : ℚ))
          (l.tokens + (now - l.last_refill) * ((l.requests_per_minute : ℚ) / 60)) ∧
      (TokenBucketRateLimiter.refill l now).last_refill = now) ∧
    (∀ ops : List TokenBucketRateLimiter.Op,
      (ops.foldl TokenBucketRateLimiter.step (TokenBucketRateLimiter.init 60 5 0)).tokens
        ≤ ((5 : Nat) : ℚ) ∧
      (ops.foldl TokenBucketRateLimiter.step (TokenBucketRateLimiter.init 60 5 0)).burst_size
        = 5) ∧
    (∀ (l l2 : TokenBucketRateLimiter) (now : ℚ),
      TokenBucketRateLimiter.acquireAt l now = some l2 →
      l2.tokens = (TokenBucketRateLimiter.refill l now).tokens - 1 ∧
      1 ≤ (TokenBucketRateLimiter.refill l now).tokens)) :=
  ⟨⟨by decide, by decide⟩, claim_C5 60 5 0 (by decide) (by decide)⟩

/-- Claim C8: updating an investigation by id never fails: an absent id
yields an absent result with the session untouched; a present id gets
exactly the recognized fields applied (the update equals the update by the
recognized-field sublist), and a call whose keys are all unrecognized
leaves the record unchanged. -/
theorem claim_C8 {V : Type} (db : String → Option (String → V))
    (investigation_id : String) (kwargs : List (String × V)) :
    (db investigation_id = none →
      update_investigation db investigation_id kwargs = (none, db)) ∧
    (∀ r : String → V, db investigation_id = some r →
      (update_investigation db investigation_id kwargs).1 = some (setAttrs r kwargs) ∧
      setAttrs r kwargs =
        setAttrs r (kwargs.filter (fun kv => decide (kv.1 ∈ recordFields))) ∧
      ((∀ kv ∈ kwargs, kv.1 ∉ recordFields) → setAttrs r kwargs = r)) := by
  constructor
  · intro h
    unfold update_investigation
    rw [h]
  · intro r h
    unfold update_investigation
    rw [h]
    exact ⟨rfl, setAttrs_filter kwargs r, setAttrs_noop kwargs r⟩

/-- Witness for C8 over a one-record string-valued session with one
recognized and one unrecognized key. -/
theorem claim_C8_witness :
    ((fun k => if k = "inv-1" then some (fun _ => "old") else none :
        String → Option (String → String)) "inv-1" = none →
      update_investigation
        (fun k => if k = "inv-1" then some (fun _ => "old") else none)
        "inv-1" [("status", "completed"), ("bogus", "x")] =
        (none, fun k => if k = "inv-1" then some (fun _ => "old") else none)) ∧
    (∀ r : String → String,
      (fun k => if k = "inv-1" then some (fun _ => "old") else none :
        String → Option (String → String)) "inv-1" = some r →
      (update_investigation
        (fun k => if k = "inv-1" then some (fun _ => "old") else none)
        "inv-1" [("status", "completed"), ("bogus", "x")]).1 =
        some (setAttrs r [("status", "completed"), ("bogus", "x")]) ∧
      setAttrs r [("status", "completed"), ("bogus", "x")] =
        setAttrs r ([("status", "completed"), ("bogus", "x")].filter
          (fun kv => decide (kv.1 ∈ recordFields))) ∧
      ((∀ kv ∈ [("status", "completed"), ("bogus", "x")], kv.1 ∉ recordFields) →
        setAttrs r [("status", "completed"), ("bogus", "x")] = r)) :=
  claim_C8 (fun k => if k = "inv-1" then some (fun _ => "old") else none)
    "inv-1" [("status", "completed"), ("bogus", "x")]

/-- Round-half-even is the identity on integers. -/
theorem roundHalfEven_intCast (n : ℤ) : roundHalfEven ((n : ℚ)) = n := by
  unfold roundHalfEven
  rw [Int.floor_intCast]
  norm_num

/-- The `.0f` rendering of an integer is its plain decimal form. -/
theorem fmt0_intCast (n : ℤ) : fmt0 ((n : ℚ)) = toString n := by
  unfold fmt0
  rw [roundHalfEven_intCast]

/-- Claim C9: the report formatting filters — duration renders `None` as
"N/A", values under 60 s with one decimal plus "s" (12.5 s gives "12.5s"),
other values as minutes and whole seconds (125 s gives "2m 5s"; the
boundary 60 s gives "1m 0s"), and non-numeric input as its literal text;
percent renders `None` as "N/A", 0.85 as "85%", and non-numeric input as
its literal text. -/
theorem claim_C9 (s : String) (qlo qhi : ℚ) (hlo : qlo < 60) (hhi : ¬ qhi < 60) :
    fmt_duration PyVal.vNone = "N/A" ∧
    fmt_duration (PyVal.vNum (25/2)) = "12.5s" ∧
    fmt_duration (PyVal.vNum 125) = "2m 5s" ∧
    fmt_duration (PyVal.vNum 60) = "1m 0s" ∧
    fmt_duration (PyVal.vNum qlo) = fmt1 qlo ++ "s" ∧
    fmt_duration (PyVal.vNum qhi) =
      toString ⌊qhi / 60⌋ ++ "m " ++ fmt0 (qhi - 60 * (⌊qhi / 60⌋ : ℚ)) ++ "s" ∧
    fmt_duration (PyVal.vStr s) = s ∧
    fmt_percent PyVal.vNone = "N/A" ∧
    fmt_percent (PyVal.vNum (17/20)) = "85%" ∧
    fmt_percent (PyVal.vStr s) = s := by
  refine ⟨rfl, ?_, ?_, ?_, ?_, ?_, rfl, rfl, ?_, rfl⟩
  · simp only [fmt_duration]
    rw [if_pos (by norm_num : (25/2 : ℚ) < 60)]
    unfold fmt1
    rw [show ((25:ℚ)/2 * 10) = ((125 : ℤ) : ℚ) by norm_num, roundHalfEven_intCast]
    rfl
  · simp only [fmt_duration]
    rw [if_neg (by norm_num : ¬ (125 : ℚ) < 60)]
    have hf : ⌊(125 : ℚ) / 60⌋ = 2 := by
      rw [Int.floor_eq_iff]; norm_num
    rw [hf, show ((125 : ℚ) - 60 * ((2 : ℤ) : ℚ)) = ((5 : ℤ) : ℚ) by norm_num,
      fmt0_intCast]
    rfl
  · simp only [fmt_duration]
    rw [if_neg (by norm_num : ¬ (60 : ℚ) < 60)]
    have hf : ⌊(60 : ℚ) / 60⌋ = 1 := by
      rw [Int.floor_eq_iff]; norm_num
    rw [hf, show ((60 : ℚ) - 60 * ((1 : ℤ) : ℚ)) = ((0 : ℤ) : ℚ) by norm_num,
      fmt0_intCast]
    rfl
  · simp only [fmt_duration]
    rw [if_pos hlo]
  · simp only [fmt_duration]
    rw [if_neg hhi]
  · simp only [fmt_percent, fmtPct]
    rw [show ((17:ℚ)/20 * 100) = ((85 : ℤ) : ℚ) by norm_num, fmt0_intCast]
    rfl

/-- Witness for C9 at qlo = 12.5, qhi = 125, s = "oops". -/
theorem claim_C9_witness :
    ((25/2 : ℚ) < 60 ∧ ¬ (125 : ℚ) < 60) ∧
    (fmt_duration PyVal.vNone = "N/A" ∧
    fmt_duration (PyVal.vNum (25/2)) = "12.5s" ∧
    fmt_duration (PyVal.vNum 125) = "2m 5s" ∧
    fmt_duration (PyVal.vNum 60) = "1m 0s" ∧
    fmt_duration (PyVal.vNum (25/2)) = fmt1 (25/2) ++ "s" ∧
    fmt_duration (PyVal.vNum 125) =
      toString ⌊(125 : ℚ) / 60⌋ ++ "m " ++
        fmt0 ((125 : ℚ) - 60 * (⌊(125 : ℚ) / 60⌋ : ℚ)) ++ "s" ∧
    fmt_duration (PyVal.vStr "oops") = "oops" ∧
    fmt_percent PyVal.vNone = "N/A" ∧
    fmt_percent (PyVal.vNum (17/20)) = "85%" ∧
    fmt_percent (PyVal.vStr "oops") = "oops") :=
  ⟨⟨by norm_num, by norm_num⟩, claim_C9 "oops" (25/2) 125 (by norm_num) (by norm_num)⟩

/-- A dataset whose three collections go through the three sorters is
sorted. -/
theorem sortedDS_mk (n : String) (a : List LogEntry) (b : List MetricDataPoint)
    (c : List DeploymentEvent) (al : Alert) :
    sortedDS ⟨n, sortLogs a, sortMetrics b, sortDeps c, al⟩ :=
  ⟨List.sorted_insertionSort _ _, List.sorted_insertionSort _ _,
    List.sorted_insertionSort _ _⟩

/-- Variant with a one-deployment list (trivially sorted). -/
theorem sortedDS_mk_single (n : String) (a : List LogEntry) (b : List MetricDataPoint)
    (d : DeploymentEvent) (al : Alert) :
    sortedDS ⟨n, sortLogs a, sortMetrics b, [d], al⟩ :=
  ⟨List.sorted_insertionSort _ _, List.sorted_insertionSort _ _,
    List.sorted_singleton _⟩

/-- Variant with no deployments. -/
theorem sortedDS_mk_nil (n : String) (a : List LogEntry) (b : List MetricDataPoint)
    (al : Alert) :
    sortedDS ⟨n, sortLogs a, sortMetrics b, [], al⟩ :=
  ⟨List.sorted_insertionSort _ _, List.sorted_insertionSort _ _,
    List.sorted_nil⟩

/-- Claim C4: for every scenario and every (seed, severity, incident time,
Gaussian draw, ambient world), the dataset a successful generation returns
has its logs, metrics and deployments each sorted non-decreasing by
timestamp. -/
theorem claim_C4 (gfn : RNG.GaussF) (seed : Nat) (severity : String)
    (incident_time : Option ℚ) (w : World) :
    sortedOutcome (MockDataGenerator.generate gfn "latent_config_bug" seed severity incident_time w) ∧
    sortedOutcome (MockDataGenerator.generate gfn "memory_leak" seed severity incident_time w) ∧
    sortedOutcome (MockDataGenerator.generate gfn "cascading_failure" seed severity incident_time w) ∧
    sortedOutcome (MockDataGenerator.generate gfn "traffic_spike" seed severity incident_time w) := by
  refine ⟨?_, ?_, ?_, ?_⟩
  · show sortedOutcome (LCB.generate gfn seed severity incident_time w)
    unfold LCB.generate
    cases hs : Severity.ofString? severity with
    | none => trivial
    | some sev => exact sortedDS_mk _ _ _ _ _
  · show sortedOutcome (ML.generate gfn seed severity incident_time w)
    unfold ML.generate
    cases hs : Severity.ofString? severity with
    | none => trivial
    | some sev => exact sortedDS_mk_single _ _ _ _ _
  · show sortedOutcome (CF.generate gfn seed severity incident_time w)
    unfold CF.generate
    cases hs : Severity.ofString? severity with
    | none => trivial
    | some sev => exact sortedDS_mk_nil _ _ _ _
  · show sortedOutcome (TS.generate gfn seed severity incident_time w)
    unfold TS.generate
    cases hs : Severity.ofString? severity with
    | none => trivial
    | some sev => exact sortedDS_mk_nil _ _ _ _

/-- Claim C3's counterexample: two invocations of the facade at identical
(scenario, seed, severity, incident time) but fresh ambient random tokens
yield datasets whose alerts differ (in `alert_id`), so the claim's
"identical ... and in their alert" fails. -/
theorem claim_C3_counterexample :
    ¬ (MockDataGenerator.generate gaussZero "latent_config_bug" 42 "critical"
        (some 0) ⟨0, "aaaaaaaaaaaa"⟩ =
       MockDataGenerator.generate gaussZero "latent_config_bug" 42 "critical"
        (some 0) ⟨0, "bbbbbbbbbbbb"⟩) := by
  intro h
  have ha : (MockDataGenerator.generate gaussZero "latent_config_bug" 42 "critical"
      (some 0) ⟨0, "aaaaaaaaaaaa"⟩).toOption.map (fun ds => ds.alert.alert_id) =
      some "aaaaaaaaaaaa" := rfl
  have hb : (MockDataGenerator.generate gaussZero "latent_config_bug" 42 "critical"
      (some 0) ⟨0, "bbbbbbbbbbbb"⟩).toOption.map (fun ds => ds.alert.alert_id) =
      some "bbbbbbbbbbbb" := rfl
  have h2 : (some "aaaaaaaaaaaa" : Option String) = some "bbbbbbbbbbbb" := by
    rw [← ha, ← hb]
    exact congrArg (fun r => r.toOption.map (fun ds => ds.alert.alert_id)) h
  exact absurd h2 (by decide)

/-- Claim C3 as amended: with the incident time supplied, any two facade
invocations at the same (scenario, seed, severity, incident_time) agree on
everything except the freshly drawn `alert_id` token — identical logs,
metrics, deployments and alert fields once `alert_id` is erased; and with
the other inputs fixed, seeds 42 and 99 of `latent_config_bug` already
differ in their log counts (77 versus 96). -/
theorem claim_C3 :
    (∀ (name : String) (seed : Nat) (severity : String) (t : ℚ)
      (gfn : RNG.GaussF) (w1 w2 : World),
      eraseTok (MockDataGenerator.generate gfn name seed severity (some t) w1) =
      eraseTok (MockDataGenerator.generate gfn name seed severity (some t) w2)) ∧
    (∀ (gfn : RNG.GaussF) (t : ℚ) (w : World),
      (MockDataGenerator.generate gfn "latent_config_bug" 42 "critical" (some t) w).toOption.map
          (fun ds => ds.logs.length) ≠
      (MockDataGenerator.generate gfn "latent_config_bug" 99 "critical" (some t) w).toOption.map
          (fun ds => ds.logs.length)) := by
  constructor
  · intro name seed severity t gfn w1 w2
    unfold MockDataGenerator.generate
    split_ifs
    · unfold LCB.generate
      cases hs : Severity.ofString? severity <;> rfl
    · unfold ML.generate
      cases hs : Severity.ofString? severity <;> rfl
    · unfold CF.generate
      cases hs : Severity.ofString? severity <;> rfl
    · unfold TS.generate
      cases hs : Severity.ofString? severity <;> rfl
    · rfl
  · intro gfn t w
    have h42 : MockDataGenerator.generate gfn "latent_config_bug" 42 "critical" (some t) w =
        LCB.generate gfn 42 "critical" (some t) w := rfl
    have h99 : MockDataGenerator.generate gfn "latent_config_bug" 99 "critical" (some t) w =
        LCB.generate gfn 99 "critical" (some t) w := rfl
    rw [h42, h99, lcbLen42, lcbLen99]
    intro h
    exact absurd (Option.some.inj h) (by decide)

/-- Claim C1: on any modelled failure inside the logs agent node — the
rate-limiter acquire or the LLM call raising with text `e` — the node
returns exactly the fallback update: one `AgentFinding` named "logs_agent"
with confidence 0.0 whose summary carries the error text, and the merged
state gains exactly the entry `"logs_agent: " ++ e` in its agent-errors
list; no exception propagates (the node is total). -/
theorem claim_C1 (settings : Settings) (rl : Except String Unit)
    (llm : Except String String) (parse : String → Option LogsReplyJson)
    (st : InvestigationState) (e : String)
    (h : rl = .error e ∨ (rl = .ok () ∧ llm = .error e)) :
    logs_agent_node settings rl llm parse st = logsAgentFallback e ∧
    (logs_agent_node settings rl llm parse st).findings =
      [⟨"logs_agent", "Log analysis failed: " ++ e, [], 0, [], none⟩] ∧
    (applyUpdate st (logs_agent_node settings rl llm parse st)).agent_errors =
      st.agent_errors ++ ["logs_agent: " ++ e] := by
  rcases h with h | ⟨h1, h2⟩
  · subst h
    exact ⟨rfl, rfl, rfl⟩
  · subst h1; subst h2
    exact ⟨rfl, rfl, rfl⟩

/-- Witness for C1 at a concrete failing input. -/
theorem claim_C1_witness :
    logs_agent_node defaultSettings (Except.error "rate limit blew up")
        (Except.ok "") (fun _ => none) sampleState
      = logsAgentFallback "rate limit blew up" ∧
    (logs_agent_node defaultSettings (Except.error "rate limit blew up")
        (Except.ok "") (fun _ => none) sampleState).findings =
      [⟨"logs_agent", "Log analysis failed: " ++ "rate limit blew up", [], 0, [], none⟩] ∧
    (applyUpdate sampleState (logs_agent_node defaultSettings
        (Except.error "rate limit blew up") (Except.ok "") (fun _ => none)
        sampleState)).agent_errors =
      sampleState.agent_errors ++ ["logs_agent: " ++ "rate limit blew up"] :=
  claim_C1 defaultSettings (Except.error "rate limit blew up") (Except.ok "")
    (fun _ => none) sampleState "rate limit blew up" (Or.inl rfl)

/-- Claim C2: the routing decision is a pure function of the accumulated
confidence and the configured threshold; it returns "act" exactly when the
confidence reaches the threshold (inclusive), otherwise "report"; and the
default threshold is 0.7. -/
theorem claim_C2 (settings : Settings) (st : InvestigationState) :
    (should_act_or_report settings st = "act" ↔
      settings.confidence_threshold_for_action ≤ st.confidence) ∧
    (should_act_or_report settings st = "report" ↔
      ¬ settings.confidence_threshold_for_action ≤ st.confidence) ∧
    (∀ st2 : InvestigationState, st.confidence = st2.confidence →
      should_act_or_report settings st = should_act_or_report settings st2) ∧
    defaultSettings.confidence_threshold_for_action = 7/10 := by
  refine ⟨?_, ?_, ?_, rfl⟩
  · unfold should_act_or_report
    split
    · next hc => simpa using hc
    · next hc =>
      simp only [ge_iff_le] at hc
      constructor
      · intro hcontra; exact absurd hcontra (by decide)
      · intro hle; exact absurd hle hc
  · unfold should_act_or_report
    split
    · next hc =>
      simp only [ge_iff_le] at hc
      constructor
      · intro hcontra; exact absurd hcontra (by decide)
      · intro hn; exact absurd hc hn
    · next hc =>
      simp only [ge_iff_le] at hc
      exact ⟨fun _ => hc, fun _ => rfl⟩
  · intro st2 hconf
    unfold should_act_or_report
    rw [hconf]

/-- Witness for C2's purity hypothesis at a concrete input. -/
theorem claim_C2_witness :
    (should_act_or_report defaultSettings sampleState = "act" ↔
      defaultSettings.confidence_threshold_for_action ≤ sampleState.confidence) ∧
    (should_act_or_report defaultSettings sampleState = "report" ↔
      ¬ defaultSettings.confidence_threshold_for_action ≤ sampleState.confidence) ∧
    (∀ st2 : InvestigationState, sampleState.confidence = st2.confidence →
      should_act_or_report defaultSettings sampleState = should_act_or_report defaultSettings st2) ∧
    defaultSettings.confidence_threshold_for_action = 7/10 :=
  claim_C2 defaultSettings sampleState

/-- Claim C6: the terminal report step assembles the final report from the
accumulated state — alert, plan, findings, root cause (defaulting to
"Undetermined"), confidence, the timeline wrapped from the reasoning trace,
recommendation (defaulting to empty), and the remediation action — under
the freshly generated investigation id, with the report's status set to
completed. -/
theorem claim_C6 (nowTime : ℚ) (freshId : String) (st : InvestigationState) :
    (report_node nowTime freshId st).report.map (fun r => r.status)
      = some InvestigationStatus.completed ∧
    (report_node nowTime freshId st).report.map (fun r => r.investigation_id) = some freshId ∧
    (report_node nowTime freshId st).report.map (fun r => r.alert) = some st.alert ∧
    (report_node nowTime freshId st).report.map (fun r => r.plan) = some st.plan ∧
    (report_node nowTime freshId st).report.map (fun r => r.findings) = some st.findings ∧
    (report_node nowTime freshId st).report.map (fun r => r.root_cause)
      = some (st.root_cause.getD "Undetermined") ∧
    (report_node nowTime freshId st).report.map (fun r => r.confidence) = some st.confidence ∧
    (report_node nowTime freshId st).report.map (fun r => r.timeline)
      = some (st.reasoning_trace.map (fun tr => ⟨nowTime, tr, "reasoning_trace"⟩)) ∧
    (report_node nowTime freshId st).report.map (fun r => r.recommendation)
      = some (st.recommendation.getD "") ∧
    (report_node nowTime freshId st).report.map (fun r => r.remediation_action)
      = some st.remediation_action :=
  ⟨rfl, rfl, rfl, rfl, rfl, rfl, rfl, rfl, rfl, rfl⟩

/-- Claim C10: whenever the LLM reply parses as the required JSON shape,
the produced finding's `relevant_timestamps` is the empty list — even when
the parsed reply carries timestamps — and the parsed reply is retained only
in `raw_data`. -/
theorem claim_C10 (settings : Settings) (content : String)
    (parse : String → Option LogsReplyJson) (st : InvestigationState)
    (r : LogsReplyJson) (h : parse content = some r) :
    (logs_agent_node settings (Except.ok ()) (Except.ok content) parse st).findings.map
        (fun f => f.relevant_timestamps) = [[]] ∧
    (logs_agent_node settings (Except.ok ()) (Except.ok content) parse st).findings.map
        (fun f => f.raw_data) = [some r] := by
  simp only [logs_agent_node, h]
  exact ⟨rfl, rfl⟩

/-- Witness for C10 with a parsed reply carrying two timestamps. -/
theorem claim_C10_witness :
    (logs_agent_node defaultSettings (Except.ok ()) (Except.ok "{}")
        (fun _ => some sampleReply) sampleState).findings.map
        (fun f => f.relevant_timestamps) = [[]] ∧
    (logs_agent_node defaultSettings (Except.ok ()) (Except.ok "{}")
        (fun _ => some sampleReply) sampleState).findings.map
        (fun f => f.raw_data) = [some sampleReply] :=
  claim_C10 defaultSettings "{}" (fun _ => some sampleReply) sampleState sampleReply rfl
